import Mathlib

/-!
# nysys monitoring lifecycle controller

A shallow embedding of `src/src/nysys.cpp` together with the parts of
`include/nysys/internal.hpp` and `include/nysys/nysys.hpp` it relies on.

* The global `g_MonitorContext` becomes an explicit `MonitorContext` value that
  every operation takes and returns.
* Results of operating-system calls (`CreateEvent`, `_beginthreadex`,
  `WaitForSingleObject`, `steady_clock::now`) and of the collectors and the
  serializer are inputs of the operation that performs the call.
* The worker loop is embedded one iteration at a time (`monitoring_thread_cycle`);
  every iteration returns the new context and the list of externally visible
  events it produced (locks taken, collectors run, callbacks called, sleep).
-/

/-! ## `include/nysys/nysys.hpp` : constants -/

namespace nysys

/-- Constant `MIN_UPDATE_INTERVAL_MS` of nysys.hpp line 20. -/
def MIN_UPDATE_INTERVAL_MS : Int := 100

/-- Constant `DEFAULT_UPDATE_INTERVAL_MS` of nysys.hpp line 21. -/
def DEFAULT_UPDATE_INTERVAL_MS : Int := 1000

/-- Constant `MAX_THREAD_WAIT_MS` of nysys.hpp line 22. -/
def MAX_THREAD_WAIT_MS : Int := 5000

/-! ## `include/nysys/internal.hpp` -/

/-- The enum `MonitoringError` of internal.hpp lines 22-37, in declaration order. -/
inductive MonitoringError
  | Success
  | InvalidParameter
  | InvalidInterval
  | AlreadyRunning
  | NotRunning
  | ThreadCreationFailed
  | ThreadTerminationFailed
  | EventCreationFailed
  | SystemResourceError
  | DataCollectionFailed
  | JsonGenerationFailed
  | CallbackFailed
  | CallbackExecutionFailed
  | UnknownError
  deriving DecidableEq, Repr, Inhabited

/-- Payload of a collected `GPUList`; the controller never looks inside it. -/
abbrev GPUList := Nat
/-- Payload of a collected `MotherboardInfo`. -/
abbrev MotherboardInfo := Nat
/-- Payload of a collected `CPUList`. -/
abbrev CPUList := Nat
/-- Payload of a collected `AudioList`. -/
abbrev AudioList := Nat
/-- Payload of a collected `MonitorList`. -/
abbrev MonitorList := Nat
/-- Payload of a collected `MemoryInfo`. -/
abbrev MemoryInfo := Nat
/-- Payload of a collected `StorageList`. -/
abbrev StorageList := Nat
/-- Payload of a collected `BatteryInfo`. -/
abbrev BatteryInfo := Nat
/-- Payload of a collected `NetworkList`. -/
abbrev NetworkList := Nat

/-- The struct `StaticInfo` of internal.hpp lines 91-151: five owning pointers, `none` for a
null `unique_ptr`. -/
structure StaticInfo where
  gpuList : Option GPUList := none
  mbInfo : Option MotherboardInfo := none
  cpuList : Option CPUList := none
  audioList : Option AudioList := none
  monitorList : Option MonitorList := none
  deriving DecidableEq, Repr

/-- Method `StaticInfo::IsComplete`, internal.hpp line 106. -/
def StaticInfo.IsComplete (i : StaticInfo) : Bool :=
  i.gpuList.isSome && i.mbInfo.isSome && i.cpuList.isSome && i.audioList.isSome &&
    i.monitorList.isSome

/-- Method `StaticInfo::Reset`, internal.hpp lines 134-140. -/
def StaticInfo.Reset (_i : StaticInfo) : StaticInfo :=
  { gpuList := none, mbInfo := none, cpuList := none, audioList := none, monitorList := none }

/-- The struct `DynamicInfo` of internal.hpp lines 153-207. -/
structure DynamicInfo where
  memInfo : Option MemoryInfo := none
  storageList : Option StorageList := none
  batteryInfo : Option BatteryInfo := none
  networkList : Option NetworkList := none
  deriving DecidableEq, Repr

/-- Method `DynamicInfo::IsComplete`, internal.hpp line 167. -/
def DynamicInfo.IsComplete (i : DynamicInfo) : Bool :=
  i.memInfo.isSome && i.storageList.isSome && i.batteryInfo.isSome && i.networkList.isSome

/-- Method `DynamicInfo::IsEssentialComplete`, internal.hpp line 169. -/
def DynamicInfo.IsEssentialComplete (i : DynamicInfo) : Bool :=
  i.memInfo.isSome && i.storageList.isSome && i.networkList.isSome

/-- Method `DynamicInfo::Reset`, internal.hpp lines 193-198. -/
def DynamicInfo.Reset (_i : DynamicInfo) : DynamicInfo :=
  { memInfo := none, storageList := none, batteryInfo := none, networkList := none }

end nysys

open nysys

/-! ## `src/nysys.cpp` : handles, callbacks, clock -/

/-- A Win32 `HANDLE`, as the integer value of the pointer. -/
abbrev HANDLE := Int

/-- The null handle. -/
def NULL_HANDLE : HANDLE := 0

/-- Win32 `INVALID_HANDLE_VALUE`, the pointer value `-1`. -/
def INVALID_HANDLE_VALUE : HANDLE := -1

/-- The class `HandleWrapper` of nysys.cpp lines 18-59: one owned handle. -/
structure HandleWrapper where
  m_handle : HANDLE := 0
  deriving DecidableEq, Repr

/-- Method `HandleWrapper::IsValid`, nysys.cpp line 48 (also `operator bool`, line 46). -/
def HandleWrapper.IsValid (h : HandleWrapper) : Bool :=
  h.m_handle != NULL_HANDLE && h.m_handle != INVALID_HANDLE_VALUE

/-- Method `HandleWrapper::reset`, nysys.cpp lines 41-44: the old handle is closed (an effect
outside the context) and the new one stored. -/
def HandleWrapper.reset (_h : HandleWrapper) (newHandle : HANDLE) : HandleWrapper :=
  { m_handle := newHandle }

/-- A C callback `NysysCallback`: the function pointer, identified by its address; `none` in a
callback slot is `nullptr`. -/
abbrev NysysCallback := Nat

/-- A C++ callback, the target of a non-empty `std::function`; `none` in the slot is the empty
`std::function`. -/
abbrev CppCallback := Nat

/-- A `steady_clock::time_point`, as its `time_since_epoch().count()`; the value-initialised
time point is 0. -/
abbrev TimePoint := Int

/-- Width of `size_t` (64-bit build). -/
def SIZE_BITS : Nat := 64

/-! ## `MonitorContext` -/

/-- The class `MonitorContext` of nysys.cpp lines 61-176, without its three mutexes. The default
values are the member initialisers of lines 63-83. -/
structure MonitorContext where
  isRunning : Bool := false
  updateInterval : Int := DEFAULT_UPDATE_INTERVAL_MS
  isFirstRun : Bool := true
  shouldStop : Bool := false
  cycleCount : Nat := 0
  lastError : MonitoringError := MonitoringError.Success
  monitorThread : HandleWrapper := {}
  stopEvent : HandleWrapper := {}
  cCallback : Option NysysCallback := none
  cppCallback : Option CppCallback := none
  staticInfo : StaticInfo := {}
  dynamicInfo : DynamicInfo := {}
  startTime : TimePoint := 0
  lastUpdateTime : TimePoint := 0
  deriving DecidableEq, Repr

/-- The global `g_MonitorContext` of nysys.cpp line 178, as default-constructed. -/
def g_MonitorContext : MonitorContext := {}

namespace MonitorContext

/-- Method `MonitorContext::Reset`, nysys.cpp lines 90-100. -/
def Reset (c : MonitorContext) : MonitorContext :=
  { c with
    staticInfo := c.staticInfo.Reset
    dynamicInfo := c.dynamicInfo.Reset
    isFirstRun := true
    shouldStop := false
    cycleCount := 0
    lastError := MonitoringError.Success
    startTime := 0
    lastUpdateTime := 0 }

/-- Method `MonitorContext::IsValidInterval`, nysys.cpp lines 102-104. -/
def IsValidInterval (intervalMs : Int) : Bool :=
  decide (intervalMs ≥ MIN_UPDATE_INTERVAL_MS) && decide (intervalMs ≤ 3600000)

/-- Method `MonitorContext::SetLastError`, nysys.cpp lines 115-118. -/
def SetLastError (c : MonitorContext) (error : MonitoringError) : MonitorContext :=
  { c with lastError := error }

/-- Method `MonitorContext::GetLastError`, nysys.cpp lines 120-123. -/
def GetLastError (c : MonitorContext) : MonitoringError :=
  c.lastError

/-- Method `MonitorContext::SetUpdateInterval`, nysys.cpp lines 106-113: the returned code and the
context afterwards. -/
def SetUpdateInterval (c : MonitorContext) (intervalMs : Int) :
    MonitoringError × MonitorContext :=
  if !IsValidInterval intervalMs then
    (MonitoringError.InvalidParameter, c.SetLastError MonitoringError.InvalidParameter)
  else
    (MonitoringError.Success, { c with updateInterval := intervalMs })

/-- Method `MonitorContext::InitializeSession`, nysys.cpp lines 153-158; `now` is the value
returned by `steady_clock::now()`. -/
def InitializeSession (c : MonitorContext) (now : TimePoint) : MonitorContext :=
  ({ c with startTime := now, lastUpdateTime := now, cycleCount := 0 }).SetLastError
    MonitoringError.Success

/-- Method `MonitorContext::IncrementCycle`, nysys.cpp lines 160-163; `cycleCount` is a `size_t`
and wraps. -/
def IncrementCycle (c : MonitorContext) (now : TimePoint) : MonitorContext :=
  { c with cycleCount := (c.cycleCount + 1) % 2 ^ SIZE_BITS, lastUpdateTime := now }

/-- Method `MonitorContext::GetUptime`, nysys.cpp lines 165-171. The result is in clock ticks
converted to milliseconds with `ticksPerMs` ticks per millisecond (`duration_cast` truncates
toward zero). -/
def GetUptime (c : MonitorContext) (now : TimePoint) (ticksPerMs : Int) : Int :=
  if c.startTime == 0 then 0 else Int.tdiv (now - c.startTime) ticksPerMs

/-- Method `MonitorContext::ShouldStop`, nysys.cpp line 173. -/
def ShouldStop (c : MonitorContext) : Bool :=
  c.shouldStop || !c.isRunning

/-- Method `MonitorContext::RequestStop`, nysys.cpp line 175. -/
def RequestStop (c : MonitorContext) : MonitorContext :=
  { c with shouldStop := true }

end MonitorContext

/-! ## Collectors, serializer and callbacks -/

/-- Outcome of calling a collector `Get...()`: it returns a `unique_ptr` (`none` when null) or it
throws. -/
inductive CallResult (α : Type)
  | returns (p : Option α)
  | throws
  deriving DecidableEq, Repr

/-- What one worker iteration receives from outside the controller: whether the stop event is
signalled, what each collector and the serializer give, whether a callback throws on a document,
and the clock value read by `IncrementCycle`. -/
structure CycleEnv where
  stopSignalled : Bool
  GetCPUList : CallResult CPUList
  GetGPUList : CallResult GPUList
  GetMotherboardInfo : CallResult MotherboardInfo
  GetAudioDeviceList : CallResult AudioList
  GetMonitorList : CallResult MonitorList
  GetMemoryInfo : CallResult MemoryInfo
  GetStorageList : CallResult StorageList
  GetNetworkAdapterList : CallResult NetworkList
  GetBatteryInfo : CallResult BatteryInfo
  GenerateSystemInfo : StaticInfo → DynamicInfo → Option String
  cCallbackThrows : NysysCallback → String → Bool
  cppCallbackThrows : CppCallback → String → Bool
  now : TimePoint

/-- The three mutexes of `MonitorContext`, nysys.cpp lines 72-74. -/
inductive Mutex
  | dataMutex
  | callbackMutex
  | errorMutex
  deriving DecidableEq, Repr

/-- What a worker iteration does that is visible outside the context, in program order. -/
inductive Event
  | lock (m : Mutex)
  | unlock (m : Mutex)
  | collectStatic
  | collectDynamic
  | generateJson
  | callC (callback : NysysCallback) (jsonData : String)
  | callCpp (callback : CppCallback) (jsonData : String)
  | sleep (ms : Nat)
  deriving DecidableEq, Repr

/-- Events of one `SetLastError` call: the error mutex is taken and released. -/
def setLastErrorEvents : List Event :=
  [Event.lock Mutex.errorMutex, Event.unlock Mutex.errorMutex]

/-- Function `CollectStaticInfo`, nysys.cpp lines 180-212: every collector result is stored before
it is tested; a null result returns at once, a throw resets the whole snapshot. -/
def CollectStaticInfo (env : CycleEnv) (staticInfo : StaticInfo) :
    MonitoringError × StaticInfo :=
  match env.GetCPUList with
  | CallResult.throws => (MonitoringError.DataCollectionFailed, staticInfo.Reset)
  | CallResult.returns cpu =>
    let i1 := { staticInfo with cpuList := cpu }
    if cpu.isNone then (MonitoringError.DataCollectionFailed, i1) else
    match env.GetGPUList with
    | CallResult.throws => (MonitoringError.DataCollectionFailed, i1.Reset)
    | CallResult.returns gpu =>
      let i2 := { i1 with gpuList := gpu }
      if gpu.isNone then (MonitoringError.DataCollectionFailed, i2) else
      match env.GetMotherboardInfo with
      | CallResult.throws => (MonitoringError.DataCollectionFailed, i2.Reset)
      | CallResult.returns mb =>
        let i3 := { i2 with mbInfo := mb }
        if mb.isNone then (MonitoringError.DataCollectionFailed, i3) else
        match env.GetAudioDeviceList with
        | CallResult.throws => (MonitoringError.DataCollectionFailed, i3.Reset)
        | CallResult.returns audio =>
          let i4 := { i3 with audioList := audio }
          if audio.isNone then (MonitoringError.DataCollectionFailed, i4) else
          match env.GetMonitorList with
          | CallResult.throws => (MonitoringError.DataCollectionFailed, i4.Reset)
          | CallResult.returns monitors =>
            let i5 := { i4 with monitorList := monitors }
            if monitors.isNone then (MonitoringError.DataCollectionFailed, i5)
            else (MonitoringError.Success, i5)

/-- Function `CollectDynamicInfo`, nysys.cpp lines 214-238: memory, storage and network must be
non-null, the battery result is stored untested. -/
def CollectDynamicInfo (env : CycleEnv) (dynamicInfo : DynamicInfo) :
    MonitoringError × DynamicInfo :=
  match env.GetMemoryInfo with
  | CallResult.throws => (MonitoringError.DataCollectionFailed, dynamicInfo.Reset)
  | CallResult.returns mem =>
    let i1 := { dynamicInfo with memInfo := mem }
    if mem.isNone then (MonitoringError.DataCollectionFailed, i1) else
    match env.GetStorageList with
    | CallResult.throws => (MonitoringError.DataCollectionFailed, i1.Reset)
    | CallResult.returns storage =>
      let i2 := { i1 with storageList := storage }
      if storage.isNone then (MonitoringError.DataCollectionFailed, i2) else
      match env.GetNetworkAdapterList with
      | CallResult.throws => (MonitoringError.DataCollectionFailed, i2.Reset)
      | CallResult.returns network =>
        let i3 := { i2 with networkList := network }
        if network.isNone then (MonitoringError.DataCollectionFailed, i3) else
        match env.GetBatteryInfo with
        | CallResult.throws => (MonitoringError.DataCollectionFailed, i3.Reset)
        | CallResult.returns battery =>
          (MonitoringError.Success, { i3 with batteryInfo := battery })

/-- Function `GenerateJsonSafely`, nysys.cpp lines 240-257. `json::GenerateSystemInfo` is declared
`noexcept`, so the `catch` of line 254 is never entered. -/
def GenerateJsonSafely (env : CycleEnv) (staticInfo : StaticInfo) (dynamicInfo : DynamicInfo) :
    Option String :=
  if !staticInfo.IsComplete || !dynamicInfo.IsEssentialComplete then none
  else env.GenerateSystemInfo staticInfo dynamicInfo

/-- Events of the C slot in `InvokeCallbacks`, nysys.cpp lines 134-140. -/
def cCallbackEvents (c : MonitorContext) (jsonData : String) : List Event :=
  match c.cCallback with
  | some f => [Event.callC f jsonData]
  | none => []

/-- Events of the C++ slot in `InvokeCallbacks`, nysys.cpp lines 142-148. -/
def cppCallbackEvents (c : MonitorContext) (jsonData : String) : List Event :=
  match c.cppCallback with
  | some f => [Event.callCpp f jsonData]
  | none => []

/-- The flag `callbackFailed` of `InvokeCallbacks` at nysys.cpp line 150: some installed callback
threw. -/
def callbackFailed (env : CycleEnv) (c : MonitorContext) (jsonData : String) : Bool :=
  (match c.cCallback with
    | some f => env.cCallbackThrows f jsonData
    | none => false) ||
  (match c.cppCallback with
    | some f => env.cppCallbackThrows f jsonData
    | none => false)

/-- Method `MonitorContext::InvokeCallbacks`, nysys.cpp lines 125-151: the returned code and the
events (an empty document returns before the lock is taken). The context is not changed. -/
def MonitorContext.InvokeCallbacks (env : CycleEnv) (c : MonitorContext) (jsonData : String) :
    MonitoringError × List Event :=
  if jsonData.isEmpty then (MonitoringError.InvalidParameter, [])
  else
    (if callbackFailed env c jsonData then MonitoringError.CallbackExecutionFailed
      else MonitoringError.Success,
     [Event.lock Mutex.callbackMutex] ++ cCallbackEvents c jsonData ++
       cppCallbackEvents c jsonData ++ [Event.unlock Mutex.callbackMutex])

/-! ## The worker loop -/

/-- Lines 266-274 of `monitoring_thread`: static collection while `isFirstRun` is set. -/
def staticPhase (env : CycleEnv) (c : MonitorContext) : MonitorContext × List Event :=
  if c.isFirstRun then
    let r := CollectStaticInfo env c.staticInfo
    let c1 := { c with staticInfo := r.2 }
    if r.1 == MonitoringError.Success then
      ({ c1 with isFirstRun := false },
       [Event.lock Mutex.dataMutex, Event.collectStatic, Event.unlock Mutex.dataMutex])
    else
      (c1.SetLastError r.1,
       [Event.lock Mutex.dataMutex, Event.collectStatic] ++ setLastErrorEvents ++
         [Event.unlock Mutex.dataMutex])
  else (c, [])

/-- Lines 276-280 of `monitoring_thread`: dynamic collection, every iteration. -/
def dynamicPhase (env : CycleEnv) (c : MonitorContext) :
    MonitoringError × MonitorContext × List Event :=
  let r := CollectDynamicInfo env c.dynamicInfo
  (r.1, { c with dynamicInfo := r.2 },
   [Event.lock Mutex.dataMutex, Event.collectDynamic, Event.unlock Mutex.dataMutex])

/-- Lines 282-299 of `monitoring_thread`: serialize and dispatch, or record the failure. -/
def emitPhase (env : CycleEnv) (dynamicResult : MonitoringError) (c : MonitorContext) :
    MonitorContext × List Event :=
  if dynamicResult == MonitoringError.Success && !c.isFirstRun then
    let gen := [Event.lock Mutex.dataMutex, Event.generateJson, Event.unlock Mutex.dataMutex]
    match GenerateJsonSafely env c.staticInfo c.dynamicInfo with
    | some jsonOutput =>
      let r := c.InvokeCallbacks env jsonOutput
      if r.1 != MonitoringError.Success then
        (c.SetLastError r.1, gen ++ r.2 ++ setLastErrorEvents)
      else (c, gen ++ r.2)
    | none => (c.SetLastError MonitoringError.JsonGenerationFailed, gen ++ setLastErrorEvents)
  else if dynamicResult != MonitoringError.Success then
    (c.SetLastError dynamicResult, setLastErrorEvents)
  else (c, [])

/-- The `DWORD` passed to `Sleep` at nysys.cpp line 309: the 32-bit interval reinterpreted as
unsigned. -/
def sleepDuration (currentInterval : Int) : Nat :=
  (currentInterval % 2 ^ 32).toNat

/-- Lines 301-309 of `monitoring_thread`: discard the dynamic snapshot, count the cycle, sleep
for the interval as it is stored now. -/
def endPhase (env : CycleEnv) (c : MonitorContext) : MonitorContext × List Event :=
  let c1 := { c with dynamicInfo := c.dynamicInfo.Reset }
  let c2 := c1.IncrementCycle env.now
  (c2, [Event.lock Mutex.dataMutex, Event.unlock Mutex.dataMutex,
        Event.sleep (sleepDuration c2.updateInterval)])

/-- One pass of the `while` loop of `monitoring_thread`, nysys.cpp lines 262-310: `none` when the
loop ends (`isRunning` is false or the stop event is signalled), otherwise the context and the
events at the end of the iteration's sleep. -/
def monitoring_thread_cycle (env : CycleEnv) (c : MonitorContext) :
    Option (MonitorContext × List Event) :=
  if !c.isRunning then none
  else if env.stopSignalled then none
  else
    let p1 := staticPhase env c
    let p2 := dynamicPhase env p1.1
    let p3 := emitPhase env p2.1 p2.2.1
    let p4 := endPhase env p3.1
    some (p4.1, p1.2 ++ p2.2.2 ++ p3.2 ++ p4.2)

/-- The loop of `monitoring_thread` over the iterations whose inputs are given: it stops at the
first iteration that ends the loop, or when the inputs are used up. The `Bool` tells whether
the loop has ended (the thread returned 0). -/
def monitoring_thread_loop :
    List CycleEnv → MonitorContext → MonitorContext × List Event × Bool
  | [], c => (c, [], false)
  | env :: rest, c =>
    match monitoring_thread_cycle env c with
    | none => (c, [], true)
    | some r =>
      let r2 := monitoring_thread_loop rest r.1
      (r2.1, r.2 ++ r2.2.1, r2.2.2)

/-- Function `monitoring_thread`, nysys.cpp lines 259-313: `InitializeSession` with the clock
value `now`, then the loop. -/
def monitoring_thread (now : TimePoint) (envs : List CycleEnv) (c : MonitorContext) :
    MonitorContext × List Event × Bool :=
  monitoring_thread_loop envs (c.InitializeSession now)

/-- The `Sleep` durations in a list of events, in order. -/
def sleeps : List Event → List Nat
  | [] => []
  | Event.sleep ms :: rest => ms :: sleeps rest
  | _ :: rest => sleeps rest

/-! ## The C interface -/

/-- Win32 `BOOL` of the C interface: `TRUE` and `FALSE`. -/
abbrev BOOL := Bool

/-- Results of the two system calls made by `start_monitoring`: the handle returned by
`CreateEvent` (null on failure) and by `_beginthreadex` (0 on failure). -/
structure StartEnv where
  CreateEvent : HANDLE
  beginthreadex : HANDLE
  deriving DecidableEq, Repr

/-- Function `start_monitoring`, nysys.cpp lines 315-356: the returned `BOOL` and the context
afterwards. Nothing in the `try` block throws, so the `catch` of line 349 is not entered. The
worker started at line 339 is embedded separately (`monitoring_thread`). -/
def start_monitoring (env : StartEnv) (updateIntervalMs : Int) (c : MonitorContext) :
    BOOL × MonitorContext :=
  if c.isRunning then
    (false, c.SetLastError MonitoringError.AlreadyRunning)
  else
    let r := c.SetUpdateInterval updateIntervalMs
    if r.1 != MonitoringError.Success then
      (false, r.2.SetLastError r.1)
    else
      let c1 := { r.2 with isFirstRun := true }
      if env.CreateEvent == NULL_HANDLE then
        (false, c1.SetLastError MonitoringError.SystemResourceError)
      else
        let c2 := { c1 with stopEvent := c1.stopEvent.reset env.CreateEvent }
        let c3 := c2.Reset
        if env.beginthreadex == NULL_HANDLE then
          (false, ({ c3 with stopEvent := c3.stopEvent.reset NULL_HANDLE }).SetLastError
            MonitoringError.ThreadCreationFailed)
        else
          let c4 := { c3 with monitorThread := c3.monitorThread.reset env.beginthreadex }
          (true, { c4 with isRunning := true })

/-- A `DWORD` returned by `WaitForSingleObject`. -/
abbrev DWORD := Nat

/-- Win32 `WAIT_OBJECT_0`. -/
def WAIT_OBJECT_0 : DWORD := 0
/-- Win32 `WAIT_TIMEOUT`, 0x102. -/
def WAIT_TIMEOUT : DWORD := 258
/-- Win32 `WAIT_FAILED`, 0xFFFFFFFF. -/
def WAIT_FAILED : DWORD := 4294967295

/-- Lines 368-377 of `stop_monitoring`: the error recorded after the bounded wait on the worker
handle, whose result is `waitResult`. -/
def waitForWorker (waitResult : DWORD) (c : MonitorContext) : MonitorContext :=
  if c.monitorThread.IsValid then
    if waitResult == WAIT_TIMEOUT then
      c.SetLastError MonitoringError.ThreadTerminationFailed
    else if waitResult == WAIT_FAILED then
      c.SetLastError MonitoringError.SystemResourceError
    else c
  else c

/-- Function `stop_monitoring`, nysys.cpp lines 358-390; `waitResult` is what the wait on the
worker handle (at most `MAX_THREAD_WAIT_MS`) returns. -/
def stop_monitoring (waitResult : DWORD) (c : MonitorContext) : MonitorContext :=
  if !c.isRunning then c
  else
    let c1 := c.RequestStop
    let c2 := waitForWorker waitResult c1
    let c3 := { c2 with isRunning := false }
    let c4 := c3.Reset
    let c5 := { c4 with monitorThread := c4.monitorThread.reset NULL_HANDLE }
    let c6 := { c5 with stopEvent := c5.stopEvent.reset NULL_HANDLE }
    { c6 with cCallback := none, cppCallback := none }

/-- Function `set_update_interval`, nysys.cpp lines 392-397. -/
def set_update_interval (updateIntervalMs : Int) (c : MonitorContext) : MonitorContext :=
  let r := c.SetUpdateInterval updateIntervalMs
  if r.1 != MonitoringError.Success then r.2.SetLastError r.1 else r.2

/-- Function `set_callback`, nysys.cpp lines 399-409. -/
def set_callback (callback : Option NysysCallback) (c : MonitorContext) : MonitorContext :=
  let c1 := { c with cCallback := callback }
  if callback.isSome then
    if c1.GetLastError == MonitoringError.CallbackFailed then
      c1.SetLastError MonitoringError.Success
    else c1
  else c1

/-- Function `is_monitoring`, nysys.cpp line 411. -/
def is_monitoring (c : MonitorContext) : BOOL :=
  if c.isRunning then true else false

/-! ## The C++ interface -/

namespace nysys

/-- Function `nysys::StartMonitoring`, nysys.cpp lines 415-429: `Except.error e` is a thrown
`MonitoringException` carrying `e`; the context is returned in both cases. -/
def StartMonitoring (env : StartEnv) (updateIntervalMs : Int) (c : MonitorContext) :
    Except MonitoringError Bool × MonitorContext :=
  let r := c.SetUpdateInterval updateIntervalMs
  if r.1 != MonitoringError.Success then (Except.error r.1, r.2)
  else
    let s := start_monitoring env updateIntervalMs r.2
    let result := s.1 != false
    if !result then
      let lastError := s.2.GetLastError
      if lastError != MonitoringError.Success then (Except.error lastError, s.2)
      else (Except.ok result, s.2)
    else (Except.ok result, s.2)

/-- Function `nysys::StopMonitoring`, nysys.cpp line 431. -/
def StopMonitoring (waitResult : DWORD) (c : MonitorContext) : MonitorContext :=
  stop_monitoring waitResult c

/-- Function `nysys::SetUpdateInterval`, nysys.cpp lines 433-439: `Except.error e` is a thrown
`MonitoringException` carrying `e`. -/
def SetUpdateInterval (updateIntervalMs : Int) (c : MonitorContext) :
    Except MonitoringError Unit × MonitorContext :=
  let r := c.SetUpdateInterval updateIntervalMs
  if r.1 != MonitoringError.Success then (Except.error r.1, r.2)
  else (Except.ok (), set_update_interval updateIntervalMs r.2)

/-- Function `nysys::SetCallback`, nysys.cpp lines 441-451. -/
def SetCallback (callback : Option CppCallback) (c : MonitorContext) : MonitorContext :=
  let c1 := { c with cppCallback := callback }
  if callback.isSome then
    if c1.GetLastError == MonitoringError.CallbackFailed then
      c1.SetLastError MonitoringError.Success
    else c1
  else c1

/-- Function `nysys::IsMonitoring`, nysys.cpp line 453. -/
def IsMonitoring (c : MonitorContext) : Bool :=
  c.isRunning

/-- Function `nysys::GetLastError`, nysys.cpp line 455. -/
def GetLastError (c : MonitorContext) : MonitoringError :=
  c.GetLastError

/-- Function `nysys::GetUptime`, nysys.cpp line 457. -/
def GetUptime (c : MonitorContext) (now : TimePoint) (ticksPerMs : Int) : Int :=
  c.GetUptime now ticksPerMs

end nysys

/-! ## Observations on an iteration and sequences of operations -/

/-- The callback calls in a list of events, in order: the events `callC` and `callCpp`, each
with the callback called and the document it was given. -/
def callbackCalls : List Event → List Event
  | [] => []
  | Event.callC callback jsonData :: rest => Event.callC callback jsonData :: callbackCalls rest
  | Event.callCpp callback jsonData :: rest =>
    Event.callCpp callback jsonData :: callbackCalls rest
  | _ :: rest => callbackCalls rest

/-- The number of `CollectStaticInfo` calls in a list of events. -/
def staticCollections : List Event → Nat
  | [] => 0
  | Event.collectStatic :: rest => staticCollections rest + 1
  | _ :: rest => staticCollections rest

/-- The number of `CollectDynamicInfo` calls in a list of events. -/
def dynamicCollections : List Event → Nat
  | [] => 0
  | Event.collectDynamic :: rest => dynamicCollections rest + 1
  | _ :: rest => dynamicCollections rest

/-- The number of `GenerateJsonSafely` calls in a list of events. -/
def serializations : List Event → Nat
  | [] => 0
  | Event.generateJson :: rest => serializations rest + 1
  | _ :: rest => serializations rest

/-- The mutexes held after a list of events, when `held` were held before it: a `lock_guard`
adds its mutex when it is constructed and gives it back at the end of its scope. -/
def heldAfter : List Mutex → List Event → List Mutex
  | held, [] => held
  | held, Event.lock m :: rest => heldAfter (m :: held) rest
  | held, Event.unlock m :: rest => heldAfter (held.erase m) rest
  | held, _ :: rest => heldAfter held rest

/-- Every event other than taking or releasing a mutex, with the mutexes held when it happens
(`held` are those held before the list starts). -/
def underLocks : List Mutex → List Event → List (Event × List Mutex)
  | _, [] => []
  | held, Event.lock m :: rest => underLocks (m :: held) rest
  | held, Event.unlock m :: rest => underLocks (held.erase m) rest
  | held, e :: rest => (e, held) :: underLocks held rest

/-- The variable `jsonOutput` as tested at nysys.cpp line 289 in an iteration entered in context
`c`: the result of `GenerateJsonSafely` on the snapshots held after lines 266-280, and `none`
also when the test of line 282 fails and line 286 is not reached. -/
def cycleDocument (env : CycleEnv) (c : MonitorContext) : Option String :=
  let p1 := staticPhase env c
  let p2 := dynamicPhase env p1.1
  if p2.1 == MonitoringError.Success && !p2.2.1.isFirstRun then
    GenerateJsonSafely env p2.2.1.staticInfo p2.2.1.dynamicInfo
  else none

/-- One step of the controller: a call of the C or C++ interface with the results of the system
calls it makes, or a step of the worker thread (its `InitializeSession`, or one pass of its
loop). -/
inductive Op
  | start_monitoring (env : StartEnv) (updateIntervalMs : Int)
  | stop_monitoring (waitResult : DWORD)
  | set_update_interval (updateIntervalMs : Int)
  | set_callback (callback : Option NysysCallback)
  | StartMonitoring (env : StartEnv) (updateIntervalMs : Int)
  | StopMonitoring (waitResult : DWORD)
  | SetUpdateInterval (updateIntervalMs : Int)
  | SetCallback (callback : Option CppCallback)
  | workerInit (now : TimePoint)
  | workerCycle (env : CycleEnv)

/-- The context after one step. The worker exists between a successful `start_monitoring` and
the next `stop_monitoring`, so its steps act only while `isRunning` is set; a pass of the loop
that ends the loop leaves the context as it is. -/
def applyOp (op : Op) (c : MonitorContext) : MonitorContext :=
  match op with
  | Op.start_monitoring env i => (start_monitoring env i c).2
  | Op.stop_monitoring w => stop_monitoring w c
  | Op.set_update_interval i => set_update_interval i c
  | Op.set_callback cb => set_callback cb c
  | Op.StartMonitoring env i => (nysys.StartMonitoring env i c).2
  | Op.StopMonitoring w => nysys.StopMonitoring w c
  | Op.SetUpdateInterval i => (nysys.SetUpdateInterval i c).2
  | Op.SetCallback cb => nysys.SetCallback cb c
  | Op.workerInit now => if c.isRunning then c.InitializeSession now else c
  | Op.workerCycle env =>
    match monitoring_thread_cycle env c with
    | some r => r.1
    | none => c

/-- The context after a sequence of steps, taken in order. -/
def runOps : List Op → MonitorContext → MonitorContext
  | [], c => c
  | op :: rest, c => runOps rest (applyOp op c)

/-! ## Iteration inputs used as concrete instances -/

/-- An iteration input in which the stop event is not signalled, every collector returns a
snapshot, the serializer returns the document `doc` and no callback throws. -/
def healthyCycle : CycleEnv :=
  { stopSignalled := false
    GetCPUList := CallResult.returns (some 1)
    GetGPUList := CallResult.returns (some 2)
    GetMotherboardInfo := CallResult.returns (some 3)
    GetAudioDeviceList := CallResult.returns (some 4)
    GetMonitorList := CallResult.returns (some 5)
    GetMemoryInfo := CallResult.returns (some 6)
    GetStorageList := CallResult.returns (some 7)
    GetNetworkAdapterList := CallResult.returns (some 8)
    GetBatteryInfo := CallResult.returns none
    GenerateSystemInfo := fun _ _ => some "doc"
    cCallbackThrows := fun _ _ => false
    cppCallbackThrows := fun _ _ => false
    now := 10 }

/-! ## Shared lemmas -/

theorem isValidInterval_iff (I : Int) :
    MonitorContext.IsValidInterval I = true ↔ 100 ≤ I ∧ I ≤ 3600000 := by
  simp [MonitorContext.IsValidInterval, MIN_UPDATE_INTERVAL_MS]

theorem isValidInterval_of_bounds {I : Int} (hlo : 100 ≤ I) (hhi : I ≤ 3600000) :
    MonitorContext.IsValidInterval I = true :=
  (isValidInterval_iff I).2 ⟨hlo, hhi⟩

theorem isValidInterval_of_outside {I : Int} (h : I < 100 ∨ 3600000 < I) :
    MonitorContext.IsValidInterval I = false := by
  cases hv : MonitorContext.IsValidInterval I with
  | false => rfl
  | true =>
    have hb := (isValidInterval_iff I).1 hv
    omega

theorem setUpdateInterval_valid (c : MonitorContext) {I : Int}
    (h : MonitorContext.IsValidInterval I = true) :
    c.SetUpdateInterval I = (MonitoringError.Success, { c with updateInterval := I }) := by
  simp [MonitorContext.SetUpdateInterval, h]

theorem setUpdateInterval_invalid (c : MonitorContext) {I : Int}
    (h : MonitorContext.IsValidInterval I = false) :
    c.SetUpdateInterval I =
      (MonitoringError.InvalidParameter, { c with lastError := MonitoringError.InvalidParameter }) := by
  simp [MonitorContext.SetUpdateInterval, MonitorContext.SetLastError, h]

theorem stop_monitoring_of_idle (w : DWORD) (c : MonitorContext) (h : c.isRunning = false) :
    stop_monitoring w c = c := by
  simp [stop_monitoring, h]

theorem stop_monitoring_isRunning (w : DWORD) (c : MonitorContext) :
    (stop_monitoring w c).isRunning = false := by
  cases h : c.isRunning with
  | false => rw [stop_monitoring_of_idle w c h]; exact h
  | true => simp [stop_monitoring, h, MonitorContext.Reset]

/-! ## Start -/

/-- C1: for every interval `I` with `100 ≤ I ≤ 3,600,000`, `start_monitoring I` on an idle
controller, when `CreateEvent` and `_beginthreadex` both return a non-null handle, returns `TRUE`
and `is_monitoring` is `TRUE` on the context it leaves. -/
theorem start_monitoring_valid_interval_runs (I : Int) (hlo : 100 ≤ I) (hhi : I ≤ 3600000)
    (env : StartEnv) (c : MonitorContext) (hidle : c.isRunning = false)
    (hevent : env.CreateEvent ≠ NULL_HANDLE) (hthread : env.beginthreadex ≠ NULL_HANDLE) :
    (start_monitoring env I c).1 = true ∧
      is_monitoring (start_monitoring env I c).2 = true := by
  have hv := isValidInterval_of_bounds hlo hhi
  simp [start_monitoring, hidle, setUpdateInterval_valid c hv, hevent, hthread, is_monitoring]

/-- Witness of C1: the default-constructed controller started with 250 ms, event handle 1 and
thread handle 2. -/
theorem start_monitoring_valid_interval_runs_witness :
    (start_monitoring { CreateEvent := 1, beginthreadex := 2 } 250 g_MonitorContext).1 = true ∧
      is_monitoring
        (start_monitoring { CreateEvent := 1, beginthreadex := 2 } 250 g_MonitorContext).2 = true :=
  start_monitoring_valid_interval_runs 250 (by decide) (by decide)
    { CreateEvent := 1, beginthreadex := 2 } g_MonitorContext rfl (by decide) (by decide)

/-- C2: for every interval `I` with `I < 100` or `I > 3,600,000`, `start_monitoring I` on an idle
controller returns `FALSE`, leaves `InvalidParameter` as the last error and the controller not
running; nothing but the last error is changed. -/
theorem start_monitoring_invalid_interval_rejected (I : Int) (hI : I < 100 ∨ 3600000 < I)
    (env : StartEnv) (c : MonitorContext) (hidle : c.isRunning = false) :
    (start_monitoring env I c).1 = false ∧
      (start_monitoring env I c).2.GetLastError = MonitoringError.InvalidParameter ∧
      is_monitoring (start_monitoring env I c).2 = false ∧
      (start_monitoring env I c).2 = { c with lastError := MonitoringError.InvalidParameter } := by
  have hv := isValidInterval_of_outside hI
  simp [start_monitoring, hidle, setUpdateInterval_invalid c hv, is_monitoring,
    MonitorContext.SetLastError, MonitorContext.GetLastError]

/-- Witness of C2: the default-constructed controller started with 99 ms. -/
theorem start_monitoring_invalid_interval_rejected_witness :
    (start_monitoring { CreateEvent := 1, beginthreadex := 2 } 99 g_MonitorContext).1 = false ∧
      (start_monitoring { CreateEvent := 1, beginthreadex := 2 } 99
        g_MonitorContext).2.GetLastError = MonitoringError.InvalidParameter ∧
      is_monitoring
        (start_monitoring { CreateEvent := 1, beginthreadex := 2 } 99 g_MonitorContext).2 = false ∧
      (start_monitoring { CreateEvent := 1, beginthreadex := 2 } 99 g_MonitorContext).2 =
        { g_MonitorContext with lastError := MonitoringError.InvalidParameter } :=
  start_monitoring_invalid_interval_rejected 99 (Or.inl (by decide))
    { CreateEvent := 1, beginthreadex := 2 } g_MonitorContext rfl

/-- C3: when monitoring is already running, `start_monitoring I` returns `FALSE` for every `I` and
records `AlreadyRunning`; `is_monitoring` stays true and the stored interval, the cycle counter,
the cached static snapshot and both callback slots are as before (the context changes in the
last error only). -/
theorem start_monitoring_already_running (I : Int) (env : StartEnv) (c : MonitorContext)
    (hrun : c.isRunning = true) :
    (start_monitoring env I c).1 = false ∧
      (start_monitoring env I c).2.GetLastError = MonitoringError.AlreadyRunning ∧
      is_monitoring (start_monitoring env I c).2 = true ∧
      (start_monitoring env I c).2.updateInterval = c.updateInterval ∧
      (start_monitoring env I c).2.cycleCount = c.cycleCount ∧
      (start_monitoring env I c).2.staticInfo = c.staticInfo ∧
      (start_monitoring env I c).2.cCallback = c.cCallback ∧
      (start_monitoring env I c).2.cppCallback = c.cppCallback ∧
      (start_monitoring env I c).2 = { c with lastError := MonitoringError.AlreadyRunning } := by
  simp [start_monitoring, hrun, is_monitoring, MonitorContext.SetLastError,
    MonitorContext.GetLastError]

/-- Witness of C3: a session started with 1000 ms, then started again with 250 ms. -/
theorem start_monitoring_already_running_witness :
    (start_monitoring { CreateEvent := 3, beginthreadex := 4 } 250
        (start_monitoring { CreateEvent := 1, beginthreadex := 2 } 1000 g_MonitorContext).2).1
        = false ∧
      (start_monitoring { CreateEvent := 3, beginthreadex := 4 } 250
        (start_monitoring { CreateEvent := 1, beginthreadex := 2 } 1000
          g_MonitorContext).2).2.updateInterval = 1000 :=
  have h := start_monitoring_already_running 250 { CreateEvent := 3, beginthreadex := 4 }
    (start_monitoring { CreateEvent := 1, beginthreadex := 2 } 1000 g_MonitorContext).2 rfl
  ⟨h.1, h.2.2.2.1.trans rfl⟩

/-! ## Stop -/

/-- C4, as stated, fails on an idle controller that has a callback registered: `stop_monitoring`
returns at its first test and the C callback slot still holds the callback. -/
theorem stop_monitoring_idle_keeps_callback :
    ¬ (is_monitoring (stop_monitoring WAIT_OBJECT_0 (set_callback (some 7) g_MonitorContext))
          = false ∧
        (stop_monitoring WAIT_OBJECT_0 (set_callback (some 7) g_MonitorContext)).staticInfo
          = {} ∧
        (stop_monitoring WAIT_OBJECT_0 (set_callback (some 7) g_MonitorContext)).dynamicInfo
          = {} ∧
        (stop_monitoring WAIT_OBJECT_0 (set_callback (some 7) g_MonitorContext)).cycleCount
          = 0 ∧
        (stop_monitoring WAIT_OBJECT_0 (set_callback (some 7) g_MonitorContext)).cCallback
          = none ∧
        (stop_monitoring WAIT_OBJECT_0 (set_callback (some 7) g_MonitorContext)).cppCallback
          = none) := by
  decide

/-- C4 (amended): from any controller state `is_monitoring` is false once `stop_monitoring` has
returned; and when the controller was running at the call, whatever the wait on the worker
returned, the cached static and dynamic snapshots are empty, the cycle counter is zero and both
callback slots are empty. -/
theorem stop_monitoring_clears_running_session (w : DWORD) (c : MonitorContext) :
    is_monitoring (stop_monitoring w c) = false ∧
      (c.isRunning = true →
        (stop_monitoring w c).staticInfo = {} ∧
        (stop_monitoring w c).dynamicInfo = {} ∧
        (stop_monitoring w c).cycleCount = 0 ∧
        (stop_monitoring w c).cCallback = none ∧
        (stop_monitoring w c).cppCallback = none) := by
  refine ⟨by simp [is_monitoring, stop_monitoring_isRunning], ?_⟩
  intro hrun
  simp [stop_monitoring, hrun, MonitorContext.Reset, StaticInfo.Reset, DynamicInfo.Reset]

/-- Witness of C4 (amended): a running session with both callbacks registered, stopped with the
worker having exited in time. -/
theorem stop_monitoring_clears_running_session_witness :
    (stop_monitoring WAIT_OBJECT_0
        (start_monitoring { CreateEvent := 1, beginthreadex := 2 } 1000
          (nysys.SetCallback (some 9) (set_callback (some 7) g_MonitorContext))).2).cCallback
        = none ∧
      (stop_monitoring WAIT_OBJECT_0
        (start_monitoring { CreateEvent := 1, beginthreadex := 2 } 1000
          (nysys.SetCallback (some 9) (set_callback (some 7) g_MonitorContext))).2).cppCallback
        = none :=
  have h := (stop_monitoring_clears_running_session WAIT_OBJECT_0
    (start_monitoring { CreateEvent := 1, beginthreadex := 2 } 1000
      (nysys.SetCallback (some 9) (set_callback (some 7) g_MonitorContext))).2).2 rfl
  ⟨h.2.2.2.1, h.2.2.2.2⟩

/-- C5: on an idle controller `stop_monitoring` is a no-op: the whole context, the last error
included, is unchanged and `is_monitoring` remains false. -/
theorem stop_monitoring_idle_noop (w : DWORD) (c : MonitorContext) (hidle : c.isRunning = false) :
    stop_monitoring w c = c ∧
      (stop_monitoring w c).GetLastError = c.GetLastError ∧
      is_monitoring (stop_monitoring w c) = false := by
  rw [stop_monitoring_of_idle w c hidle]
  simp [is_monitoring, hidle]

/-- Witness of C5: an idle controller whose last error is `InvalidParameter` after a rejected
interval, stopped with a timed-out wait result. -/
theorem stop_monitoring_idle_noop_witness :
    stop_monitoring WAIT_TIMEOUT (set_update_interval 5 g_MonitorContext)
        = set_update_interval 5 g_MonitorContext ∧
      (stop_monitoring WAIT_TIMEOUT (set_update_interval 5 g_MonitorContext)).GetLastError
        = MonitoringError.InvalidParameter :=
  have h := stop_monitoring_idle_noop WAIT_TIMEOUT (set_update_interval 5 g_MonitorContext) rfl
  ⟨h.1, h.2.1.trans rfl⟩

/-- C6: `stop_monitoring` is idempotent: for every context and whatever the two waits return,
stopping twice in a row leaves exactly the context that stopping once leaves. -/
theorem stop_monitoring_idempotent (w1 w2 : DWORD) (c : MonitorContext) :
    stop_monitoring w2 (stop_monitoring w1 c) = stop_monitoring w1 c :=
  stop_monitoring_of_idle w2 (stop_monitoring w1 c) (stop_monitoring_isRunning w1 c)

/-- C7 on the code: when the controller is running with a valid worker handle and the bounded
wait returns `WAIT_TIMEOUT`, `ThreadTerminationFailed` is recorded at line 373, but `Reset` at
line 381 overwrites it: once `stop_monitoring` has returned, `is_monitoring` is false and the
last error is `Success`, not `ThreadTerminationFailed`. -/
theorem stop_monitoring_timeout_error_lost (c : MonitorContext) (hrun : c.isRunning = true)
    (hthread : c.monitorThread.IsValid = true) :
    (waitForWorker WAIT_TIMEOUT c.RequestStop).GetLastError
        = MonitoringError.ThreadTerminationFailed ∧
      is_monitoring (stop_monitoring WAIT_TIMEOUT c) = false ∧
      (stop_monitoring WAIT_TIMEOUT c).GetLastError = MonitoringError.Success ∧
      (stop_monitoring WAIT_TIMEOUT c).GetLastError ≠ MonitoringError.ThreadTerminationFailed := by
  have hreq : c.RequestStop.monitorThread.IsValid = true := hthread
  simp [stop_monitoring, waitForWorker, hrun, hreq, is_monitoring, MonitorContext.Reset,
    MonitorContext.SetLastError, MonitorContext.GetLastError]

/-- Witness of C7 on the code: a session started with 1000 ms (thread handle 2), stopped with
the wait on the worker timing out. -/
theorem stop_monitoring_timeout_error_lost_witness :
    is_monitoring (stop_monitoring WAIT_TIMEOUT
        (start_monitoring { CreateEvent := 1, beginthreadex := 2 } 1000 g_MonitorContext).2)
        = false ∧
      (stop_monitoring WAIT_TIMEOUT
        (start_monitoring { CreateEvent := 1, beginthreadex := 2 } 1000
          g_MonitorContext).2).GetLastError = MonitoringError.Success :=
  have h := stop_monitoring_timeout_error_lost
    (start_monitoring { CreateEvent := 1, beginthreadex := 2 } 1000 g_MonitorContext).2 rfl rfl
  ⟨h.2.1, h.2.2.1⟩

/-! ## Interval -/

/-- C8: for every `I` outside `[100, 3,600,000]`, `set_update_interval I` leaves the stored
interval and every other part of the context unchanged, except that the last error becomes
`InvalidParameter`. -/
theorem set_update_interval_invalid_frame (I : Int) (hI : I < 100 ∨ 3600000 < I)
    (c : MonitorContext) :
    set_update_interval I c = { c with lastError := MonitoringError.InvalidParameter } ∧
      (set_update_interval I c).updateInterval = c.updateInterval ∧
      (set_update_interval I c).GetLastError = MonitoringError.InvalidParameter := by
  have hv := isValidInterval_of_outside hI
  simp [set_update_interval, setUpdateInterval_invalid c hv, MonitorContext.SetLastError,
    MonitorContext.GetLastError]

/-- Witness of C8: 3,600,001 ms on a running session whose interval is 250 ms. -/
theorem set_update_interval_invalid_frame_witness :
    (set_update_interval 3600001
        (start_monitoring { CreateEvent := 1, beginthreadex := 2 } 250
          g_MonitorContext).2).updateInterval = 250 ∧
      (set_update_interval 3600001
        (start_monitoring { CreateEvent := 1, beginthreadex := 2 } 250
          g_MonitorContext).2).GetLastError = MonitoringError.InvalidParameter :=
  have h := set_update_interval_invalid_frame 3600001 (Or.inr (by decide))
    (start_monitoring { CreateEvent := 1, beginthreadex := 2 } 250 g_MonitorContext).2
  ⟨h.2.1.trans rfl, h.2.2⟩

/-! ## Shared lemmas on the worker iteration -/

theorem sleeps_append (a b : List Event) : sleeps (a ++ b) = sleeps a ++ sleeps b := by
  induction a with
  | nil => rfl
  | cons e rest ih => cases e <;> simp [sleeps, ih]

theorem staticPhase_frame (env : CycleEnv) (c : MonitorContext) :
    (staticPhase env c).1.isRunning = c.isRunning ∧
      (staticPhase env c).1.updateInterval = c.updateInterval ∧
      sleeps (staticPhase env c).2 = [] := by
  simp only [staticPhase]
  split_ifs <;> simp [MonitorContext.SetLastError, sleeps, setLastErrorEvents]

theorem dynamicPhase_frame (env : CycleEnv) (c : MonitorContext) :
    (dynamicPhase env c).2.1.isRunning = c.isRunning ∧
      (dynamicPhase env c).2.1.updateInterval = c.updateInterval ∧
      sleeps (dynamicPhase env c).2.2 = [] := by
  simp [dynamicPhase, sleeps]

theorem invokeCallbacks_sleeps (env : CycleEnv) (c : MonitorContext) (jsonData : String) :
    sleeps (c.InvokeCallbacks env jsonData).2 = [] := by
  unfold MonitorContext.InvokeCallbacks cCallbackEvents cppCallbackEvents
  split
  · rfl
  · cases c.cCallback <;> cases c.cppCallback <;> simp [sleeps]

theorem emitPhase_frame (env : CycleEnv) (r : MonitoringError) (c : MonitorContext) :
    (emitPhase env r c).1.isRunning = c.isRunning ∧
      (emitPhase env r c).1.updateInterval = c.updateInterval ∧
      sleeps (emitPhase env r c).2 = [] := by
  simp only [emitPhase]
  split_ifs
  · cases GenerateJsonSafely env c.staticInfo c.dynamicInfo with
    | none => simp [MonitorContext.SetLastError, sleeps, setLastErrorEvents]
    | some jsonOutput =>
      dsimp only
      split_ifs <;>
        simp [MonitorContext.SetLastError, sleeps_append, sleeps, setLastErrorEvents,
          invokeCallbacks_sleeps]
  · simp [MonitorContext.SetLastError, sleeps, setLastErrorEvents]
  · simp [sleeps]

theorem endPhase_frame (env : CycleEnv) (c : MonitorContext) :
    (endPhase env c).1.isRunning = c.isRunning ∧
      (endPhase env c).1.updateInterval = c.updateInterval ∧
      sleeps (endPhase env c).2 = [sleepDuration c.updateInterval] ∧
      (endPhase env c).2.getLast? = some (Event.sleep (sleepDuration c.updateInterval)) := by
  simp [endPhase, MonitorContext.IncrementCycle, sleeps]

theorem sleepDuration_of_valid {v : Int} (hlo : 100 ≤ v) (hhi : v ≤ 3600000) :
    sleepDuration v = v.toNat := by
  unfold sleepDuration
  rw [Int.emod_eq_of_lt (by omega) (by omega)]

/-- An iteration entered with `isRunning` set and the stop event not signalled runs to its sleep:
it keeps `isRunning` and the stored interval, and its only `Sleep`, the last event, lasts the
stored interval. -/
theorem monitoring_thread_cycle_runs (env : CycleEnv) (c : MonitorContext)
    (hrun : c.isRunning = true) (hstop : env.stopSignalled = false) :
    ∃ c2 events, monitoring_thread_cycle env c = some (c2, events) ∧
      c2.isRunning = true ∧ c2.updateInterval = c.updateInterval ∧
      sleeps events = [sleepDuration c.updateInterval] ∧
      events.getLast? = some (Event.sleep (sleepDuration c.updateInterval)) := by
  have h1 := staticPhase_frame env c
  have h2 := dynamicPhase_frame env (staticPhase env c).1
  have h3 := emitPhase_frame env (dynamicPhase env (staticPhase env c).1).1
    (dynamicPhase env (staticPhase env c).1).2.1
  have h4 := endPhase_frame env (emitPhase env (dynamicPhase env (staticPhase env c).1).1
    (dynamicPhase env (staticPhase env c).1).2.1).1
  have hint : (emitPhase env (dynamicPhase env (staticPhase env c).1).1
      (dynamicPhase env (staticPhase env c).1).2.1).1.updateInterval = c.updateInterval := by
    rw [h3.2.1, h2.2.1, h1.2.1]
  refine ⟨(endPhase env (emitPhase env (dynamicPhase env (staticPhase env c).1).1
      (dynamicPhase env (staticPhase env c).1).2.1).1).1,
    (staticPhase env c).2 ++ (dynamicPhase env (staticPhase env c).1).2.2 ++
      (emitPhase env (dynamicPhase env (staticPhase env c).1).1
        (dynamicPhase env (staticPhase env c).1).2.1).2 ++
      (endPhase env (emitPhase env (dynamicPhase env (staticPhase env c).1).1
        (dynamicPhase env (staticPhase env c).1).2.1).1).2, ?_, ?_, ?_, ?_, ?_⟩
  · simp [monitoring_thread_cycle, hrun, hstop]
  · rw [h4.1, h3.1, h2.1, h1.1, hrun]
  · rw [h4.2.1, hint]
  · rw [sleeps_append, sleeps_append, sleeps_append, h1.2.2, h2.2.2, h3.2.2, h4.2.2.1, hint]
    rfl
  · rw [List.getLast?_append, h4.2.2.2, hint]
    rfl

theorem monitoring_thread_loop_isRunning (envs : List CycleEnv) (c : MonitorContext) :
    (monitoring_thread_loop envs c).1.isRunning = c.isRunning := by
  induction envs generalizing c with
  | nil => rfl
  | cons env rest ih =>
    unfold monitoring_thread_loop
    cases hrun : c.isRunning with
    | false => simp [monitoring_thread_cycle, hrun]
    | true =>
      cases hstop : env.stopSignalled with
      | true => simp [monitoring_thread_cycle, hrun, hstop]
      | false =>
        obtain ⟨c2, events, hc, hr, _⟩ := monitoring_thread_cycle_runs env c hrun hstop
        simp [hc, ih, hr]

theorem set_update_interval_valid_eq (c : MonitorContext) {v : Int} (hlo : 100 ≤ v)
    (hhi : v ≤ 3600000) : set_update_interval v c = { c with updateInterval := v } := by
  simp [set_update_interval, setUpdateInterval_valid c (isValidInterval_of_bounds hlo hhi)]

/-- C9: for every valid `v` in `[100, 3,600,000]`, after `set_update_interval v` the stored
interval is `v`, and the next worker iteration (the controller running, the stop event not
signalled) ends in one `Sleep` of exactly `v` milliseconds (`v.toNat`, the same number). This holds from every context, so
also in the middle of a session started with another interval: after any number of earlier
iterations of `monitoring_thread` that left the loop running, the iteration that follows
`set_update_interval v` sleeps `v`. -/
theorem set_update_interval_next_sleep (v : Int) (hlo : 100 ≤ v) (hhi : v ≤ 3600000)
    (c : MonitorContext) :
    (set_update_interval v c).updateInterval = v ∧ (v.toNat : Int) = v ∧
      (∀ env : CycleEnv, c.isRunning = true → env.stopSignalled = false →
        ∃ c2 events,
          monitoring_thread_cycle env (set_update_interval v c) = some (c2, events) ∧
          sleeps events = [v.toNat] ∧
          events.getLast? = some (Event.sleep v.toNat)) ∧
      (∀ (now : TimePoint) (earlier : List CycleEnv) (env : CycleEnv),
        c.isRunning = true → (monitoring_thread now earlier c).2.2 = false →
        env.stopSignalled = false →
        ∃ c2 events,
          monitoring_thread_cycle env
            (set_update_interval v (monitoring_thread now earlier c).1) = some (c2, events) ∧
          sleeps events = [v.toNat] ∧
          events.getLast? = some (Event.sleep v.toNat)) := by
  have key : ∀ (d : MonitorContext) (env : CycleEnv), d.isRunning = true →
      env.stopSignalled = false →
      ∃ c2 events, monitoring_thread_cycle env (set_update_interval v d) = some (c2, events) ∧
        sleeps events = [v.toNat] ∧ events.getLast? = some (Event.sleep v.toNat) := by
    intro d env hrun hstop
    have hd : (set_update_interval v d).isRunning = true := by
      rw [set_update_interval_valid_eq d hlo hhi]; exact hrun
    have hi : (set_update_interval v d).updateInterval = v := by
      rw [set_update_interval_valid_eq d hlo hhi]
    obtain ⟨c2, events, hc, _, _, hs, hl⟩ :=
      monitoring_thread_cycle_runs env (set_update_interval v d) hd hstop
    rw [hi, sleepDuration_of_valid hlo hhi] at hs hl
    exact ⟨c2, events, hc, hs, hl⟩
  refine ⟨by rw [set_update_interval_valid_eq c hlo hhi], Int.toNat_of_nonneg (by omega),
    fun env => key c env, ?_⟩
  intro now earlier env hrun _ hstop
  refine key _ env ?_ hstop
  unfold monitoring_thread
  rw [monitoring_thread_loop_isRunning]
  exact hrun

/-- Witness of C9: a session started with 1000 ms and set to 250 ms; its next iteration, with
every collector succeeding, sleeps 250 ms. -/
theorem set_update_interval_next_sleep_witness :
    (set_update_interval 250
        (start_monitoring { CreateEvent := 1, beginthreadex := 2 } 1000
          g_MonitorContext).2).updateInterval = 250 ∧
      ∃ c2 events,
        monitoring_thread_cycle healthyCycle
          (set_update_interval 250
            (start_monitoring { CreateEvent := 1, beginthreadex := 2 } 1000
              g_MonitorContext).2) = some (c2, events) ∧
        sleeps events = [250] ∧
        events.getLast? = some (Event.sleep 250) :=
  have h := set_update_interval_next_sleep 250 (by decide) (by decide)
    (start_monitoring { CreateEvent := 1, beginthreadex := 2 } 1000 g_MonitorContext).2
  ⟨h.1, h.2.2.1 healthyCycle rfl rfl⟩

/-- C10: `MonitorContext::IsValidInterval I` is true exactly when `100 ≤ I ≤ 3,600,000`, for
every integer `I` and so for every signed 32-bit one: 100 and 3,600,000 are accepted, while 99,
3,600,001, zero and every negative value are rejected. -/
theorem isValidInterval_exact :
    (∀ I : Int, MonitorContext.IsValidInterval I = true ↔ (100 ≤ I ∧ I ≤ 3600000)) ∧
      MonitorContext.IsValidInterval 100 = true ∧
      MonitorContext.IsValidInterval 3600000 = true ∧
      MonitorContext.IsValidInterval 99 = false ∧
      MonitorContext.IsValidInterval 3600001 = false ∧
      MonitorContext.IsValidInterval 0 = false ∧
      (∀ n : Nat, MonitorContext.IsValidInterval (Int.negSucc n) = false) := by
  refine ⟨isValidInterval_iff, by decide, by decide, by decide, by decide, by decide, ?_⟩
  intro n
  exact isValidInterval_of_outside (Or.inl (lt_trans (Int.negSucc_lt_zero n) (by decide)))

/-! ## Callback registration -/

/-- C11 on the code: when the last error is `CallbackExecutionFailed` and a non-empty callback is
installed through `set_callback` or `nysys::SetCallback`, the callback is stored but the last
error stays `CallbackExecutionFailed`: lines 405 and 447 compare it with `CallbackFailed`, a
code that is never recorded, so it is not reset to `Success`. -/
theorem set_callback_keeps_execution_failure (c : MonitorContext)
    (herr : c.GetLastError = MonitoringError.CallbackExecutionFailed)
    (f : NysysCallback) (g : CppCallback) :
    (set_callback (some f) c).GetLastError = MonitoringError.CallbackExecutionFailed ∧
      (set_callback (some f) c).GetLastError ≠ MonitoringError.Success ∧
      (set_callback (some f) c).cCallback = some f ∧
      (nysys.SetCallback (some g) c).GetLastError = MonitoringError.CallbackExecutionFailed ∧
      (nysys.SetCallback (some g) c).GetLastError ≠ MonitoringError.Success ∧
      (nysys.SetCallback (some g) c).cppCallback = some g := by
  have h : c.lastError = MonitoringError.CallbackExecutionFailed := herr
  simp [set_callback, nysys.SetCallback, MonitorContext.GetLastError,
    MonitorContext.SetLastError, h]

/-! ## Start, continued -/

/-- C19: when creation of the worker thread fails (`_beginthreadex` returns 0, on an idle
controller with a valid interval and a created stop event), `start_monitoring` returns `FALSE`,
records `ThreadCreationFailed` and leaves `is_monitoring` false. -/
theorem start_monitoring_thread_creation_failed (I : Int) (hlo : 100 ≤ I) (hhi : I ≤ 3600000)
    (env : StartEnv) (c : MonitorContext) (hidle : c.isRunning = false)
    (hevent : env.CreateEvent ≠ NULL_HANDLE) (hthread : env.beginthreadex = NULL_HANDLE) :
    (start_monitoring env I c).1 = false ∧
      (start_monitoring env I c).2.GetLastError = MonitoringError.ThreadCreationFailed ∧
      is_monitoring (start_monitoring env I c).2 = false := by
  have hv := isValidInterval_of_bounds hlo hhi
  simp [start_monitoring, hidle, setUpdateInterval_valid c hv, hevent, hthread, is_monitoring,
    MonitorContext.SetLastError, MonitorContext.GetLastError, MonitorContext.Reset]

/-- Witness of C19: the default-constructed controller started with 100 ms, the event created
with handle 1 and `_beginthreadex` returning 0. -/
theorem start_monitoring_thread_creation_failed_witness :
    (start_monitoring { CreateEvent := 1, beginthreadex := 0 } 100 g_MonitorContext).1 = false ∧
      (start_monitoring { CreateEvent := 1, beginthreadex := 0 } 100
        g_MonitorContext).2.GetLastError = MonitoringError.ThreadCreationFailed ∧
      is_monitoring
        (start_monitoring { CreateEvent := 1, beginthreadex := 0 } 100 g_MonitorContext).2
        = false :=
  start_monitoring_thread_creation_failed 100 (by decide) (by decide)
    { CreateEvent := 1, beginthreadex := 0 } g_MonitorContext rfl (by decide) rfl

theorem start_monitoring_success_eq (env : StartEnv) (I : Int) (c : MonitorContext)
    (hok : (start_monitoring env I c).1 = true) :
    (start_monitoring env I c).2 =
      { ({ c with updateInterval := I } : MonitorContext).Reset with
        stopEvent := { m_handle := env.CreateEvent }
        monitorThread := { m_handle := env.beginthreadex }
        isRunning := true } := by
  unfold start_monitoring at hok ⊢
  cases hrun : c.isRunning with
  | true => simp [hrun] at hok
  | false =>
    cases hv : MonitorContext.IsValidInterval I with
    | false => simp [hrun, setUpdateInterval_invalid c hv] at hok
    | true =>
      by_cases hevent : env.CreateEvent = NULL_HANDLE
      · simp [hrun, setUpdateInterval_valid c hv, hevent] at hok
      · by_cases hthread : env.beginthreadex = NULL_HANDLE
        · simp [hrun, setUpdateInterval_valid c hv, hevent, hthread] at hok
        · simp [hrun, setUpdateInterval_valid c hv, hevent, hthread, MonitorContext.Reset,
            HandleWrapper.reset]

/-- C20: after a successful `start_monitoring` the per-session state is at its defaults,
whatever the context was before: the last error is `Success`, the cycle counter is 0, the cached
static and dynamic snapshots are empty, the first-run flag is set and the stop request is
cleared. -/
theorem start_monitoring_resets_session (env : StartEnv) (I : Int) (c : MonitorContext)
    (hok : (start_monitoring env I c).1 = true) :
    (start_monitoring env I c).2.GetLastError = MonitoringError.Success ∧
      (start_monitoring env I c).2.cycleCount = 0 ∧
      (start_monitoring env I c).2.staticInfo = {} ∧
      (start_monitoring env I c).2.dynamicInfo = {} ∧
      (start_monitoring env I c).2.isFirstRun = true ∧
      (start_monitoring env I c).2.shouldStop = false := by
  rw [start_monitoring_success_eq env I c hok]
  simp [MonitorContext.Reset, MonitorContext.GetLastError, StaticInfo.Reset, DynamicInfo.Reset]

/-! ## Shared lemmas on collection, dispatch and the phases of an iteration -/

theorem callbackCalls_append (a b : List Event) :
    callbackCalls (a ++ b) = callbackCalls a ++ callbackCalls b := by
  induction a with
  | nil => rfl
  | cons e rest ih => cases e <;> simp [callbackCalls, ih]

theorem staticCollections_append (a b : List Event) :
    staticCollections (a ++ b) = staticCollections a + staticCollections b := by
  induction a with
  | nil => simp [staticCollections]
  | cons e rest ih =>
    cases e
    case collectStatic =>
      show staticCollections (rest ++ b) + 1 = staticCollections rest + 1 + staticCollections b
      omega
    all_goals simp [staticCollections, ih]

theorem collectStaticInfo_code (env : CycleEnv) (i : StaticInfo) :
    (CollectStaticInfo env i).1 = MonitoringError.Success ∨
      (CollectStaticInfo env i).1 = MonitoringError.DataCollectionFailed := by
  unfold CollectStaticInfo
  repeat' split
  all_goals simp

theorem collectStaticInfo_complete (env : CycleEnv) (i : StaticInfo)
    (h : (CollectStaticInfo env i).1 = MonitoringError.Success) :
    (CollectStaticInfo env i).2.IsComplete = true := by
  unfold CollectStaticInfo at h ⊢
  repeat' split at h
  all_goals simp_all [StaticInfo.IsComplete, Option.isSome_iff_ne_none]

theorem collectDynamicInfo_code (env : CycleEnv) (i : DynamicInfo) :
    (CollectDynamicInfo env i).1 = MonitoringError.Success ∨
      (CollectDynamicInfo env i).1 = MonitoringError.DataCollectionFailed := by
  unfold CollectDynamicInfo
  repeat' split
  all_goals simp

theorem collectDynamicInfo_essential (env : CycleEnv) (i : DynamicInfo)
    (h : (CollectDynamicInfo env i).1 = MonitoringError.Success) :
    (CollectDynamicInfo env i).2.IsEssentialComplete = true := by
  unfold CollectDynamicInfo at h ⊢
  repeat' split at h
  all_goals simp_all [DynamicInfo.IsEssentialComplete, Option.isSome_iff_ne_none]

theorem isEmpty_eq_false_of_ne {doc : String} (h : doc ≠ "") : doc.isEmpty = false := by
  cases he : doc.isEmpty with
  | false => rfl
  | true => exact absurd ((String.isEmpty_iff doc).1 he) h

theorem staticPhase_of_not_first (env : CycleEnv) (c : MonitorContext)
    (h : c.isFirstRun = false) : staticPhase env c = (c, []) := by
  simp [staticPhase, h]

theorem staticPhase_of_success (env : CycleEnv) (c : MonitorContext) (h : c.isFirstRun = true)
    (hs : (CollectStaticInfo env c.staticInfo).1 = MonitoringError.Success) :
    staticPhase env c =
      ({ c with staticInfo := (CollectStaticInfo env c.staticInfo).2, isFirstRun := false },
       [Event.lock Mutex.dataMutex, Event.collectStatic, Event.unlock Mutex.dataMutex]) := by
  simp [staticPhase, h, hs]

theorem staticPhase_of_failure (env : CycleEnv) (c : MonitorContext) (h : c.isFirstRun = true)
    (hf : (CollectStaticInfo env c.staticInfo).1 ≠ MonitoringError.Success) :
    staticPhase env c =
      ({ c with
          staticInfo := (CollectStaticInfo env c.staticInfo).2
          lastError := MonitoringError.DataCollectionFailed },
       [Event.lock Mutex.dataMutex, Event.collectStatic, Event.lock Mutex.errorMutex,
        Event.unlock Mutex.errorMutex, Event.unlock Mutex.dataMutex]) := by
  have hc : (CollectStaticInfo env c.staticInfo).1 = MonitoringError.DataCollectionFailed :=
    (collectStaticInfo_code env c.staticInfo).resolve_left hf
  simp [staticPhase, h, hc, MonitorContext.SetLastError, setLastErrorEvents]

theorem emitPhase_of_dynamic_failure (env : CycleEnv) (r : MonitoringError) (c : MonitorContext)
    (hr : r ≠ MonitoringError.Success) :
    emitPhase env r c = ({ c with lastError := r }, setLastErrorEvents) := by
  simp [emitPhase, hr, MonitorContext.SetLastError]

theorem emitPhase_of_first_run (env : CycleEnv) (c : MonitorContext)
    (hf : c.isFirstRun = true) :
    emitPhase env MonitoringError.Success c = (c, []) := by
  simp [emitPhase, hf]

theorem emitPhase_of_no_document (env : CycleEnv) (c : MonitorContext)
    (hf : c.isFirstRun = false)
    (hj : GenerateJsonSafely env c.staticInfo c.dynamicInfo = none) :
    emitPhase env MonitoringError.Success c =
      ({ c with lastError := MonitoringError.JsonGenerationFailed },
       [Event.lock Mutex.dataMutex, Event.generateJson, Event.unlock Mutex.dataMutex] ++
         setLastErrorEvents) := by
  simp [emitPhase, hf, hj, MonitorContext.SetLastError]

theorem emitPhase_of_empty_document (env : CycleEnv) (c : MonitorContext)
    (hf : c.isFirstRun = false)
    (hj : GenerateJsonSafely env c.staticInfo c.dynamicInfo = some "") :
    emitPhase env MonitoringError.Success c =
      ({ c with lastError := MonitoringError.InvalidParameter },
       [Event.lock Mutex.dataMutex, Event.generateJson, Event.unlock Mutex.dataMutex] ++
         setLastErrorEvents) := by
  have h0 : "".isEmpty = true := by decide
  simp [emitPhase, hf, hj, MonitorContext.SetLastError, MonitorContext.InvokeCallbacks, h0]

theorem emitPhase_of_document (env : CycleEnv) (c : MonitorContext) (doc : String)
    (hf : c.isFirstRun = false)
    (hj : GenerateJsonSafely env c.staticInfo c.dynamicInfo = some doc) (hd : doc ≠ "") :
    emitPhase env MonitoringError.Success c =
      ({ c with lastError :=
            if callbackFailed env c doc then MonitoringError.CallbackExecutionFailed
            else c.lastError },
       [Event.lock Mutex.dataMutex, Event.generateJson, Event.unlock Mutex.dataMutex] ++
         ([Event.lock Mutex.callbackMutex] ++ cCallbackEvents c doc ++
           cppCallbackEvents c doc ++ [Event.unlock Mutex.callbackMutex]) ++
         (if callbackFailed env c doc then setLastErrorEvents else [])) := by
  have he := isEmpty_eq_false_of_ne hd
  cases hcb : callbackFailed env c doc with
  | true =>
    simp [emitPhase, hf, hj, MonitorContext.SetLastError, MonitorContext.InvokeCallbacks, he,
      hcb]
  | false =>
    simp [emitPhase, hf, hj, MonitorContext.SetLastError, MonitorContext.InvokeCallbacks, he,
      hcb]
    cases c
    simp_all

/-! ## Shared lemmas on one iteration -/

theorem monitoring_thread_cycle_eq (env : CycleEnv) (c : MonitorContext)
    (hrun : c.isRunning = true) (hstop : env.stopSignalled = false) :
    monitoring_thread_cycle env c =
      some ((endPhase env (emitPhase env (dynamicPhase env (staticPhase env c).1).1
          (dynamicPhase env (staticPhase env c).1).2.1).1).1,
        (staticPhase env c).2 ++ (dynamicPhase env (staticPhase env c).1).2.2 ++
          (emitPhase env (dynamicPhase env (staticPhase env c).1).1
            (dynamicPhase env (staticPhase env c).1).2.1).2 ++
          (endPhase env (emitPhase env (dynamicPhase env (staticPhase env c).1).1
            (dynamicPhase env (staticPhase env c).1).2.1).1).2) := by
  simp [monitoring_thread_cycle, hrun, hstop]

theorem monitoring_thread_cycle_some {env : CycleEnv} {c : MonitorContext}
    {r : MonitorContext × List Event} (h : monitoring_thread_cycle env c = some r) :
    c.isRunning = true ∧ env.stopSignalled = false := by
  cases hrun : c.isRunning with
  | false => simp [monitoring_thread_cycle, hrun] at h
  | true =>
    cases hstop : env.stopSignalled with
    | true => simp [monitoring_thread_cycle, hrun, hstop] at h
    | false => exact ⟨rfl, rfl⟩

theorem staticPhase_keeps (env : CycleEnv) (c : MonitorContext) :
    (staticPhase env c).1.cCallback = c.cCallback ∧
      (staticPhase env c).1.cppCallback = c.cppCallback ∧
      (staticPhase env c).1.cycleCount = c.cycleCount ∧
      (staticPhase env c).1.dynamicInfo = c.dynamicInfo ∧
      (staticPhase env c).1.startTime = c.startTime ∧
      callbackCalls (staticPhase env c).2 = [] ∧
      staticCollections (staticPhase env c).2 = (if c.isFirstRun then 1 else 0) := by
  simp only [staticPhase]
  split_ifs <;>
    simp [MonitorContext.SetLastError, callbackCalls, staticCollections, setLastErrorEvents]

theorem cCallbackEvents_calls (c : MonitorContext) (doc : String) :
    callbackCalls (cCallbackEvents c doc) = cCallbackEvents c doc := by
  unfold cCallbackEvents
  cases c.cCallback <;> rfl

theorem cppCallbackEvents_calls (c : MonitorContext) (doc : String) :
    callbackCalls (cppCallbackEvents c doc) = cppCallbackEvents c doc := by
  unfold cppCallbackEvents
  cases c.cppCallback <;> rfl

theorem cCallbackEvents_statics (c : MonitorContext) (doc : String) :
    staticCollections (cCallbackEvents c doc) = 0 := by
  unfold cCallbackEvents
  cases c.cCallback <;> rfl

theorem cppCallbackEvents_statics (c : MonitorContext) (doc : String) :
    staticCollections (cppCallbackEvents c doc) = 0 := by
  unfold cppCallbackEvents
  cases c.cppCallback <;> rfl

/-- What the dispatch phase does, by the document it gets: the context changes in the last error
only, no static collection happens, and the callbacks are called exactly when a non-empty
document was generated. -/
theorem emitPhase_cases (env : CycleEnv) (r : MonitoringError) (c : MonitorContext) :
    (r ≠ MonitoringError.Success ∧
        emitPhase env r c = ({ c with lastError := r }, setLastErrorEvents)) ∨
      (r = MonitoringError.Success ∧ c.isFirstRun = true ∧ emitPhase env r c = (c, [])) ∨
      (r = MonitoringError.Success ∧ c.isFirstRun = false ∧
        GenerateJsonSafely env c.staticInfo c.dynamicInfo = none ∧
        emitPhase env r c =
          ({ c with lastError := MonitoringError.JsonGenerationFailed },
           [Event.lock Mutex.dataMutex, Event.generateJson, Event.unlock Mutex.dataMutex] ++
             setLastErrorEvents)) ∨
      (r = MonitoringError.Success ∧ c.isFirstRun = false ∧
        GenerateJsonSafely env c.staticInfo c.dynamicInfo = some "" ∧
        emitPhase env r c =
          ({ c with lastError := MonitoringError.InvalidParameter },
           [Event.lock Mutex.dataMutex, Event.generateJson, Event.unlock Mutex.dataMutex] ++
             setLastErrorEvents)) ∨
      (∃ doc, r = MonitoringError.Success ∧ c.isFirstRun = false ∧
        GenerateJsonSafely env c.staticInfo c.dynamicInfo = some doc ∧ doc ≠ "" ∧
        emitPhase env r c =
          ({ c with lastError :=
                if callbackFailed env c doc then MonitoringError.CallbackExecutionFailed
                else c.lastError },
           [Event.lock Mutex.dataMutex, Event.generateJson, Event.unlock Mutex.dataMutex] ++
             ([Event.lock Mutex.callbackMutex] ++ cCallbackEvents c doc ++
               cppCallbackEvents c doc ++ [Event.unlock Mutex.callbackMutex]) ++
             (if callbackFailed env c doc then setLastErrorEvents else []))) := by
  by_cases hr : r = MonitoringError.Success
  · subst hr
    by_cases hft : c.isFirstRun = true
    · exact Or.inr (Or.inl ⟨rfl, hft, emitPhase_of_first_run env c hft⟩)
    · have hf : c.isFirstRun = false := Bool.not_eq_true _ ▸ hft
      by_cases hj : GenerateJsonSafely env c.staticInfo c.dynamicInfo = none
      · exact Or.inr (Or.inr (Or.inl ⟨rfl, hf, hj, emitPhase_of_no_document env c hf hj⟩))
      · obtain ⟨doc, hdoc⟩ := Option.ne_none_iff_exists'.1 hj
        by_cases hd : doc = ""
        · subst hd
          exact Or.inr (Or.inr (Or.inr (Or.inl
            ⟨rfl, hf, hdoc, emitPhase_of_empty_document env c hf hdoc⟩)))
        · exact Or.inr (Or.inr (Or.inr (Or.inr
            ⟨doc, rfl, hf, hdoc, hd, emitPhase_of_document env c doc hf hdoc hd⟩)))
  · exact Or.inl ⟨hr, emitPhase_of_dynamic_failure env r c hr⟩

theorem emitPhase_keeps (env : CycleEnv) (r : MonitoringError) (c : MonitorContext) :
    (emitPhase env r c).1 = { c with lastError := (emitPhase env r c).1.lastError } ∧
      staticCollections (emitPhase env r c).2 = 0 := by
  rcases emitPhase_cases env r c with h | h | h | h | ⟨doc, h⟩
  · rw [h.2]; simp [staticCollections, setLastErrorEvents]
  · rw [h.2.2]; simp [staticCollections]
  · rw [h.2.2.2]; simp [staticCollections, setLastErrorEvents]
  · rw [h.2.2.2]; simp [staticCollections, setLastErrorEvents]
  · rw [h.2.2.2.2]
    cases callbackFailed env c doc <;>
      simp [staticCollections, staticCollections_append, setLastErrorEvents,
        cCallbackEvents_statics, cppCallbackEvents_statics]

theorem emitPhase_fields (env : CycleEnv) (r : MonitoringError) (c : MonitorContext) :
    (emitPhase env r c).1.isFirstRun = c.isFirstRun ∧
      (emitPhase env r c).1.staticInfo = c.staticInfo ∧
      (emitPhase env r c).1.dynamicInfo = c.dynamicInfo ∧
      (emitPhase env r c).1.cCallback = c.cCallback ∧
      (emitPhase env r c).1.cppCallback = c.cppCallback ∧
      (emitPhase env r c).1.cycleCount = c.cycleCount ∧
      (emitPhase env r c).1.startTime = c.startTime := by
  have hk := (emitPhase_keeps env r c).1
  refine ⟨?_, ?_, ?_, ?_, ?_, ?_, ?_⟩ <;> rw [hk]

theorem dynamicPhase_fields (env : CycleEnv) (c : MonitorContext) :
    (dynamicPhase env c).1 = (CollectDynamicInfo env c.dynamicInfo).1 ∧
      (dynamicPhase env c).2.1 =
        { c with dynamicInfo := (CollectDynamicInfo env c.dynamicInfo).2 } ∧
      callbackCalls (dynamicPhase env c).2.2 = [] ∧
      staticCollections (dynamicPhase env c).2.2 = 0 := by
  simp [dynamicPhase, callbackCalls, staticCollections]

theorem endPhase_fields (env : CycleEnv) (c : MonitorContext) :
    (endPhase env c).1 =
        { c with
          dynamicInfo := {}
          cycleCount := (c.cycleCount + 1) % 2 ^ SIZE_BITS
          lastUpdateTime := env.now } ∧
      callbackCalls (endPhase env c).2 = [] ∧
      staticCollections (endPhase env c).2 = 0 := by
  simp [endPhase, MonitorContext.IncrementCycle, DynamicInfo.Reset, callbackCalls,
    staticCollections]

/-- What an iteration leaves alone, and how it counts: the callbacks, the interval and the
start time are kept, the cycle counter goes up by one (as a `size_t`), the dynamic snapshot is
empty, and the first-run flag and the static snapshot are those left by the static phase. -/
theorem monitoring_thread_cycle_frame {env : CycleEnv} {c c2 : MonitorContext}
    {events : List Event} (h : monitoring_thread_cycle env c = some (c2, events)) :
    c2.isRunning = true ∧ c2.cCallback = c.cCallback ∧ c2.cppCallback = c.cppCallback ∧
      c2.updateInterval = c.updateInterval ∧ c2.startTime = c.startTime ∧
      c2.cycleCount = (c.cycleCount + 1) % 2 ^ SIZE_BITS ∧ c2.dynamicInfo = {} ∧
      c2.isFirstRun = (staticPhase env c).1.isFirstRun ∧
      c2.staticInfo = (staticPhase env c).1.staticInfo ∧
      staticCollections events = (if c.isFirstRun then 1 else 0) := by
  obtain ⟨hrun, hstop⟩ := monitoring_thread_cycle_some h
  rw [monitoring_thread_cycle_eq env c hrun hstop] at h
  obtain ⟨hc, he⟩ := Prod.mk.inj (Option.some.inj h)
  have h1 := staticPhase_keeps env c
  have h1f := staticPhase_frame env c
  have h2 := dynamicPhase_fields env (staticPhase env c).1
  have h3 := emitPhase_fields env (dynamicPhase env (staticPhase env c).1).1
    (dynamicPhase env (staticPhase env c).1).2.1
  have h3f := emitPhase_frame env (dynamicPhase env (staticPhase env c).1).1
    (dynamicPhase env (staticPhase env c).1).2.1
  have h3k := emitPhase_keeps env (dynamicPhase env (staticPhase env c).1).1
    (dynamicPhase env (staticPhase env c).1).2.1
  have h4 := endPhase_fields env (emitPhase env (dynamicPhase env (staticPhase env c).1).1
    (dynamicPhase env (staticPhase env c).1).2.1).1
  subst hc he
  refine ⟨?_, ?_, ?_, ?_, ?_, ?_, ?_, ?_, ?_, ?_⟩
  · rw [h4.1]; show _ = true; rw [h3f.1, h2.2.1]; exact h1f.1.trans hrun
  · rw [h4.1]; show _ = c.cCallback; rw [h3.2.2.2.1, h2.2.1]; exact h1.1
  · rw [h4.1]; show _ = c.cppCallback; rw [h3.2.2.2.2.1, h2.2.1]; exact h1.2.1
  · rw [h4.1]; show _ = c.updateInterval; rw [h3f.2.1, h2.2.1]; exact h1f.2.1
  · rw [h4.1]; show _ = c.startTime; rw [h3.2.2.2.2.2.2, h2.2.1]; exact h1.2.2.2.2.1
  · rw [h4.1]; show (_ + 1) % 2 ^ SIZE_BITS = _; rw [h3.2.2.2.2.2.1, h2.2.1]
    show ((staticPhase env c).1.cycleCount + 1) % 2 ^ SIZE_BITS = _
    rw [h1.2.2.1]
  · rw [h4.1]
  · rw [h4.1]; show _ = (staticPhase env c).1.isFirstRun; rw [h3.1, h2.2.1]
  · rw [h4.1]; show _ = (staticPhase env c).1.staticInfo; rw [h3.2.1, h2.2.1]
  · rw [staticCollections_append, staticCollections_append, staticCollections_append,
      h1.2.2.2.2.2.2, h3k.2, h2.2.2.2, h4.2.2]
    rfl

theorem cCallbackEvents_congr {c1 c2 : MonitorContext} (h : c1.cCallback = c2.cCallback)
    (doc : String) : cCallbackEvents c1 doc = cCallbackEvents c2 doc := by
  unfold cCallbackEvents
  rw [h]

theorem cppCallbackEvents_congr {c1 c2 : MonitorContext} (h : c1.cppCallback = c2.cppCallback)
    (doc : String) : cppCallbackEvents c1 doc = cppCallbackEvents c2 doc := by
  unfold cppCallbackEvents
  rw [h]

theorem callbackFailed_congr (env : CycleEnv) {c1 c2 : MonitorContext}
    (hc : c1.cCallback = c2.cCallback) (hcpp : c1.cppCallback = c2.cppCallback) (doc : String) :
    callbackFailed env c1 doc = callbackFailed env c2 doc := by
  unfold callbackFailed
  rw [hc, hcpp]

/-- The context in which an iteration entered in `c` reaches line 282: after the static phase,
with the dynamic snapshot just collected. -/
theorem dynamicPhase_after_static (env : CycleEnv) (c : MonitorContext) :
    (dynamicPhase env (staticPhase env c).1).1 = (CollectDynamicInfo env c.dynamicInfo).1 ∧
      (dynamicPhase env (staticPhase env c).1).2.1.isFirstRun
        = (staticPhase env c).1.isFirstRun ∧
      (dynamicPhase env (staticPhase env c).1).2.1.staticInfo
        = (staticPhase env c).1.staticInfo ∧
      (dynamicPhase env (staticPhase env c).1).2.1.dynamicInfo
        = (CollectDynamicInfo env c.dynamicInfo).2 ∧
      (dynamicPhase env (staticPhase env c).1).2.1.cCallback = c.cCallback ∧
      (dynamicPhase env (staticPhase env c).1).2.1.cppCallback = c.cppCallback ∧
      (dynamicPhase env (staticPhase env c).1).2.1.lastError = (staticPhase env c).1.lastError := by
  have h1 := staticPhase_keeps env c
  have h2 := dynamicPhase_fields env (staticPhase env c).1
  refine ⟨?_, ?_, ?_, ?_, ?_, ?_, ?_⟩
  · rw [h2.1, h1.2.2.2.1]
  · rw [h2.2.1]
  · rw [h2.2.1]
  · rw [h2.2.1]; show (CollectDynamicInfo env (staticPhase env c).1.dynamicInfo).2 = _
    rw [h1.2.2.2.1]
  · rw [h2.2.1]; exact h1.1
  · rw [h2.2.1]; exact h1.2.1
  · rw [h2.2.1]

theorem cycleDocument_eq (env : CycleEnv) (c : MonitorContext) :
    cycleDocument env c =
      if (CollectDynamicInfo env c.dynamicInfo).1 = MonitoringError.Success ∧
          (staticPhase env c).1.isFirstRun = false then
        GenerateJsonSafely env (staticPhase env c).1.staticInfo
          (CollectDynamicInfo env c.dynamicInfo).2
      else none := by
  have h := dynamicPhase_after_static env c
  simp only [cycleDocument]
  rw [h.1, h.2.1, h.2.2.1, h.2.2.2.1]
  by_cases hd : (CollectDynamicInfo env c.dynamicInfo).1 = MonitoringError.Success <;>
    cases hf : (staticPhase env c).1.isFirstRun <;> simp [hd]

theorem cycleDocument_some {env : CycleEnv} {c : MonitorContext} {doc : String}
    (h : cycleDocument env c = some doc) :
    (CollectDynamicInfo env c.dynamicInfo).1 = MonitoringError.Success ∧
      (staticPhase env c).1.isFirstRun = false ∧
      GenerateJsonSafely env (staticPhase env c).1.staticInfo
        (CollectDynamicInfo env c.dynamicInfo).2 = some doc := by
  rw [cycleDocument_eq] at h
  split_ifs at h with hg
  exact ⟨hg.1, hg.2, h⟩

/-- The last error and the callback calls of an iteration are those of its dispatch phase. -/
theorem monitoring_thread_cycle_emit {env : CycleEnv} {c c2 : MonitorContext}
    {events : List Event} (h : monitoring_thread_cycle env c = some (c2, events)) :
    c2.lastError = (emitPhase env (dynamicPhase env (staticPhase env c).1).1
        (dynamicPhase env (staticPhase env c).1).2.1).1.lastError ∧
      callbackCalls events = callbackCalls (emitPhase env (dynamicPhase env (staticPhase env c).1).1
        (dynamicPhase env (staticPhase env c).1).2.1).2 := by
  obtain ⟨hrun, hstop⟩ := monitoring_thread_cycle_some h
  rw [monitoring_thread_cycle_eq env c hrun hstop] at h
  obtain ⟨hc, he⟩ := Prod.mk.inj (Option.some.inj h)
  have h1 := staticPhase_keeps env c
  have h2 := dynamicPhase_fields env (staticPhase env c).1
  have h4 := endPhase_fields env (emitPhase env (dynamicPhase env (staticPhase env c).1).1
    (dynamicPhase env (staticPhase env c).1).2.1).1
  subst hc he
  refine ⟨by rw [h4.1], ?_⟩
  rw [callbackCalls_append, callbackCalls_append, callbackCalls_append, h1.2.2.2.2.2.1,
    h2.2.2.1, h4.2.1]
  simp

/-- An iteration that generates a non-empty document calls every installed callback with it, the
C one first, and records `CallbackExecutionFailed` exactly when one of them throws. -/
theorem monitoring_thread_cycle_of_document {env : CycleEnv} {c c2 : MonitorContext}
    {events : List Event} (h : monitoring_thread_cycle env c = some (c2, events))
    {doc : String} (hdoc : cycleDocument env c = some doc) (hne : doc ≠ "") :
    callbackCalls events = cCallbackEvents c doc ++ cppCallbackEvents c doc ∧
      c2.lastError =
        (if callbackFailed env c doc then MonitoringError.CallbackExecutionFailed
          else (staticPhase env c).1.lastError) := by
  obtain ⟨hd, hf, hj⟩ := cycleDocument_some hdoc
  have ha := dynamicPhase_after_static env c
  have he := monitoring_thread_cycle_emit h
  have hj2 : GenerateJsonSafely env (dynamicPhase env (staticPhase env c).1).2.1.staticInfo
      (dynamicPhase env (staticPhase env c).1).2.1.dynamicInfo = some doc := by
    rw [ha.2.2.1, ha.2.2.2.1]; exact hj
  have hemit := emitPhase_of_document env (dynamicPhase env (staticPhase env c).1).2.1 doc
    (ha.2.1.trans hf) hj2 hne
  rw [ha.1, hd] at he
  rw [hemit] at he
  have hcf := callbackFailed_congr env ha.2.2.2.2.1 ha.2.2.2.2.2.1 doc
  refine ⟨?_, ?_⟩
  · rw [he.2, cCallbackEvents_congr ha.2.2.2.2.1, cppCallbackEvents_congr ha.2.2.2.2.2.1]
    cases callbackFailed env (dynamicPhase env (staticPhase env c).1).2.1 doc <;>
      simp [callbackCalls_append, callbackCalls, setLastErrorEvents, cCallbackEvents_calls,
        cppCallbackEvents_calls]
  · rw [he.1]
    show (if callbackFailed env (dynamicPhase env (staticPhase env c).1).2.1 doc = true then _
      else (dynamicPhase env (staticPhase env c).1).2.1.lastError) = _
    rw [hcf, ha.2.2.2.2.2.2]

/-- An iteration calls a callback only with a non-empty document it has generated. -/
theorem monitoring_thread_cycle_calls_only_document {env : CycleEnv} {c c2 : MonitorContext}
    {events : List Event} (h : monitoring_thread_cycle env c = some (c2, events))
    (hcalls : callbackCalls events ≠ []) :
    ∃ doc, cycleDocument env c = some doc ∧ doc ≠ "" := by
  have ha := dynamicPhase_after_static env c
  have he := (monitoring_thread_cycle_emit h).2
  rw [he] at hcalls
  rcases emitPhase_cases env (dynamicPhase env (staticPhase env c).1).1
    (dynamicPhase env (staticPhase env c).1).2.1 with hc | hc | hc | hc | ⟨doc, hc⟩
  · rw [hc.2] at hcalls; exact absurd rfl hcalls
  · rw [hc.2.2] at hcalls; exact absurd rfl hcalls
  · rw [hc.2.2.2] at hcalls; exact absurd rfl hcalls
  · rw [hc.2.2.2] at hcalls; exact absurd rfl hcalls
  · refine ⟨doc, ?_, hc.2.2.2.1⟩
    rw [cycleDocument_eq, if_pos ⟨ha.1 ▸ hc.1, ha.2.1 ▸ hc.2.1⟩]
    have hj := hc.2.2.1
    rw [ha.2.2.1, ha.2.2.2.1] at hj
    exact hj

/-- An iteration whose dynamic collection fails calls no callback and ends with
`DataCollectionFailed` as the last error. -/
theorem monitoring_thread_cycle_of_dynamic_failure {env : CycleEnv} {c c2 : MonitorContext}
    {events : List Event} (h : monitoring_thread_cycle env c = some (c2, events))
    (hd : (CollectDynamicInfo env c.dynamicInfo).1 ≠ MonitoringError.Success) :
    callbackCalls events = [] ∧ c2.lastError = MonitoringError.DataCollectionFailed := by
  have ha := dynamicPhase_after_static env c
  have he := monitoring_thread_cycle_emit h
  have hcode := (collectDynamicInfo_code env c.dynamicInfo).resolve_left hd
  have hemit := emitPhase_of_dynamic_failure env (dynamicPhase env (staticPhase env c).1).1
    (dynamicPhase env (staticPhase env c).1).2.1 (by rw [ha.1]; exact hd)
  rw [hemit] at he
  refine ⟨by rw [he.2]; rfl, ?_⟩
  rw [he.1]
  show (dynamicPhase env (staticPhase env c).1).1 = _
  rw [ha.1, hcode]

theorem generateJsonSafely_some {env : CycleEnv} {s : StaticInfo} {d : DynamicInfo}
    {doc : String} (h : GenerateJsonSafely env s d = some doc) :
    s.IsComplete = true ∧ d.IsEssentialComplete = true ∧
      env.GenerateSystemInfo s d = some doc := by
  unfold GenerateJsonSafely at h
  cases hs : s.IsComplete <;> cases hd : d.IsEssentialComplete <;> simp [hs, hd] at h
  exact ⟨rfl, rfl, h⟩

theorem generateJsonSafely_of_complete (env : CycleEnv) {s : StaticInfo} {d : DynamicInfo}
    (hs : s.IsComplete = true) (hd : d.IsEssentialComplete = true) :
    GenerateJsonSafely env s d = env.GenerateSystemInfo s d := by
  simp [GenerateJsonSafely, hs, hd]

theorem mem_callbackEvents_c {c : MonitorContext} {f : NysysCallback} (h : c.cCallback = some f)
    (doc : String) : Event.callC f doc ∈ cCallbackEvents c doc ++ cppCallbackEvents c doc := by
  simp [cCallbackEvents, h]

theorem mem_callbackEvents_cpp {c : MonitorContext} {g : CppCallback}
    (h : c.cppCallback = some g) (doc : String) :
    Event.callCpp g doc ∈ cCallbackEvents c doc ++ cppCallbackEvents c doc := by
  simp [cppCallbackEvents, h]

theorem callbackCalls_subset (events : List Event) (e : Event) (h : e ∈ callbackCalls events) :
    e ∈ events := by
  induction events with
  | nil => simp [callbackCalls] at h
  | cons x rest ih =>
    cases x <;> simp only [callbackCalls, List.mem_cons] at h ⊢
    all_goals first
      | exact Or.inr (ih h)
      | exact h.elim Or.inl (fun h2 => Or.inr (ih h2))

/-! ## Documents -/

/-- C12: a document is generated, and so passed to the callbacks, only when all five static
domains (CPU, GPU, motherboard, audio, monitors) are present and the dynamic snapshot has
memory, storage and network; the battery is not required. `GenerateJsonSafely` returns no
document whenever `StaticInfo::IsComplete` or `DynamicInfo::IsEssentialComplete` is false, its
test does not depend on `batteryInfo`, and an iteration that calls a callback has a complete
static snapshot and collected an essentially complete dynamic one. -/
theorem document_only_from_complete_snapshots :
    (∀ (env : CycleEnv) (s : StaticInfo) (d : DynamicInfo) (doc : String),
        GenerateJsonSafely env s d = some doc →
        s.cpuList.isSome = true ∧ s.gpuList.isSome = true ∧ s.mbInfo.isSome = true ∧
          s.audioList.isSome = true ∧ s.monitorList.isSome = true ∧
          d.memInfo.isSome = true ∧ d.storageList.isSome = true ∧
          d.networkList.isSome = true) ∧
      (∀ (env : CycleEnv) (s : StaticInfo) (d : DynamicInfo),
        s.IsComplete = false ∨ d.IsEssentialComplete = false →
        GenerateJsonSafely env s d = none) ∧
      (∀ (env : CycleEnv) (s : StaticInfo) (d : DynamicInfo) (b : Option BatteryInfo),
        ({ d with batteryInfo := b } : DynamicInfo).IsEssentialComplete
            = d.IsEssentialComplete ∧
          (s.IsComplete = true → d.IsEssentialComplete = true →
            GenerateJsonSafely env s { d with batteryInfo := b }
              = env.GenerateSystemInfo s { d with batteryInfo := b })) ∧
      (∀ (env : CycleEnv) (c c2 : MonitorContext) (events : List Event),
        monitoring_thread_cycle env c = some (c2, events) → callbackCalls events ≠ [] →
        c2.staticInfo.IsComplete = true ∧
          (CollectDynamicInfo env c.dynamicInfo).2.IsEssentialComplete = true) := by
  refine ⟨?_, ?_, ?_, ?_⟩
  · intro env s d doc h
    obtain ⟨hs, hd, _⟩ := generateJsonSafely_some h
    simp only [StaticInfo.IsComplete, DynamicInfo.IsEssentialComplete, Bool.and_eq_true] at hs hd
    exact ⟨hs.1.1.2, hs.1.1.1.1, hs.1.1.1.2, hs.1.2, hs.2, hd.1.1, hd.1.2, hd.2⟩
  · intro env s d h
    rcases h with h | h <;> simp [GenerateJsonSafely, h]
  · intro env s d b
    refine ⟨rfl, fun hs hd => generateJsonSafely_of_complete env hs ?_⟩
    exact hd
  · intro env c c2 events h hcalls
    obtain ⟨doc, hdoc, _⟩ := monitoring_thread_cycle_calls_only_document h hcalls
    obtain ⟨_, _, hj⟩ := cycleDocument_some hdoc
    obtain ⟨hs, hd, _⟩ := generateJsonSafely_some hj
    rw [(monitoring_thread_cycle_frame h).2.2.2.2.2.2.2.2.1]
    exact ⟨hs, hd⟩

/-- Witness of C12: with no battery, `GenerateJsonSafely` gives the serializer's document on a
complete static snapshot and memory, storage and network present, and the eight domains are
present. -/
theorem document_only_from_complete_snapshots_witness :
    GenerateJsonSafely healthyCycle
        { gpuList := some 2, mbInfo := some 3, cpuList := some 1, audioList := some 4,
          monitorList := some 5 }
        { memInfo := some 6, storageList := some 7, batteryInfo := none,
          networkList := some 8 } = some "doc" ∧
      (some 1 : Option CPUList).isSome = true ∧ (some 8 : Option NetworkList).isSome = true :=
  have h : GenerateJsonSafely healthyCycle
      { gpuList := some 2, mbInfo := some 3, cpuList := some 1, audioList := some 4,
        monitorList := some 5 }
      { memInfo := some 6, storageList := some 7, batteryInfo := none,
        networkList := some 8 } = some "doc" := rfl
  have w := document_only_from_complete_snapshots.1 healthyCycle _ _ "doc" h
  ⟨h, w.1, w.2.2.2.2.2.2.2⟩

/-- C13, as stated, fails in the first iteration of a session started with a C callback
registered and every collector succeeding: that iteration collects the static snapshot (the
snapshot is empty before and complete after, `CollectStaticInfo` is called once) and in it the
callback is called with the document. -/
theorem first_cycle_calls_callback :
    (start_monitoring { CreateEvent := 1, beginthreadex := 2 } 100
        (set_callback (some 7) g_MonitorContext)).2.staticInfo = {} ∧
      (monitoring_thread 3 [healthyCycle]
        (start_monitoring { CreateEvent := 1, beginthreadex := 2 } 100
          (set_callback (some 7) g_MonitorContext)).2).1.staticInfo.IsComplete = true ∧
      staticCollections (monitoring_thread 3 [healthyCycle]
        (start_monitoring { CreateEvent := 1, beginthreadex := 2 } 100
          (set_callback (some 7) g_MonitorContext)).2).2.1 = 1 ∧
      ¬ (callbackCalls (monitoring_thread 3 [healthyCycle]
        (start_monitoring { CreateEvent := 1, beginthreadex := 2 } 100
          (set_callback (some 7) g_MonitorContext)).2).2.1 = []) ∧
      callbackCalls (monitoring_thread 3 [healthyCycle]
        (start_monitoring { CreateEvent := 1, beginthreadex := 2 } 100
          (set_callback (some 7) g_MonitorContext)).2).2.1 = [Event.callC 7 "doc"] := by
  decide

theorem staticPhase_first_run (env : CycleEnv) (c : MonitorContext)
    (hfirst : c.isFirstRun = true) :
    ((CollectStaticInfo env c.staticInfo).1 = MonitoringError.Success →
        (staticPhase env c).1.isFirstRun = false ∧
          (staticPhase env c).1.staticInfo = (CollectStaticInfo env c.staticInfo).2 ∧
          (staticPhase env c).1.lastError = c.lastError) ∧
      ((CollectStaticInfo env c.staticInfo).1 ≠ MonitoringError.Success →
        (staticPhase env c).1.isFirstRun = true ∧
          (staticPhase env c).1.lastError = MonitoringError.DataCollectionFailed) := by
  refine ⟨fun hs => ?_, fun hf => ?_⟩
  · rw [staticPhase_of_success env c hfirst hs]
    exact ⟨rfl, rfl, rfl⟩
  · rw [staticPhase_of_failure env c hfirst hf]
    exact ⟨hfirst, rfl⟩

/-- An iteration entered with the first-run flag set: what it does when `CollectStaticInfo`
succeeds and when it fails. -/
theorem monitoring_thread_cycle_first_run (env : CycleEnv) (c : MonitorContext)
    (hrun : c.isRunning = true) (hstop : env.stopSignalled = false)
    (hfirst : c.isFirstRun = true) :
    ∃ c2 events, monitoring_thread_cycle env c = some (c2, events) ∧
      staticCollections events = 1 ∧
      ((CollectStaticInfo env c.staticInfo).1 = MonitoringError.Success →
        c2.isFirstRun = false ∧ c2.staticInfo = (CollectStaticInfo env c.staticInfo).2 ∧
        ∀ doc : String,
          (CollectDynamicInfo env c.dynamicInfo).1 = MonitoringError.Success →
          env.GenerateSystemInfo (CollectStaticInfo env c.staticInfo).2
            (CollectDynamicInfo env c.dynamicInfo).2 = some doc →
          doc ≠ "" →
          callbackCalls events = cCallbackEvents c doc ++ cppCallbackEvents c doc ∧
            (∀ f, c.cCallback = some f → Event.callC f doc ∈ events) ∧
            (∀ g, c.cppCallback = some g → Event.callCpp g doc ∈ events)) ∧
      ((CollectStaticInfo env c.staticInfo).1 ≠ MonitoringError.Success →
        c2.isFirstRun = true ∧ callbackCalls events = []) := by
  obtain ⟨c2, events, h, _⟩ := monitoring_thread_cycle_runs env c hrun hstop
  have hfr := monitoring_thread_cycle_frame h
  have hsp := staticPhase_first_run env c hfirst
  refine ⟨c2, events, h, ?_, ?_, ?_⟩
  · rw [hfr.2.2.2.2.2.2.2.2.2, hfirst]; rfl
  · intro hs
    obtain ⟨hflag, hsnap, _⟩ := hsp.1 hs
    refine ⟨hfr.2.2.2.2.2.2.2.1.trans hflag, hfr.2.2.2.2.2.2.2.2.1.trans hsnap, ?_⟩
    intro doc hd hgen hne
    have hcomplete := collectStaticInfo_complete env c.staticInfo hs
    have hessential := collectDynamicInfo_essential env c.dynamicInfo hd
    have hdoc : cycleDocument env c = some doc := by
      rw [cycleDocument_eq, if_pos ⟨hd, hflag⟩, hsnap,
        generateJsonSafely_of_complete env hcomplete hessential]
      exact hgen
    have hcalls := (monitoring_thread_cycle_of_document h hdoc hne).1
    refine ⟨hcalls, fun f hf => ?_, fun g hg => ?_⟩
    · exact callbackCalls_subset events _ (hcalls ▸ mem_callbackEvents_c hf doc)
    · exact callbackCalls_subset events _ (hcalls ▸ mem_callbackEvents_cpp hg doc)
  · intro hf
    obtain ⟨hflag, _⟩ := hsp.2 hf
    refine ⟨hfr.2.2.2.2.2.2.2.1.trans hflag, ?_⟩
    by_contra hcalls
    obtain ⟨doc, hdoc, _⟩ := monitoring_thread_cycle_calls_only_document h hcalls
    have hno := (cycleDocument_some hdoc).2.1
    rw [hflag] at hno
    exact Bool.noConfusion hno

/-- C13 (amended): the iteration in which the static snapshot is first successfully collected
emits a document itself. Entered with the first-run flag set, an iteration whose
`CollectStaticInfo` succeeds stores the snapshot and clears the flag, and when its dynamic
collection succeeds and the serializer returns a non-empty document it calls every registered
callback with that document in the same iteration. An iteration whose `CollectStaticInfo` fails
calls no callback and leaves the flag set. -/
theorem first_static_cycle_emits (env : CycleEnv) (c : MonitorContext)
    (hrun : c.isRunning = true) (hstop : env.stopSignalled = false)
    (hfirst : c.isFirstRun = true) :
    ∃ c2 events, monitoring_thread_cycle env c = some (c2, events) ∧
      staticCollections events = 1 ∧
      ((CollectStaticInfo env c.staticInfo).1 = MonitoringError.Success →
        c2.isFirstRun = false ∧ c2.staticInfo = (CollectStaticInfo env c.staticInfo).2 ∧
        ∀ doc : String,
          (CollectDynamicInfo env c.dynamicInfo).1 = MonitoringError.Success →
          env.GenerateSystemInfo (CollectStaticInfo env c.staticInfo).2
            (CollectDynamicInfo env c.dynamicInfo).2 = some doc →
          doc ≠ "" →
          callbackCalls events = cCallbackEvents c doc ++ cppCallbackEvents c doc ∧
            (∀ f, c.cCallback = some f → Event.callC f doc ∈ events) ∧
            (∀ g, c.cppCallback = some g → Event.callCpp g doc ∈ events)) ∧
      ((CollectStaticInfo env c.staticInfo).1 ≠ MonitoringError.Success →
        c2.isFirstRun = true ∧ callbackCalls events = []) :=
  monitoring_thread_cycle_first_run env c hrun hstop hfirst

/-- Witness of C13 (amended): the first iteration of a session started with C callback 7
registered, every collector succeeding: the flag is cleared and callback 7 gets the document. -/
theorem first_static_cycle_emits_witness :
    ∃ c2 events,
      monitoring_thread_cycle healthyCycle
        (start_monitoring { CreateEvent := 1, beginthreadex := 2 } 100
          (set_callback (some 7) g_MonitorContext)).2 = some (c2, events) ∧
      c2.isFirstRun = false ∧ Event.callC 7 "doc" ∈ events :=
  match first_static_cycle_emits healthyCycle
    (start_monitoring { CreateEvent := 1, beginthreadex := 2 } 100
      (set_callback (some 7) g_MonitorContext)).2 rfl rfl rfl with
  | ⟨c2, events, h, _, hs, _⟩ =>
    ⟨c2, events, h, (hs rfl).1, ((hs rfl).2.2 "doc" rfl rfl (by decide)).2.1 7 rfl⟩

/-! ## Sessions -/

theorem monitoring_thread_loop_cons {env : CycleEnv} {c c2 : MonitorContext}
    {events : List Event} (h : monitoring_thread_cycle env c = some (c2, events))
    (rest : List CycleEnv) :
    monitoring_thread_loop (env :: rest) c =
      ((monitoring_thread_loop rest c2).1, events ++ (monitoring_thread_loop rest c2).2.1,
        (monitoring_thread_loop rest c2).2.2) := by
  simp [monitoring_thread_loop, h]

theorem healthyCycle_succeeds :
    healthyCycle.stopSignalled = false ∧
      (∀ s, (CollectStaticInfo healthyCycle s).1 = MonitoringError.Success) ∧
      (∀ d, (CollectDynamicInfo healthyCycle d).1 = MonitoringError.Success) ∧
      (∀ s d, s.IsComplete = true → d.IsEssentialComplete = true →
        ∃ doc, healthyCycle.GenerateSystemInfo s d = some doc ∧ doc ≠ "") :=
  ⟨rfl, fun _ => rfl, fun _ => rfl, fun _ _ _ _ => ⟨"doc", rfl, by decide⟩⟩

/-- C14: with collectors and a serializer that always succeed (every `CollectStaticInfo` and
`CollectDynamicInfo` returns `Success`, the serializer returns a non-empty document on complete
snapshots) and the stop event not signalled, after a successful `start_monitoring 100` the
events of the first five iterations of `monitoring_thread` contain, for some non-empty document,
a call of every callback that was registered with that document. -/
theorem callback_within_five_cycles (startEnv : StartEnv) (c : MonitorContext)
    (now : TimePoint) (envs : List CycleEnv)
    (hstart : (start_monitoring startEnv 100 c).1 = true) (hlen : envs.length = 5)
    (hhealthy : ∀ env ∈ envs, env.stopSignalled = false ∧
      (∀ s, (CollectStaticInfo env s).1 = MonitoringError.Success) ∧
      (∀ d, (CollectDynamicInfo env d).1 = MonitoringError.Success) ∧
      (∀ s d, s.IsComplete = true → d.IsEssentialComplete = true →
        ∃ doc, env.GenerateSystemInfo s d = some doc ∧ doc ≠ "")) :
    ∃ doc, doc ≠ "" ∧
      (∀ f, c.cCallback = some f → Event.callC f doc ∈
        (monitoring_thread now envs (start_monitoring startEnv 100 c).2).2.1) ∧
      (∀ g, c.cppCallback = some g → Event.callCpp g doc ∈
        (monitoring_thread now envs (start_monitoring startEnv 100 c).2).2.1) := by
  cases envs with
  | nil => simp at hlen
  | cons env rest =>
    obtain ⟨hstop, hstatic, hdynamic, hserial⟩ := hhealthy env (List.mem_cons_self env rest)
    have hs := start_monitoring_success_eq startEnv 100 c hstart
    have hrun : ((start_monitoring startEnv 100 c).2.InitializeSession now).isRunning = true := by
      rw [hs]; rfl
    have hfirst :
        ((start_monitoring startEnv 100 c).2.InitializeSession now).isFirstRun = true := by
      rw [hs]; rfl
    have hc : ((start_monitoring startEnv 100 c).2.InitializeSession now).cCallback
        = c.cCallback := by
      rw [hs]; rfl
    have hcpp : ((start_monitoring startEnv 100 c).2.InitializeSession now).cppCallback
        = c.cppCallback := by
      rw [hs]; rfl
    obtain ⟨c2, events, h, _, hemit, _⟩ :=
      monitoring_thread_cycle_first_run env _ hrun hstop hfirst
    obtain ⟨_, _, hcall⟩ := hemit (hstatic _)
    obtain ⟨doc, hgen, hne⟩ := hserial _ _
      (collectStaticInfo_complete env _ (hstatic _))
      (collectDynamicInfo_essential env _ (hdynamic _))
    obtain ⟨_, hC, hCpp⟩ := hcall doc (hdynamic _) hgen hne
    refine ⟨doc, hne, fun f hf => ?_, fun g hg => ?_⟩
    · unfold monitoring_thread
      rw [monitoring_thread_loop_cons h rest]
      exact List.mem_append_left _ (hC f (hc.trans hf))
    · unfold monitoring_thread
      rw [monitoring_thread_loop_cons h rest]
      exact List.mem_append_left _ (hCpp g (hcpp.trans hg))

/-- Witness of C14: the default-constructed controller with C callback 7 registered, started
with 100 ms, and five iterations in which everything succeeds. -/
theorem callback_within_five_cycles_witness :
    ∃ doc, doc ≠ "" ∧ Event.callC 7 doc ∈
      (monitoring_thread 3 (List.replicate 5 healthyCycle)
        (start_monitoring { CreateEvent := 1, beginthreadex := 2 } 100
          (set_callback (some 7) g_MonitorContext)).2).2.1 :=
  match callback_within_five_cycles { CreateEvent := 1, beginthreadex := 2 }
    (set_callback (some 7) g_MonitorContext) 3 (List.replicate 5 healthyCycle) rfl rfl
    (fun _ henv => (List.eq_of_mem_replicate henv) ▸ healthyCycle_succeeds) with
  | ⟨doc, hne, hC, _⟩ => ⟨doc, hne, hC 7 rfl⟩

theorem monitoring_thread_loop_dynamic_failure (envs : List CycleEnv) (c : MonitorContext)
    (hrun : c.isRunning = true)
    (hfail : ∀ env ∈ envs, env.stopSignalled = false ∧
      ∀ d, (CollectDynamicInfo env d).1 ≠ MonitoringError.Success) :
    callbackCalls (monitoring_thread_loop envs c).2.1 = [] ∧
      (monitoring_thread_loop envs c).1.isRunning = true ∧
      (monitoring_thread_loop envs c).2.2 = false ∧
      (envs ≠ [] →
        (monitoring_thread_loop envs c).1.lastError = MonitoringError.DataCollectionFailed) := by
  induction envs generalizing c with
  | nil => exact ⟨rfl, hrun, rfl, fun h => absurd rfl h⟩
  | cons env rest ih =>
    obtain ⟨hstop, hdyn⟩ := hfail env (List.mem_cons_self env rest)
    obtain ⟨c2, events, h, hrun2, _⟩ := monitoring_thread_cycle_runs env c hrun hstop
    obtain ⟨hcalls, herr⟩ := monitoring_thread_cycle_of_dynamic_failure h (hdyn _)
    obtain ⟨ih1, ih2, ih3, ih4⟩ :=
      ih c2 hrun2 (fun e he => hfail e (List.mem_cons_of_mem env he))
    rw [monitoring_thread_loop_cons h rest]
    refine ⟨?_, ih2, ih3, fun _ => ?_⟩
    · show callbackCalls (events ++ _) = []
      rw [callbackCalls_append, hcalls, ih1]
      rfl
    · cases rest with
      | nil => exact herr
      | cons e rest2 => exact ih4 (List.cons_ne_nil e rest2)

/-- C15: if `CollectDynamicInfo` fails in every iteration (and the stop event is not signalled),
then after any number of iterations of `monitoring_thread` no callback has been called, the
last error is `DataCollectionFailed` at the end of every iteration (after the first `k`, for
every `k ≥ 1`), `is_monitoring` is still true and the loop has not ended. -/
theorem dynamic_failure_every_cycle (now : TimePoint) (envs : List CycleEnv)
    (c : MonitorContext) (hrun : c.isRunning = true)
    (hfail : ∀ env ∈ envs, env.stopSignalled = false ∧
      ∀ d, (CollectDynamicInfo env d).1 ≠ MonitoringError.Success) :
    callbackCalls (monitoring_thread now envs c).2.1 = [] ∧
      (∀ k, 0 < k → k ≤ envs.length →
        (monitoring_thread now (envs.take k) c).1.GetLastError
          = MonitoringError.DataCollectionFailed) ∧
      is_monitoring (monitoring_thread now envs c).1 = true ∧
      (monitoring_thread now envs c).2.2 = false := by
  have hinit : (c.InitializeSession now).isRunning = true := hrun
  obtain ⟨h1, h2, h3, _⟩ :=
    monitoring_thread_loop_dynamic_failure envs (c.InitializeSession now) hinit hfail
  refine ⟨h1, ?_, by simp [is_monitoring, monitoring_thread, h2], h3⟩
  intro k hk hle
  have hne : envs.take k ≠ [] := by
    intro hnil
    have hlen := congrArg List.length hnil
    rw [List.length_take, List.length_nil] at hlen
    omega
  exact (monitoring_thread_loop_dynamic_failure (envs.take k) (c.InitializeSession now) hinit
    (fun e he => hfail e (List.mem_of_mem_take he))).2.2.2 hne

/-- Witness of C15: a running session with C callback 7 registered and three iterations in
which `GetMemoryInfo` throws. -/
theorem dynamic_failure_every_cycle_witness :
    callbackCalls (monitoring_thread 3
        (List.replicate 3 { healthyCycle with GetMemoryInfo := CallResult.throws })
        (start_monitoring { CreateEvent := 1, beginthreadex := 2 } 100
          (set_callback (some 7) g_MonitorContext)).2).2.1 = [] ∧
      (monitoring_thread 3
        (List.replicate 3 { healthyCycle with GetMemoryInfo := CallResult.throws })
        (start_monitoring { CreateEvent := 1, beginthreadex := 2 } 100
          (set_callback (some 7) g_MonitorContext)).2).1.GetLastError
        = MonitoringError.DataCollectionFailed :=
  have h := dynamic_failure_every_cycle 3
    (List.replicate 3 { healthyCycle with GetMemoryInfo := CallResult.throws })
    (start_monitoring { CreateEvent := 1, beginthreadex := 2 } 100
      (set_callback (some 7) g_MonitorContext)).2 rfl
    (fun _ henv => (List.eq_of_mem_replicate henv) ▸
      ⟨rfl, fun _ => by simp [CollectDynamicInfo]⟩)
  ⟨h.1, h.2.1 3 (by decide) (by decide)⟩

theorem callbackFailed_of_throwing (env : CycleEnv) (c : MonitorContext) (doc : String)
    (hreg : c.cCallback.isSome = true ∨ c.cppCallback.isSome = true)
    (hthrowC : ∀ f, c.cCallback = some f → ∀ d, env.cCallbackThrows f d = true)
    (hthrowCpp : ∀ g, c.cppCallback = some g → ∀ d, env.cppCallbackThrows g d = true) :
    callbackFailed env c doc = true := by
  unfold callbackFailed
  cases hc : c.cCallback with
  | some f => simp [hthrowC f hc doc]
  | none =>
    cases hcpp : c.cppCallback with
    | some g => simp [hthrowCpp g hcpp doc]
    | none => simp [hc, hcpp] at hreg

/-- C16: if every registered callback throws on every call, an iteration that produces a
non-empty document returns from `InvokeCallbacks` with `CallbackExecutionFailed` (the exception
does not escape), records it as the last error, and runs to its end: the callbacks were called
with the document, the cycle counter is incremented (as a `size_t`), the controller is still
running and the callbacks are still registered; and the next iteration that produces a
non-empty document calls them again. -/
theorem throwing_callback_recorded_and_retried (env : CycleEnv) (c : MonitorContext)
    (doc : String) (hrun : c.isRunning = true) (hstop : env.stopSignalled = false)
    (hreg : c.cCallback.isSome = true ∨ c.cppCallback.isSome = true)
    (hthrowC : ∀ f, c.cCallback = some f → ∀ d, env.cCallbackThrows f d = true)
    (hthrowCpp : ∀ g, c.cppCallback = some g → ∀ d, env.cppCallbackThrows g d = true)
    (hdoc : cycleDocument env c = some doc) (hne : doc ≠ "") :
    (c.InvokeCallbacks env doc).1 = MonitoringError.CallbackExecutionFailed ∧
      ∃ c2 events, monitoring_thread_cycle env c = some (c2, events) ∧
        c2.GetLastError = MonitoringError.CallbackExecutionFailed ∧
        callbackCalls events = cCallbackEvents c doc ++ cppCallbackEvents c doc ∧
        c2.cycleCount = (c.cycleCount + 1) % 2 ^ SIZE_BITS ∧
        (c.cycleCount + 1 < 2 ^ SIZE_BITS → c2.cycleCount = c.cycleCount + 1) ∧
        c2.isRunning = true ∧ c2.cCallback = c.cCallback ∧ c2.cppCallback = c.cppCallback ∧
        ∀ (env2 : CycleEnv) (doc2 : String), env2.stopSignalled = false →
          cycleDocument env2 c2 = some doc2 → doc2 ≠ "" →
          ∃ c3 events2, monitoring_thread_cycle env2 c2 = some (c3, events2) ∧
            callbackCalls events2 = cCallbackEvents c doc2 ++ cppCallbackEvents c doc2 := by
  have hfailed := callbackFailed_of_throwing env c doc hreg hthrowC hthrowCpp
  refine ⟨?_, ?_⟩
  · simp [MonitorContext.InvokeCallbacks, isEmpty_eq_false_of_ne hne, hfailed]
  · obtain ⟨c2, events, h, hrun2, _⟩ := monitoring_thread_cycle_runs env c hrun hstop
    have hfr := monitoring_thread_cycle_frame h
    obtain ⟨hcalls, herr⟩ := monitoring_thread_cycle_of_document h hdoc hne
    refine ⟨c2, events, h, ?_, hcalls, hfr.2.2.2.2.2.1, ?_, hrun2, hfr.2.1, hfr.2.2.1, ?_⟩
    · show c2.lastError = _
      rw [herr, hfailed]
      rfl
    · intro hlt
      rw [hfr.2.2.2.2.2.1, Nat.mod_eq_of_lt hlt]
    · intro env2 doc2 hstop2 hdoc2 hne2
      obtain ⟨c3, events2, h2, _⟩ := monitoring_thread_cycle_runs env2 c2 hrun2 hstop2
      refine ⟨c3, events2, h2, ?_⟩
      rw [(monitoring_thread_cycle_of_document h2 hdoc2 hne2).1,
        cCallbackEvents_congr hfr.2.1, cppCallbackEvents_congr hfr.2.2.1]

/-- Witness of C16: a running session with C callback 7 registered, the static snapshot being
collected in this iteration, every collector succeeding and every callback throwing. -/
theorem throwing_callback_recorded_and_retried_witness :
    ∃ c2 events,
      monitoring_thread_cycle
        { healthyCycle with cCallbackThrows := fun _ _ => true,
                            cppCallbackThrows := fun _ _ => true }
        (start_monitoring { CreateEvent := 1, beginthreadex := 2 } 100
          (set_callback (some 7) g_MonitorContext)).2 = some (c2, events) ∧
      c2.GetLastError = MonitoringError.CallbackExecutionFailed ∧
      callbackCalls events = [Event.callC 7 "doc"] ∧ c2.cycleCount = 1 :=
  match (throwing_callback_recorded_and_retried
    { healthyCycle with cCallbackThrows := fun _ _ => true,
                        cppCallbackThrows := fun _ _ => true }
    (start_monitoring { CreateEvent := 1, beginthreadex := 2 } 100
      (set_callback (some 7) g_MonitorContext)).2 "doc" rfl rfl (Or.inl rfl)
    (fun _ _ _ => rfl) (fun _ _ _ => rfl) rfl (by decide)).2 with
  | ⟨c2, events, h, herr, hcalls, _, hcount, _⟩ =>
    ⟨c2, events, h, herr, hcalls, hcount (by decide)⟩

theorem monitoring_thread_loop_none {env : CycleEnv} {c : MonitorContext}
    (h : monitoring_thread_cycle env c = none) (rest : List CycleEnv) :
    monitoring_thread_loop (env :: rest) c = (c, [], true) := by
  simp [monitoring_thread_loop, h]

theorem monitoring_thread_loop_static_kept (envs : List CycleEnv) (c : MonitorContext)
    (hflag : c.isFirstRun = false) :
    (monitoring_thread_loop envs c).1.staticInfo = c.staticInfo ∧
      (monitoring_thread_loop envs c).1.isFirstRun = false ∧
      staticCollections (monitoring_thread_loop envs c).2.1 = 0 := by
  induction envs generalizing c with
  | nil => exact ⟨rfl, hflag, rfl⟩
  | cons env rest ih =>
    cases h : monitoring_thread_cycle env c with
    | none =>
      rw [monitoring_thread_loop_none h rest]
      exact ⟨rfl, hflag, rfl⟩
    | some r =>
      obtain ⟨c2, events⟩ := r
      have hfr := monitoring_thread_cycle_frame h
      have hsp := staticPhase_of_not_first env c hflag
      have hflag2 : c2.isFirstRun = false := by
        rw [hfr.2.2.2.2.2.2.2.1, hsp]; exact hflag
      have hsnap : c2.staticInfo = c.staticInfo := by
        rw [hfr.2.2.2.2.2.2.2.2.1, hsp]
      have hcount : staticCollections events = 0 := by
        rw [hfr.2.2.2.2.2.2.2.2.2, hflag]; rfl
      obtain ⟨ih1, ih2, ih3⟩ := ih c2 hflag2
      rw [monitoring_thread_loop_cons h rest]
      refine ⟨ih1.trans hsnap, ih2, ?_⟩
      show staticCollections (events ++ _) = 0
      rw [staticCollections_append, hcount, ih3]

theorem monitoring_thread_loop_static_failing (envs : List CycleEnv) (c : MonitorContext)
    (hflag : c.isFirstRun = true)
    (hfail : ∀ env ∈ envs, ∀ s, (CollectStaticInfo env s).1 ≠ MonitoringError.Success) :
    callbackCalls (monitoring_thread_loop envs c).2.1 = [] ∧
      (monitoring_thread_loop envs c).1.isFirstRun = true := by
  induction envs generalizing c with
  | nil => exact ⟨rfl, hflag⟩
  | cons env rest ih =>
    cases h : monitoring_thread_cycle env c with
    | none =>
      rw [monitoring_thread_loop_none h rest]
      exact ⟨rfl, hflag⟩
    | some r =>
      obtain ⟨c2, events⟩ := r
      obtain ⟨hrun, hstop⟩ := monitoring_thread_cycle_some h
      obtain ⟨c3, events3, h3, _, _, hf⟩ :=
        monitoring_thread_cycle_first_run env c hrun hstop hflag
      obtain ⟨hc, he⟩ := Prod.mk.inj (Option.some.inj (h.symm.trans h3))
      subst hc he
      obtain ⟨hflag2, hcalls⟩ := hf (hfail env (List.mem_cons_self env rest) _)
      obtain ⟨ih1, ih2⟩ := ih c2 hflag2 (fun e he => hfail e (List.mem_cons_of_mem env he))
      rw [monitoring_thread_loop_cons h rest]
      refine ⟨?_, ih2⟩
      show callbackCalls (events ++ _) = []
      rw [callbackCalls_append, hcalls, ih1]
      rfl

/-- C17: within one session, once `CollectStaticInfo` has succeeded (the first-run flag is
clear, which an iteration does exactly when its `CollectStaticInfo` returns `Success`), no later
iteration of the loop calls `CollectStaticInfo` again or changes the static snapshot; and no
callback is called before static collection has succeeded: while every `CollectStaticInfo` of
the session fails no callback is called, and an iteration that calls a callback has the flag
clear after its static phase, whose events come first and hold no callback call. -/
theorem static_snapshot_collected_once (envs : List CycleEnv) (c : MonitorContext) :
    (c.isFirstRun = false →
        (monitoring_thread_loop envs c).1.staticInfo = c.staticInfo ∧
        (monitoring_thread_loop envs c).1.isFirstRun = false ∧
        staticCollections (monitoring_thread_loop envs c).2.1 = 0) ∧
      (∀ (env : CycleEnv) (c2 : MonitorContext) (events : List Event),
        monitoring_thread_cycle env c = some (c2, events) → c.isFirstRun = true →
        (CollectStaticInfo env c.staticInfo).1 = MonitoringError.Success →
        c2.isFirstRun = false ∧
        (monitoring_thread_loop envs c2).1.staticInfo
          = (CollectStaticInfo env c.staticInfo).2 ∧
        staticCollections (monitoring_thread_loop envs c2).2.1 = 0) ∧
      (c.isFirstRun = true →
        (∀ env ∈ envs, ∀ s, (CollectStaticInfo env s).1 ≠ MonitoringError.Success) →
        callbackCalls (monitoring_thread_loop envs c).2.1 = []) ∧
      (∀ (env : CycleEnv) (c2 : MonitorContext) (events : List Event),
        monitoring_thread_cycle env c = some (c2, events) → callbackCalls events ≠ [] →
        c2.isFirstRun = false ∧
        (c.isFirstRun = true →
          (CollectStaticInfo env c.staticInfo).1 = MonitoringError.Success) ∧
        ∃ rest, events = (staticPhase env c).2 ++ rest ∧
          callbackCalls (staticPhase env c).2 = []) := by
  refine ⟨monitoring_thread_loop_static_kept envs c, ?_,
    fun hflag hfail => (monitoring_thread_loop_static_failing envs c hflag hfail).1, ?_⟩
  · intro env c2 events h hflag hs
    have hfr := monitoring_thread_cycle_frame h
    have hsp := (staticPhase_first_run env c hflag).1 hs
    have hflag2 : c2.isFirstRun = false := hfr.2.2.2.2.2.2.2.1.trans hsp.1
    have hkept := monitoring_thread_loop_static_kept envs c2 hflag2
    exact ⟨hflag2, hkept.1.trans (hfr.2.2.2.2.2.2.2.2.1.trans hsp.2.1), hkept.2.2⟩
  · intro env c2 events h hcalls
    have hfr := monitoring_thread_cycle_frame h
    obtain ⟨doc, hdoc, _⟩ := monitoring_thread_cycle_calls_only_document h hcalls
    have hclear := (cycleDocument_some hdoc).2.1
    refine ⟨hfr.2.2.2.2.2.2.2.1.trans hclear, fun hflag => ?_, ?_⟩
    · by_contra hf
      have hset := ((staticPhase_first_run env c hflag).2 hf).1
      rw [hclear] at hset
      exact Bool.noConfusion hset
    · obtain ⟨hrun, hstop⟩ := monitoring_thread_cycle_some h
      rw [monitoring_thread_cycle_eq env c hrun hstop] at h
      obtain ⟨_, he⟩ := Prod.mk.inj (Option.some.inj h)
      refine ⟨(dynamicPhase env (staticPhase env c).1).2.2 ++
          (emitPhase env (dynamicPhase env (staticPhase env c).1).1
            (dynamicPhase env (staticPhase env c).1).2.1).2 ++
          (endPhase env (emitPhase env (dynamicPhase env (staticPhase env c).1).1
            (dynamicPhase env (staticPhase env c).1).2.1).1).2, ?_,
        (staticPhase_keeps env c).2.2.2.2.2.1⟩
      rw [← he]
      simp only [List.append_assoc]

/-- Witness of C17: a session whose first iteration collected the static snapshot; three more
iterations keep the snapshot and do not call `CollectStaticInfo`. -/
theorem static_snapshot_collected_once_witness :
    (monitoring_thread_loop (List.replicate 3 healthyCycle)
        (monitoring_thread 3 [healthyCycle]
          (start_monitoring { CreateEvent := 1, beginthreadex := 2 } 100
            g_MonitorContext).2).1).1.staticInfo
        = { gpuList := some 2, mbInfo := some 3, cpuList := some 1, audioList := some 4,
            monitorList := some 5 } ∧
      staticCollections (monitoring_thread_loop (List.replicate 3 healthyCycle)
        (monitoring_thread 3 [healthyCycle]
          (start_monitoring { CreateEvent := 1, beginthreadex := 2 } 100
            g_MonitorContext).2).1).2.1 = 0 :=
  have h := (static_snapshot_collected_once (List.replicate 3 healthyCycle)
    (monitoring_thread 3 [healthyCycle]
      (start_monitoring { CreateEvent := 1, beginthreadex := 2 } 100
        g_MonitorContext).2).1).1 rfl
  ⟨h.1.trans rfl, h.2.2⟩

/-! ## Uptime -/

theorem setUpdateInterval_keeps (c : MonitorContext) (I : Int) :
    (c.SetUpdateInterval I).2.isRunning = c.isRunning ∧
      (c.SetUpdateInterval I).2.startTime = c.startTime := by
  unfold MonitorContext.SetUpdateInterval
  split <;> simp [MonitorContext.SetLastError]

theorem set_update_interval_keeps (c : MonitorContext) (I : Int) :
    (set_update_interval I c).isRunning = c.isRunning ∧
      (set_update_interval I c).startTime = c.startTime := by
  have h := setUpdateInterval_keeps c I
  unfold set_update_interval
  simp only []
  split <;> simp [MonitorContext.SetLastError, h]

theorem set_callback_keeps (c : MonitorContext) (cb : Option NysysCallback) :
    (set_callback cb c).isRunning = c.isRunning ∧
      (set_callback cb c).startTime = c.startTime := by
  unfold set_callback
  simp only []
  split_ifs <;> simp [MonitorContext.SetLastError]

theorem setCallback_keeps (c : MonitorContext) (cb : Option CppCallback) :
    (nysys.SetCallback cb c).isRunning = c.isRunning ∧
      (nysys.SetCallback cb c).startTime = c.startTime := by
  unfold nysys.SetCallback
  simp only []
  split_ifs <;> simp [MonitorContext.SetLastError]

theorem start_monitoring_idle_startTime (env : StartEnv) (I : Int) (c : MonitorContext)
    (hinv : c.isRunning = false → c.startTime = 0)
    (hidle : (start_monitoring env I c).2.isRunning = false) :
    (start_monitoring env I c).2.startTime = 0 := by
  unfold start_monitoring at hidle ⊢
  cases hrun : c.isRunning with
  | true => simp [hrun, MonitorContext.SetLastError] at hidle
  | false =>
    have h0 := hinv hrun
    cases hv : MonitorContext.IsValidInterval I with
    | false =>
      simp [hrun, setUpdateInterval_invalid c hv, MonitorContext.SetLastError, h0]
    | true =>
      by_cases hevent : env.CreateEvent = NULL_HANDLE
      · simp [hrun, setUpdateInterval_valid c hv, hevent, MonitorContext.SetLastError, h0]
      · by_cases hthread : env.beginthreadex = NULL_HANDLE
        · simp [hrun, setUpdateInterval_valid c hv, hevent, hthread,
            MonitorContext.SetLastError, MonitorContext.Reset]
        · simp [hrun, setUpdateInterval_valid c hv, hevent, hthread,
            MonitorContext.Reset] at hidle

theorem stop_monitoring_startTime (w : DWORD) (c : MonitorContext)
    (hinv : c.isRunning = false → c.startTime = 0) : (stop_monitoring w c).startTime = 0 := by
  cases hrun : c.isRunning with
  | false => rw [stop_monitoring_of_idle w c hrun]; exact hinv hrun
  | true => simp [stop_monitoring, hrun, MonitorContext.Reset]

/-- Every step keeps: when the controller is not running, the start time is unset. -/
theorem applyOp_idle_startTime (op : Op) (c : MonitorContext)
    (hinv : c.isRunning = false → c.startTime = 0)
    (hidle : (applyOp op c).isRunning = false) : (applyOp op c).startTime = 0 := by
  cases op with
  | start_monitoring env I => exact start_monitoring_idle_startTime env I c hinv hidle
  | stop_monitoring w => exact stop_monitoring_startTime w c hinv
  | set_update_interval I =>
    have h := set_update_interval_keeps c I
    exact h.2.trans (hinv (h.1.symm.trans hidle))
  | set_callback cb =>
    have h := set_callback_keeps c cb
    exact h.2.trans (hinv (h.1.symm.trans hidle))
  | StartMonitoring env I =>
    have hk := setUpdateInterval_keeps c I
    have hinv2 : (c.SetUpdateInterval I).2.isRunning = false →
        (c.SetUpdateInterval I).2.startTime = 0 :=
      fun h => hk.2.trans (hinv (hk.1.symm.trans h))
    simp only [applyOp, nysys.StartMonitoring] at hidle ⊢
    split_ifs at hidle ⊢
    · exact hinv2 hidle
    · exact start_monitoring_idle_startTime env I _ hinv2 hidle
    · exact start_monitoring_idle_startTime env I _ hinv2 hidle
    · exact start_monitoring_idle_startTime env I _ hinv2 hidle
  | StopMonitoring w => exact stop_monitoring_startTime w c hinv
  | SetUpdateInterval I =>
    have hk := setUpdateInterval_keeps c I
    have hk2 := set_update_interval_keeps (c.SetUpdateInterval I).2 I
    simp only [applyOp, nysys.SetUpdateInterval] at hidle ⊢
    split_ifs at hidle ⊢
    · exact hk.2.trans (hinv (hk.1.symm.trans hidle))
    · exact (hk2.2.trans hk.2).trans (hinv ((hk2.1.trans hk.1).symm.trans hidle))
  | SetCallback cb =>
    have h := setCallback_keeps c cb
    exact h.2.trans (hinv (h.1.symm.trans hidle))
  | workerInit now =>
    simp only [applyOp] at hidle ⊢
    split_ifs at hidle ⊢ with hrun
    · exact absurd (show c.isRunning = false from hidle) (by simp [hrun])
    · exact hinv hidle
  | workerCycle env =>
    simp only [applyOp] at hidle ⊢
    cases h : monitoring_thread_cycle env c with
    | none =>
      rw [h] at hidle
      exact hinv hidle
    | some r =>
      obtain ⟨c2, events⟩ := r
      rw [h] at hidle
      have hrun2 := (monitoring_thread_cycle_frame h).1
      exact absurd (show c2.isRunning = false from hidle) (by simp [hrun2])

theorem runOps_idle_startTime (ops : List Op) (c : MonitorContext)
    (hinv : c.isRunning = false → c.startTime = 0) :
    (runOps ops c).isRunning = false → (runOps ops c).startTime = 0 := by
  induction ops generalizing c with
  | nil => exact hinv
  | cons op rest ih => exact ih (applyOp op c) (applyOp_idle_startTime op c hinv)

theorem monitoring_thread_loop_startTime (envs : List CycleEnv) (c : MonitorContext) :
    (monitoring_thread_loop envs c).1.startTime = c.startTime := by
  induction envs generalizing c with
  | nil => rfl
  | cons env rest ih =>
    cases h : monitoring_thread_cycle env c with
    | none => rw [monitoring_thread_loop_none h rest]
    | some r =>
      obtain ⟨c2, events⟩ := r
      rw [monitoring_thread_loop_cons h rest]
      exact (ih c2).trans (monitoring_thread_cycle_frame h).2.2.2.2.1

/-- A step other than a stop or the worker's `InitializeSession` keeps a running session running
and its start time as recorded. -/
theorem applyOp_session_startTime (op : Op) (c : MonitorContext) (hrun : c.isRunning = true)
    (hstop : ∀ w, op ≠ Op.stop_monitoring w) (hStop : ∀ w, op ≠ Op.StopMonitoring w)
    (hinit : ∀ t, op ≠ Op.workerInit t) :
    (applyOp op c).isRunning = true ∧ (applyOp op c).startTime = c.startTime := by
  cases op with
  | start_monitoring env I =>
    simp [applyOp, start_monitoring, hrun, MonitorContext.SetLastError]
  | stop_monitoring w => exact absurd rfl (hstop w)
  | set_update_interval I =>
    have h := set_update_interval_keeps c I
    exact ⟨h.1.trans hrun, h.2⟩
  | set_callback cb =>
    have h := set_callback_keeps c cb
    exact ⟨h.1.trans hrun, h.2⟩
  | StartMonitoring env I =>
    have hk := setUpdateInterval_keeps c I
    have hrun2 : (c.SetUpdateInterval I).2.isRunning = true := hk.1.trans hrun
    simp only [applyOp, nysys.StartMonitoring]
    split_ifs <;>
      simp [start_monitoring, hrun2, MonitorContext.SetLastError, hk.2]
  | StopMonitoring w => exact absurd rfl (hStop w)
  | SetUpdateInterval I =>
    have hk := setUpdateInterval_keeps c I
    have hk2 := set_update_interval_keeps (c.SetUpdateInterval I).2 I
    simp only [applyOp, nysys.SetUpdateInterval]
    split_ifs
    · exact ⟨hk.1.trans hrun, hk.2⟩
    · exact ⟨(hk2.1.trans hk.1).trans hrun, hk2.2.trans hk.2⟩
  | SetCallback cb =>
    have h := setCallback_keeps c cb
    exact ⟨h.1.trans hrun, h.2⟩
  | workerInit now => exact absurd rfl (hinit now)
  | workerCycle env =>
    simp only [applyOp]
    cases h : monitoring_thread_cycle env c with
    | none => exact ⟨hrun, rfl⟩
    | some r =>
      obtain ⟨c2, events⟩ := r
      have hfr := monitoring_thread_cycle_frame h
      exact ⟨hfr.1, hfr.2.2.2.2.1⟩

theorem runOps_session_startTime (ops : List Op) (c : MonitorContext)
    (hrun : c.isRunning = true)
    (hops : ∀ op ∈ ops, (∀ w, op ≠ Op.stop_monitoring w) ∧ (∀ w, op ≠ Op.StopMonitoring w) ∧
      (∀ t, op ≠ Op.workerInit t)) :
    (runOps ops c).isRunning = true ∧ (runOps ops c).startTime = c.startTime := by
  induction ops generalizing c with
  | nil => exact ⟨hrun, rfl⟩
  | cons op rest ih =>
    obtain ⟨h1, h2, h3⟩ := hops op (List.mem_cons_self op rest)
    obtain ⟨hr, hs⟩ := applyOp_session_startTime op c hrun h1 h2 h3
    obtain ⟨ihr, ihs⟩ := ih (applyOp op c) hr (fun o ho => hops o (List.mem_cons_of_mem op ho))
    exact ⟨ihr, ihs.trans hs⟩

theorem getUptime_of_unset (c : MonitorContext) (h : c.startTime = 0) (now : TimePoint)
    (ticksPerMs : Int) : nysys.GetUptime c now ticksPerMs = 0 := by
  simp [nysys.GetUptime, MonitorContext.GetUptime, h]

/-- C18, as stated, fails in the running session that `start_monitoring` leaves before the
worker has run `InitializeSession`: `is_monitoring` is true, and `GetUptime` is 0 at every
clock value, so it is not the time elapsed since any timestamp. -/
theorem getUptime_zero_before_worker_init :
    is_monitoring (start_monitoring { CreateEvent := 1, beginthreadex := 2 } 100
        g_MonitorContext).2 = true ∧
      nysys.GetUptime (start_monitoring { CreateEvent := 1, beginthreadex := 2 } 100
        g_MonitorContext).2 5000000 1000 = 0 ∧
      ¬ ∃ t0 : TimePoint, ∀ now : TimePoint,
        nysys.GetUptime (start_monitoring { CreateEvent := 1, beginthreadex := 2 } 100
          g_MonitorContext).2 now 1000 = Int.tdiv (now - t0) 1000 := by
  refine ⟨by decide, by decide, ?_⟩
  rintro ⟨t0, h⟩
  have h1 := h (t0 + 1000)
  rw [getUptime_of_unset _ rfl] at h1
  simp at h1

/-- C18 (amended): `GetUptime` returns zero whenever monitoring is not running, in every context
reached from the default-constructed one by calls of the interface and steps of the worker (so
before any start and after every stop), and also in the running session a successful
`start_monitoring` leaves, until the worker records the start timestamp. In a running session
whose worker has recorded the start timestamp `t0` (`InitializeSession`, with `t0` not the
clock's epoch, which stands for unset), through every later step other than a stop, it returns
the steady-clock time elapsed since `t0`, in whole milliseconds. -/
theorem getUptime_zero_idle_elapsed_running :
    (∀ (ops : List Op) (now : TimePoint) (ticksPerMs : Int),
        (runOps ops g_MonitorContext).isRunning = false →
        nysys.GetUptime (runOps ops g_MonitorContext) now ticksPerMs = 0) ∧
      (∀ (env : StartEnv) (I : Int) (c : MonitorContext) (now : TimePoint) (ticksPerMs : Int),
        (start_monitoring env I c).1 = true →
        nysys.GetUptime (start_monitoring env I c).2 now ticksPerMs = 0) ∧
      (∀ (c : MonitorContext) (t0 : TimePoint) (ops : List Op) (now : TimePoint)
          (ticksPerMs : Int),
        c.isRunning = true → t0 ≠ 0 →
        (∀ op ∈ ops, (∀ w, op ≠ Op.stop_monitoring w) ∧ (∀ w, op ≠ Op.StopMonitoring w) ∧
          (∀ t, op ≠ Op.workerInit t)) →
        (runOps ops (c.InitializeSession t0)).isRunning = true ∧
          nysys.GetUptime (runOps ops (c.InitializeSession t0)) now ticksPerMs
            = Int.tdiv (now - t0) ticksPerMs) := by
  refine ⟨?_, ?_, ?_⟩
  · intro ops now k hidle
    exact getUptime_of_unset _
      (runOps_idle_startTime ops g_MonitorContext (fun _ => rfl) hidle) now k
  · intro env I c now k hok
    refine getUptime_of_unset _ ?_ now k
    rw [start_monitoring_success_eq env I c hok]
    rfl
  · intro c t0 ops now k hrun ht0 hops
    have hinit : (c.InitializeSession t0).isRunning = true := hrun
    obtain ⟨hr, hs⟩ := runOps_session_startTime ops (c.InitializeSession t0) hinit hops
    have hs2 : (runOps ops (c.InitializeSession t0)).startTime = t0 := hs
    refine ⟨hr, ?_⟩
    simp [nysys.GetUptime, MonitorContext.GetUptime, hs2, ht0]

/-- Witness of C18 (amended): a session started, run for one iteration and stopped has uptime 0
at clock value 9000; and a running session initialised at clock value 3000, after one iteration
and a change of interval, has uptime 6 at clock value 9000 with 1000 ticks per millisecond. -/
theorem getUptime_zero_idle_elapsed_running_witness :
    nysys.GetUptime
        (runOps [Op.start_monitoring { CreateEvent := 1, beginthreadex := 2 } 100,
          Op.workerInit 3000, Op.workerCycle healthyCycle, Op.stop_monitoring WAIT_OBJECT_0]
          g_MonitorContext) 9000 1000 = 0 ∧
      nysys.GetUptime
        (runOps [Op.workerCycle healthyCycle, Op.set_update_interval 250]
          ((start_monitoring { CreateEvent := 1, beginthreadex := 2 } 100
            g_MonitorContext).2.InitializeSession 3000)) 9000 1000 = 6 :=
  ⟨getUptime_zero_idle_elapsed_running.1
      [Op.start_monitoring { CreateEvent := 1, beginthreadex := 2 } 100,
        Op.workerInit 3000, Op.workerCycle healthyCycle, Op.stop_monitoring WAIT_OBJECT_0]
      9000 1000 rfl,
    ((getUptime_zero_idle_elapsed_running.2.2
      (start_monitoring { CreateEvent := 1, beginthreadex := 2 } 100 g_MonitorContext).2 3000
      [Op.workerCycle healthyCycle, Op.set_update_interval 250] 9000 1000 rfl (by decide)
      (by
        intro op hop
        simp only [List.mem_cons, List.mem_singleton, List.not_mem_nil, or_false] at hop
        rcases hop with rfl | rfl <;> simp)).2).trans (by decide)⟩

/-! ## Witnesses on a session with a throwing callback and on a restart -/

/-- Witness of C11 on the code: a session whose registered C callback threw in its first
iteration holds `CallbackExecutionFailed`; installing C callback 8, or C++ callback 9, leaves
`CallbackExecutionFailed` as the last error. -/
theorem set_callback_keeps_execution_failure_witness :
    (set_callback (some 8)
        (monitoring_thread 3
          [{ healthyCycle with cCallbackThrows := fun _ _ => true }]
          (start_monitoring { CreateEvent := 1, beginthreadex := 2 } 100
            (set_callback (some 7) g_MonitorContext)).2).1).GetLastError
        = MonitoringError.CallbackExecutionFailed ∧
      (nysys.SetCallback (some 9)
        (monitoring_thread 3
          [{ healthyCycle with cCallbackThrows := fun _ _ => true }]
          (start_monitoring { CreateEvent := 1, beginthreadex := 2 } 100
            (set_callback (some 7) g_MonitorContext)).2).1).GetLastError
        = MonitoringError.CallbackExecutionFailed :=
  have h := set_callback_keeps_execution_failure
    (monitoring_thread 3
      [{ healthyCycle with cCallbackThrows := fun _ _ => true }]
      (start_monitoring { CreateEvent := 1, beginthreadex := 2 } 100
        (set_callback (some 7) g_MonitorContext)).2).1 rfl 8 9
  ⟨h.1, h.2.2.2.1⟩

/-- Witness of C20: a controller whose last error is `InvalidParameter` after a rejected
interval, then started with 100 ms. -/
theorem start_monitoring_resets_session_witness :
    (set_update_interval 5 g_MonitorContext).GetLastError = MonitoringError.InvalidParameter ∧
      (start_monitoring { CreateEvent := 1, beginthreadex := 2 } 100
        (set_update_interval 5 g_MonitorContext)).2.GetLastError = MonitoringError.Success ∧
      (start_monitoring { CreateEvent := 1, beginthreadex := 2 } 100
        (set_update_interval 5 g_MonitorContext)).2.isFirstRun = true :=
  have h := start_monitoring_resets_session { CreateEvent := 1, beginthreadex := 2 } 100
    (set_update_interval 5 g_MonitorContext) rfl
  ⟨rfl, h.1, h.2.2.2.2.1⟩

/-! ## Shared lemmas on what the interface writes -/

theorem runOps_invariant (P : MonitorContext → Prop)
    (hstep : ∀ op c, P c → P (applyOp op c)) (ops : List Op) (c : MonitorContext)
    (h0 : P c) : P (runOps ops c) := by
  induction ops generalizing c with
  | nil => exact h0
  | cons op rest ih => exact ih (applyOp op c) (hstep op c h0)

/-- What `MonitorContext::SetUpdateInterval` writes: the interval, to a valid value, or the last
error, to `InvalidParameter`; nothing else. -/
theorem setUpdateInterval_effect (c : MonitorContext) (I : Int) :
    ((c.SetUpdateInterval I).1 = MonitoringError.Success ∧
        MonitorContext.IsValidInterval I = true ∧
        (c.SetUpdateInterval I).2 = { c with updateInterval := I }) ∨
      ((c.SetUpdateInterval I).1 = MonitoringError.InvalidParameter ∧
        MonitorContext.IsValidInterval I = false ∧
        (c.SetUpdateInterval I).2 = { c with lastError := MonitoringError.InvalidParameter }) := by
  cases hv : MonitorContext.IsValidInterval I with
  | true => exact Or.inl (by rw [setUpdateInterval_valid c hv]; exact ⟨rfl, rfl, rfl⟩)
  | false => exact Or.inr (by rw [setUpdateInterval_invalid c hv]; exact ⟨rfl, rfl, rfl⟩)

/-- The five ways `start_monitoring` ends, with the context each leaves. -/
theorem start_monitoring_cases (env : StartEnv) (I : Int) (c : MonitorContext) :
    (c.isRunning = true ∧
        start_monitoring env I c
          = (false, { c with lastError := MonitoringError.AlreadyRunning })) ∨
      (c.isRunning = false ∧ MonitorContext.IsValidInterval I = false ∧
        start_monitoring env I c
          = (false, { c with lastError := MonitoringError.InvalidParameter })) ∨
      (c.isRunning = false ∧ MonitorContext.IsValidInterval I = true ∧
        env.CreateEvent = NULL_HANDLE ∧
        start_monitoring env I c
          = (false, { c with
              updateInterval := I
              isFirstRun := true
              lastError := MonitoringError.SystemResourceError })) ∨
      (c.isRunning = false ∧ MonitorContext.IsValidInterval I = true ∧
        env.CreateEvent ≠ NULL_HANDLE ∧ env.beginthreadex = NULL_HANDLE ∧
        start_monitoring env I c
          = (false, { ({ c with updateInterval := I } : MonitorContext).Reset with
              stopEvent := { m_handle := NULL_HANDLE }
              lastError := MonitoringError.ThreadCreationFailed })) ∨
      (c.isRunning = false ∧ MonitorContext.IsValidInterval I = true ∧
        env.CreateEvent ≠ NULL_HANDLE ∧ env.beginthreadex ≠ NULL_HANDLE ∧
        start_monitoring env I c
          = (true, { ({ c with updateInterval := I } : MonitorContext).Reset with
              stopEvent := { m_handle := env.CreateEvent }
              monitorThread := { m_handle := env.beginthreadex }
              isRunning := true })) := by
  by_cases hrun : c.isRunning = true
  · exact Or.inl ⟨hrun, by simp [start_monitoring, hrun, MonitorContext.SetLastError]⟩
  · have hidle : c.isRunning = false := Bool.not_eq_true _ ▸ hrun
    by_cases hv : MonitorContext.IsValidInterval I = true
    · by_cases hevent : env.CreateEvent = NULL_HANDLE
      · refine Or.inr (Or.inr (Or.inl ⟨hidle, hv, hevent, ?_⟩))
        simp [start_monitoring, hidle, setUpdateInterval_valid c hv, hevent,
          MonitorContext.SetLastError]
      · by_cases hthread : env.beginthreadex = NULL_HANDLE
        · refine Or.inr (Or.inr (Or.inr (Or.inl ⟨hidle, hv, hevent, hthread, ?_⟩)))
          simp [start_monitoring, hidle, setUpdateInterval_valid c hv, hevent, hthread,
            MonitorContext.SetLastError, MonitorContext.Reset, HandleWrapper.reset]
        · refine Or.inr (Or.inr (Or.inr (Or.inr ⟨hidle, hv, hevent, hthread, ?_⟩)))
          simp [start_monitoring, hidle, setUpdateInterval_valid c hv, hevent, hthread,
            MonitorContext.Reset, HandleWrapper.reset]
    · have hinv : MonitorContext.IsValidInterval I = false := Bool.not_eq_true _ ▸ hv
      refine Or.inr (Or.inl ⟨hidle, hinv, ?_⟩)
      simp [start_monitoring, hidle, setUpdateInterval_invalid c hinv,
        MonitorContext.SetLastError]

theorem start_monitoring_false_error (env : StartEnv) (I : Int) (c : MonitorContext)
    (h : (start_monitoring env I c).1 = false) :
    (start_monitoring env I c).2.lastError ≠ MonitoringError.Success := by
  rcases start_monitoring_cases env I c with hc | hc | hc | hc | hc
  · rw [hc.2]; simp
  · rw [hc.2.2]; simp
  · rw [hc.2.2.2]; simp
  · rw [hc.2.2.2.2]; simp
  · rw [hc.2.2.2.2] at h; simp at h

theorem start_monitoring_after_interval (env : StartEnv) (I : Int) (c : MonitorContext)
    (hidle : c.isRunning = false) (hv : MonitorContext.IsValidInterval I = true) :
    start_monitoring env I { c with updateInterval := I } = start_monitoring env I c := by
  have hset : ∀ d : MonitorContext,
      d.SetUpdateInterval I = (MonitoringError.Success, { d with updateInterval := I }) :=
    fun d => setUpdateInterval_valid d hv
  simp [start_monitoring, hidle, hset]

/-- The three ways `nysys::StartMonitoring` ends: the interval is rejected before anything else,
or `start_monitoring` runs on the context with the interval stored and its result is returned
or thrown. -/
theorem startMonitoring_cases (env : StartEnv) (I : Int) (c : MonitorContext) :
    (MonitorContext.IsValidInterval I = false ∧
        nysys.StartMonitoring env I c
          = (Except.error MonitoringError.InvalidParameter,
             { c with lastError := MonitoringError.InvalidParameter })) ∨
      (MonitorContext.IsValidInterval I = true ∧
        (start_monitoring env I { c with updateInterval := I }).1 = true ∧
        nysys.StartMonitoring env I c
          = (Except.ok true, (start_monitoring env I { c with updateInterval := I }).2)) ∨
      (MonitorContext.IsValidInterval I = true ∧
        (start_monitoring env I { c with updateInterval := I }).1 = false ∧
        nysys.StartMonitoring env I c
          = (Except.error (start_monitoring env I { c with updateInterval := I }).2.lastError,
             (start_monitoring env I { c with updateInterval := I }).2)) := by
  cases hv : MonitorContext.IsValidInterval I with
  | false =>
    refine Or.inl ⟨rfl, ?_⟩
    simp [nysys.StartMonitoring, setUpdateInterval_invalid c hv]
  | true =>
    cases hs : (start_monitoring env I { c with updateInterval := I }).1 with
    | true =>
      refine Or.inr (Or.inl ⟨rfl, rfl, ?_⟩)
      simp [nysys.StartMonitoring, setUpdateInterval_valid c hv, hs]
    | false =>
      refine Or.inr (Or.inr ⟨rfl, rfl, ?_⟩)
      have he := start_monitoring_false_error env I _ hs
      simp [nysys.StartMonitoring, setUpdateInterval_valid c hv, hs,
        MonitorContext.GetLastError, he]

/-! ## The C++ start wrapper -/

/-- C27, as stated, fails on a running session: with the invalid interval 5,
`nysys::StartMonitoring` throws `InvalidParameter` and leaves `InvalidParameter` as the last
error, while `start_monitoring` records `AlreadyRunning`; the two contexts differ. -/
theorem startMonitoring_differs_when_running :
    (nysys.StartMonitoring { CreateEvent := 3, beginthreadex := 4 } 5
        (start_monitoring { CreateEvent := 1, beginthreadex := 2 } 1000 g_MonitorContext).2).1
        = Except.error MonitoringError.InvalidParameter ∧
      (nysys.StartMonitoring { CreateEvent := 3, beginthreadex := 4 } 5
        (start_monitoring { CreateEvent := 1, beginthreadex := 2 } 1000
          g_MonitorContext).2).2.GetLastError = MonitoringError.InvalidParameter ∧
      (start_monitoring { CreateEvent := 3, beginthreadex := 4 } 5
        (start_monitoring { CreateEvent := 1, beginthreadex := 2 } 1000
          g_MonitorContext).2).2.GetLastError = MonitoringError.AlreadyRunning ∧
      (nysys.StartMonitoring { CreateEvent := 3, beginthreadex := 4 } 5
        (start_monitoring { CreateEvent := 1, beginthreadex := 2 } 1000 g_MonitorContext).2).2
        ≠ (start_monitoring { CreateEvent := 3, beginthreadex := 4 } 5
          (start_monitoring { CreateEvent := 1, beginthreadex := 2 } 1000
            g_MonitorContext).2).2 :=
  ⟨rfl, rfl, rfl, by decide⟩

/-- On a running session `nysys::StartMonitoring` with a valid interval stores the interval
before `start_monitoring` rejects the call: the running session's interval changes, which
`start_monitoring` itself never does (here from 1000 to 250). -/
theorem startMonitoring_running_stores_interval :
    (nysys.StartMonitoring { CreateEvent := 3, beginthreadex := 4 } 250
        (start_monitoring { CreateEvent := 1, beginthreadex := 2 } 1000
          g_MonitorContext).2).2.updateInterval = 250 ∧
      (start_monitoring { CreateEvent := 3, beginthreadex := 4 } 250
        (start_monitoring { CreateEvent := 1, beginthreadex := 2 } 1000
          g_MonitorContext).2).2.updateInterval = 1000 :=
  ⟨rfl, rfl⟩

/-- C27 (amended): from every idle controller and for every `I`, `nysys::StartMonitoring I`
leaves the context that `start_monitoring I` leaves, returns true when that returns `TRUE`, and
throws the error code `start_monitoring` records when that returns `FALSE`. On a running
controller it checks the interval before the running state: it throws, `InvalidParameter` for
an interval outside `[100, 3,600,000]` and `AlreadyRunning` otherwise, records the code it
throws, and the session stays running. -/
theorem startMonitoring_wraps_start_monitoring (env : StartEnv) (I : Int)
    (c : MonitorContext) :
    (c.isRunning = false →
        (nysys.StartMonitoring env I c).2 = (start_monitoring env I c).2 ∧
        ((start_monitoring env I c).1 = true →
          (nysys.StartMonitoring env I c).1 = Except.ok true) ∧
        ((start_monitoring env I c).1 = false →
          (nysys.StartMonitoring env I c).1
            = Except.error (start_monitoring env I c).2.GetLastError)) ∧
      (c.isRunning = true →
        (nysys.StartMonitoring env I c).2.isRunning = true ∧
        (I < 100 ∨ 3600000 < I →
          (nysys.StartMonitoring env I c).1 = Except.error MonitoringError.InvalidParameter ∧
          (nysys.StartMonitoring env I c).2.GetLastError = MonitoringError.InvalidParameter) ∧
        (100 ≤ I ∧ I ≤ 3600000 →
          (nysys.StartMonitoring env I c).1 = Except.error MonitoringError.AlreadyRunning ∧
          (nysys.StartMonitoring env I c).2.GetLastError = MonitoringError.AlreadyRunning)) := by
  refine ⟨fun hidle => ?_, fun hrun => ?_⟩
  · rcases startMonitoring_cases env I c with h | h | h
    · have hs : start_monitoring env I c
          = (false, { c with lastError := MonitoringError.InvalidParameter }) := by
        simp [start_monitoring, hidle, setUpdateInterval_invalid c h.1,
          MonitorContext.SetLastError]
      rw [h.2, hs]
      exact ⟨rfl, fun hf => absurd hf (by simp), fun _ => rfl⟩
    · rw [h.2.2]
      rw [start_monitoring_after_interval env I c hidle h.1] at h ⊢
      exact ⟨rfl, fun _ => rfl, fun hf => absurd (h.2.1.symm.trans hf) (by simp)⟩
    · rw [h.2.2]
      rw [start_monitoring_after_interval env I c hidle h.1] at h ⊢
      exact ⟨rfl, fun ht => absurd (h.2.1.symm.trans ht) (by simp), fun _ => rfl⟩
  · have hrun2 : ({ c with updateInterval := I } : MonitorContext).isRunning = true := hrun
    have hs : start_monitoring env I { c with updateInterval := I }
        = (false, { ({ c with updateInterval := I } : MonitorContext) with
            lastError := MonitoringError.AlreadyRunning }) := by
      rcases start_monitoring_cases env I { c with updateInterval := I } with h | h | h | h | h
      · exact h.2
      · exact absurd (hrun2.symm.trans h.1) (by simp)
      · exact absurd (hrun2.symm.trans h.1) (by simp)
      · exact absurd (hrun2.symm.trans h.1) (by simp)
      · exact absurd (hrun2.symm.trans h.1) (by simp)
    rcases startMonitoring_cases env I c with h | h | h
    · rw [h.2]
      refine ⟨hrun, fun _ => ⟨rfl, rfl⟩, fun hb => ?_⟩
      exact absurd (isValidInterval_of_bounds hb.1 hb.2) (by simp [h.1])
    · rw [hs] at h
      exact absurd h.2.1 (by simp)
    · rw [h.2.2, hs]
      refine ⟨hrun, fun ho => ?_, fun _ => ⟨rfl, rfl⟩⟩
      exact absurd (isValidInterval_of_outside ho) (by simp [h.1])

/-- Witness of C27 (amended): on the default-constructed controller both starts with 250 ms
leave the same running context, and `nysys::StartMonitoring` returns true. -/
theorem startMonitoring_wraps_start_monitoring_witness :
    (nysys.StartMonitoring { CreateEvent := 1, beginthreadex := 2 } 250 g_MonitorContext).2
        = (start_monitoring { CreateEvent := 1, beginthreadex := 2 } 250 g_MonitorContext).2 ∧
      (nysys.StartMonitoring { CreateEvent := 1, beginthreadex := 2 } 250 g_MonitorContext).1
        = Except.ok true :=
  have h := (startMonitoring_wraps_start_monitoring { CreateEvent := 1, beginthreadex := 2 } 250
    g_MonitorContext).1 rfl
  ⟨h.1, h.2.1 rfl⟩

/-! ## Who receives the documents -/

theorem monitoring_thread_cycle_calls_shape {env : CycleEnv} {c c2 : MonitorContext}
    {events : List Event} (h : monitoring_thread_cycle env c = some (c2, events)) :
    callbackCalls events = [] ∨
      ∃ doc, doc ≠ "" ∧ cycleDocument env c = some doc ∧
        callbackCalls events = cCallbackEvents c doc ++ cppCallbackEvents c doc := by
  by_cases hcalls : callbackCalls events = []
  · exact Or.inl hcalls
  · obtain ⟨doc, hdoc, hne⟩ := monitoring_thread_cycle_calls_only_document h hcalls
    exact Or.inr ⟨doc, hne, hdoc, (monitoring_thread_cycle_of_document h hdoc hne).1⟩

theorem mem_callbackEvents {c : MonitorContext} {doc : String} {e : Event}
    (h : e ∈ cCallbackEvents c doc ++ cppCallbackEvents c doc) :
    (∃ f, e = Event.callC f doc ∧ c.cCallback = some f) ∨
      (∃ g, e = Event.callCpp g doc ∧ c.cppCallback = some g) := by
  rcases List.mem_append.1 h with h1 | h1
  · unfold cCallbackEvents at h1
    cases hc : c.cCallback with
    | none => simp [hc] at h1
    | some f =>
      simp [hc] at h1
      exact Or.inl ⟨f, h1, rfl⟩
  · unfold cppCallbackEvents at h1
    cases hc : c.cppCallback with
    | none => simp [hc] at h1
    | some g =>
      simp [hc] at h1
      exact Or.inr ⟨g, h1, rfl⟩

/-- Every callback call of the worker loop goes to a callback registered in the context the
loop started from. -/
theorem monitoring_thread_loop_calls (envs : List CycleEnv) (c : MonitorContext) (e : Event)
    (he : e ∈ callbackCalls (monitoring_thread_loop envs c).2.1) :
    (∃ f doc, e = Event.callC f doc ∧ c.cCallback = some f) ∨
      (∃ g doc, e = Event.callCpp g doc ∧ c.cppCallback = some g) := by
  induction envs generalizing c with
  | nil => simp [monitoring_thread_loop, callbackCalls] at he
  | cons env rest ih =>
    cases h : monitoring_thread_cycle env c with
    | none =>
      rw [monitoring_thread_loop_none h rest] at he
      simp [callbackCalls] at he
    | some r =>
      obtain ⟨c2, events⟩ := r
      rw [monitoring_thread_loop_cons h rest] at he
      have he2 : e ∈ callbackCalls (events ++ (monitoring_thread_loop rest c2).2.1) := he
      rw [callbackCalls_append] at he2
      have hfr := monitoring_thread_cycle_frame h
      rcases List.mem_append.1 he2 with h1 | h1
      · rcases monitoring_thread_cycle_calls_shape h with hs | ⟨doc, _, _, hs⟩
        · rw [hs] at h1
          simp at h1
        · rw [hs] at h1
          rcases mem_callbackEvents h1 with ⟨f, hf, hc⟩ | ⟨g, hg, hc⟩
          · exact Or.inl ⟨f, doc, hf, hc⟩
          · exact Or.inr ⟨g, doc, hg, hc⟩
      · rcases ih c2 h1 with ⟨f, doc, hf, hc⟩ | ⟨g, doc, hg, hc⟩
        · exact Or.inl ⟨f, doc, hf, hc.symm.trans hfr.2.1 |>.symm⟩
        · exact Or.inr ⟨g, doc, hg, hc.symm.trans hfr.2.2.1 |>.symm⟩

theorem start_monitoring_callbacks (env : StartEnv) (I : Int) (c : MonitorContext) :
    (start_monitoring env I c).2.cCallback = c.cCallback ∧
      (start_monitoring env I c).2.cppCallback = c.cppCallback := by
  rcases start_monitoring_cases env I c with h | h | h | h | h
  · rw [h.2]; exact ⟨rfl, rfl⟩
  · rw [h.2.2]; exact ⟨rfl, rfl⟩
  · rw [h.2.2.2]; exact ⟨rfl, rfl⟩
  · rw [h.2.2.2.2]; exact ⟨rfl, rfl⟩
  · rw [h.2.2.2.2]; exact ⟨rfl, rfl⟩

/-- C30: `start_monitoring` never changes the registered callbacks, whether it succeeds or
fails: both slots hold after the call what they held before; so every callback call made by
the worker of the session (`InitializeSession` and any number of iterations) goes to a callback
that was registered before the start. -/
theorem start_monitoring_keeps_callbacks (env : StartEnv) (I : Int) (c : MonitorContext) :
    (start_monitoring env I c).2.cCallback = c.cCallback ∧
      (start_monitoring env I c).2.cppCallback = c.cppCallback ∧
      ∀ (now : TimePoint) (envs : List CycleEnv) (e : Event),
        e ∈ callbackCalls (monitoring_thread now envs (start_monitoring env I c).2).2.1 →
        (∃ f doc, e = Event.callC f doc ∧ c.cCallback = some f) ∨
          (∃ g doc, e = Event.callCpp g doc ∧ c.cppCallback = some g) := by
  have hcb := start_monitoring_callbacks env I c
  refine ⟨hcb.1, hcb.2, ?_⟩
  intro now envs e he
  rcases monitoring_thread_loop_calls envs _ e he with ⟨f, doc, hf, hc⟩ | ⟨g, doc, hg, hc⟩
  · exact Or.inl ⟨f, doc, hf, hcb.1 ▸ hc⟩
  · exact Or.inr ⟨g, doc, hg, hcb.2 ▸ hc⟩

/-- Witness of C30: C callback 7 registered before a start with 100 ms; the call made in the
first iteration of the session goes to callback 7. -/
theorem start_monitoring_keeps_callbacks_witness :
    (start_monitoring { CreateEvent := 1, beginthreadex := 2 } 100
        (set_callback (some 7) g_MonitorContext)).2.cCallback = some 7 ∧
      ((∃ f doc, Event.callC 7 "doc" = Event.callC f doc ∧
          (set_callback (some 7) g_MonitorContext).cCallback = some f) ∨
        (∃ g doc, Event.callC 7 "doc" = Event.callCpp g doc ∧
          (set_callback (some 7) g_MonitorContext).cppCallback = some g)) :=
  have h := start_monitoring_keeps_callbacks { CreateEvent := 1, beginthreadex := 2 } 100
    (set_callback (some 7) g_MonitorContext)
  ⟨h.1.trans rfl, h.2.2 3 [healthyCycle] (Event.callC 7 "doc") (by decide)⟩

/-- C25, as stated, fails with a callback installed through each interface: the registry then
holds C callback 7 and C++ callback 9 together, and the document of the session's first
iteration is delivered to both. -/
theorem document_delivered_to_both_slots :
    (nysys.SetCallback (some 9) (set_callback (some 7) g_MonitorContext)).cCallback = some 7 ∧
      (nysys.SetCallback (some 9) (set_callback (some 7) g_MonitorContext)).cppCallback
        = some 9 ∧
      callbackCalls (monitoring_thread 3 [healthyCycle]
        (start_monitoring { CreateEvent := 1, beginthreadex := 2 } 100
          (nysys.SetCallback (some 9) (set_callback (some 7) g_MonitorContext))).2).2.1
        = [Event.callC 7 "doc", Event.callCpp 9 "doc"] := by
  decide

/-- C25 (amended): the registry has two slots, each holding at most one callback. Installing
through `set_callback` replaces the C slot and leaves the C++ slot, installing through
`nysys::SetCallback` replaces the C++ slot and leaves the C slot. An iteration delivers its
document at most once to each slot's callback, the C one first: to both when both are
installed, so to at most two functions. -/
theorem registry_has_two_slots (c : MonitorContext) :
    (∀ cb : Option NysysCallback,
        (set_callback cb c).cCallback = cb ∧ (set_callback cb c).cppCallback = c.cppCallback) ∧
      (∀ cb : Option CppCallback,
        (nysys.SetCallback cb c).cppCallback = cb ∧
          (nysys.SetCallback cb c).cCallback = c.cCallback) ∧
      (∀ (env : CycleEnv) (c2 : MonitorContext) (events : List Event),
        monitoring_thread_cycle env c = some (c2, events) →
        (callbackCalls events).length ≤ 2 ∧
        (callbackCalls events = [] ∨
          ∃ doc, doc ≠ "" ∧
            (∀ f g, c.cCallback = some f → c.cppCallback = some g →
              callbackCalls events = [Event.callC f doc, Event.callCpp g doc]) ∧
            (∀ f, c.cCallback = some f → c.cppCallback = none →
              callbackCalls events = [Event.callC f doc]) ∧
            (∀ g, c.cCallback = none → c.cppCallback = some g →
              callbackCalls events = [Event.callCpp g doc]) ∧
            (c.cCallback = none → c.cppCallback = none → callbackCalls events = []))) := by
  refine ⟨fun cb => ?_, fun cb => ?_, ?_⟩
  · unfold set_callback
    simp only []
    split_ifs <;> simp [MonitorContext.SetLastError]
  · unfold nysys.SetCallback
    simp only []
    split_ifs <;> simp [MonitorContext.SetLastError]
  · intro env c2 events h
    rcases monitoring_thread_cycle_calls_shape h with hs | ⟨doc, hne, _, hs⟩
    · rw [hs]
      exact ⟨by simp, Or.inl rfl⟩
    · rw [hs]
      refine ⟨?_, Or.inr ⟨doc, hne, ?_, ?_, ?_, ?_⟩⟩
      · unfold cCallbackEvents cppCallbackEvents
        cases c.cCallback <;> cases c.cppCallback <;> simp
      · intro f g hf hg
        simp [cCallbackEvents, cppCallbackEvents, hf, hg]
      · intro f hf hg
        simp [cCallbackEvents, cppCallbackEvents, hf, hg]
      · intro g hf hg
        simp [cCallbackEvents, cppCallbackEvents, hf, hg]
      · intro hf hg
        simp [cCallbackEvents, cppCallbackEvents, hf, hg]

/-- Witness of C25 (amended): installing C callback 8 over C callback 7 keeps C++ callback 9, and
the next iteration delivers its document to callbacks 8 and 9. -/
theorem registry_has_two_slots_witness :
    (set_callback (some 8)
        (nysys.SetCallback (some 9) (set_callback (some 7) g_MonitorContext))).cCallback
        = some 8 ∧
      (set_callback (some 8)
        (nysys.SetCallback (some 9) (set_callback (some 7) g_MonitorContext))).cppCallback
        = some 9 ∧
      (callbackCalls (monitoring_thread_loop [healthyCycle]
        (start_monitoring { CreateEvent := 1, beginthreadex := 2 } 100
          (set_callback (some 8)
            (nysys.SetCallback (some 9) (set_callback (some 7) g_MonitorContext)))).2).2.1).length
        ≤ 2 :=
  have h1 := (registry_has_two_slots
    (nysys.SetCallback (some 9) (set_callback (some 7) g_MonitorContext))).1 (some 8)
  have h2 := ((registry_has_two_slots
    (start_monitoring { CreateEvent := 1, beginthreadex := 2 } 100
      (set_callback (some 8)
        (nysys.SetCallback (some 9) (set_callback (some 7) g_MonitorContext)))).2).2.2
    healthyCycle _ _ rfl).1
  ⟨h1.1, h1.2.trans rfl, by simpa [monitoring_thread_loop] using h2⟩

/-! ## Invariants of the reachable contexts -/

theorem stop_monitoring_cases (w : DWORD) (c : MonitorContext) :
    (c.isRunning = false ∧ stop_monitoring w c = c) ∨
      (c.isRunning = true ∧
        stop_monitoring w c =
          { c.Reset with
            isRunning := false
            monitorThread := { m_handle := NULL_HANDLE }
            stopEvent := { m_handle := NULL_HANDLE }
            cCallback := none
            cppCallback := none }) := by
  cases hrun : c.isRunning with
  | false => exact Or.inl ⟨rfl, stop_monitoring_of_idle w c hrun⟩
  | true =>
    refine Or.inr ⟨rfl, ?_⟩
    unfold stop_monitoring waitForWorker
    simp only [hrun, Bool.not_true, Bool.false_eq_true, if_false]
    split_ifs <;>
      simp [MonitorContext.Reset, MonitorContext.RequestStop, MonitorContext.SetLastError,
        HandleWrapper.reset]

theorem set_update_interval_cases (I : Int) (c : MonitorContext) :
    (MonitorContext.IsValidInterval I = true ∧
        set_update_interval I c = { c with updateInterval := I }) ∨
      (MonitorContext.IsValidInterval I = false ∧
        set_update_interval I c = { c with lastError := MonitoringError.InvalidParameter }) := by
  cases hv : MonitorContext.IsValidInterval I with
  | true =>
    exact Or.inl ⟨rfl, by simp [set_update_interval, setUpdateInterval_valid c hv]⟩
  | false =>
    exact Or.inr ⟨rfl, by
      simp [set_update_interval, setUpdateInterval_invalid c hv, MonitorContext.SetLastError]⟩

theorem setUpdateInterval_cpp_cases (I : Int) (c : MonitorContext) :
    (MonitorContext.IsValidInterval I = true ∧
        nysys.SetUpdateInterval I c = (Except.ok (), { c with updateInterval := I })) ∨
      (MonitorContext.IsValidInterval I = false ∧
        nysys.SetUpdateInterval I c
          = (Except.error MonitoringError.InvalidParameter,
             { c with lastError := MonitoringError.InvalidParameter })) := by
  cases hv : MonitorContext.IsValidInterval I with
  | true =>
    refine Or.inl ⟨rfl, ?_⟩
    have hset : ∀ d : MonitorContext,
        d.SetUpdateInterval I = (MonitoringError.Success, { d with updateInterval := I }) :=
      fun d => setUpdateInterval_valid d hv
    simp [nysys.SetUpdateInterval, set_update_interval, hset]
  | false =>
    exact Or.inr ⟨rfl, by simp [nysys.SetUpdateInterval, setUpdateInterval_invalid c hv]⟩

theorem set_callback_cases (cb : Option NysysCallback) (c : MonitorContext) :
    set_callback cb c = { c with cCallback := cb } ∨
      set_callback cb c = { c with cCallback := cb, lastError := MonitoringError.Success } := by
  unfold set_callback
  simp only []
  split_ifs <;> simp [MonitorContext.SetLastError]

theorem setCallback_cases (cb : Option CppCallback) (c : MonitorContext) :
    nysys.SetCallback cb c = { c with cppCallback := cb } ∨
      nysys.SetCallback cb c
        = { c with cppCallback := cb, lastError := MonitoringError.Success } := by
  unfold nysys.SetCallback
  simp only []
  split_ifs <;> simp [MonitorContext.SetLastError]

/-- The last error an iteration leaves: the one it found, or one of the four codes the worker
records. -/
theorem monitoring_thread_cycle_lastError {env : CycleEnv} {c c2 : MonitorContext}
    {events : List Event} (h : monitoring_thread_cycle env c = some (c2, events)) :
    c2.lastError = c.lastError ∨ c2.lastError = MonitoringError.DataCollectionFailed ∨
      c2.lastError = MonitoringError.JsonGenerationFailed ∨
      c2.lastError = MonitoringError.InvalidParameter ∨
      c2.lastError = MonitoringError.CallbackExecutionFailed := by
  have ha := dynamicPhase_after_static env c
  have he := (monitoring_thread_cycle_emit h).1
  have hstatic : (staticPhase env c).1.lastError = c.lastError ∨
      (staticPhase env c).1.lastError = MonitoringError.DataCollectionFailed := by
    simp only [staticPhase]
    split_ifs with h1 h2
    · exact Or.inl rfl
    · right
      have hcode := (collectStaticInfo_code env c.staticInfo).resolve_left (by simpa using h2)
      simp [MonitorContext.SetLastError, hcode]
    · exact Or.inl rfl
  have hkeep : (dynamicPhase env (staticPhase env c).1).2.1.lastError = c.lastError ∨
      (dynamicPhase env (staticPhase env c).1).2.1.lastError
        = MonitoringError.DataCollectionFailed := by
    rw [ha.2.2.2.2.2.2]; exact hstatic
  rcases emitPhase_cases env (dynamicPhase env (staticPhase env c).1).1
    (dynamicPhase env (staticPhase env c).1).2.1 with hc | hc | hc | hc | ⟨doc, hc⟩
  · right; left
    rw [he, hc.2]
    show (dynamicPhase env (staticPhase env c).1).1 = _
    rw [ha.1]
    exact (collectDynamicInfo_code env c.dynamicInfo).resolve_left (ha.1 ▸ hc.1)
  · rw [he, hc.2.2]
    rcases hkeep with hk | hk
    · exact Or.inl hk
    · exact Or.inr (Or.inl hk)
  · rw [he, hc.2.2.2]; exact Or.inr (Or.inr (Or.inl rfl))
  · rw [he, hc.2.2.2]; exact Or.inr (Or.inr (Or.inr (Or.inl rfl)))
  · rw [he, hc.2.2.2.2]
    show (if callbackFailed env _ doc = true then _ else _) = _ ∨ _
    split_ifs
    · exact Or.inr (Or.inr (Or.inr (Or.inr rfl)))
    · rcases hkeep with hk | hk
      · exact Or.inl hk
      · exact Or.inr (Or.inl hk)

/-- Every step keeps three facts together: the stored interval is within its bounds, the last
error is none of the four codes that nothing records, and the dynamic snapshot is empty. -/
theorem applyOp_keeps_invariants (op : Op) (c : MonitorContext)
    (hint : 100 ≤ c.updateInterval ∧ c.updateInterval ≤ 3600000)
    (herr : c.lastError ≠ MonitoringError.InvalidInterval ∧
      c.lastError ≠ MonitoringError.NotRunning ∧
      c.lastError ≠ MonitoringError.EventCreationFailed ∧
      c.lastError ≠ MonitoringError.CallbackFailed)
    (hdyn : c.dynamicInfo = {}) :
    (100 ≤ (applyOp op c).updateInterval ∧ (applyOp op c).updateInterval ≤ 3600000) ∧
      ((applyOp op c).lastError ≠ MonitoringError.InvalidInterval ∧
        (applyOp op c).lastError ≠ MonitoringError.NotRunning ∧
        (applyOp op c).lastError ≠ MonitoringError.EventCreationFailed ∧
        (applyOp op c).lastError ≠ MonitoringError.CallbackFailed) ∧
      (applyOp op c).dynamicInfo = {} := by
  have hstart : ∀ (env : StartEnv) (I : Int) (d : MonitorContext),
      (100 ≤ d.updateInterval ∧ d.updateInterval ≤ 3600000) →
      (d.lastError ≠ MonitoringError.InvalidInterval ∧
        d.lastError ≠ MonitoringError.NotRunning ∧
        d.lastError ≠ MonitoringError.EventCreationFailed ∧
        d.lastError ≠ MonitoringError.CallbackFailed) →
      d.dynamicInfo = {} →
      (100 ≤ (start_monitoring env I d).2.updateInterval ∧
          (start_monitoring env I d).2.updateInterval ≤ 3600000) ∧
        ((start_monitoring env I d).2.lastError ≠ MonitoringError.InvalidInterval ∧
          (start_monitoring env I d).2.lastError ≠ MonitoringError.NotRunning ∧
          (start_monitoring env I d).2.lastError ≠ MonitoringError.EventCreationFailed ∧
          (start_monitoring env I d).2.lastError ≠ MonitoringError.CallbackFailed) ∧
        (start_monitoring env I d).2.dynamicInfo = {} := by
    intro env I d h1 h2 h3
    rcases start_monitoring_cases env I d with h | h | h | h | h
    · rw [h.2]; exact ⟨h1, by simp, h3⟩
    · rw [h.2.2]; exact ⟨h1, by simp, h3⟩
    · rw [h.2.2.2]; exact ⟨(isValidInterval_iff I).1 h.2.1, by simp, h3⟩
    · rw [h.2.2.2.2]
      exact ⟨(isValidInterval_iff I).1 h.2.1, by simp, rfl⟩
    · rw [h.2.2.2.2]
      exact ⟨(isValidInterval_iff I).1 h.2.1, by simp [MonitorContext.Reset], rfl⟩
  have hstop : ∀ w : DWORD,
      (100 ≤ (stop_monitoring w c).updateInterval ∧
          (stop_monitoring w c).updateInterval ≤ 3600000) ∧
        ((stop_monitoring w c).lastError ≠ MonitoringError.InvalidInterval ∧
          (stop_monitoring w c).lastError ≠ MonitoringError.NotRunning ∧
          (stop_monitoring w c).lastError ≠ MonitoringError.EventCreationFailed ∧
          (stop_monitoring w c).lastError ≠ MonitoringError.CallbackFailed) ∧
        (stop_monitoring w c).dynamicInfo = {} := by
    intro w
    rcases stop_monitoring_cases w c with h | h
    · rw [h.2]; exact ⟨hint, herr, hdyn⟩
    · rw [h.2]; exact ⟨hint, by simp [MonitorContext.Reset], rfl⟩
  cases op with
  | start_monitoring env I => exact hstart env I c hint herr hdyn
  | stop_monitoring w => exact hstop w
  | set_update_interval I =>
    simp only [applyOp]
    rcases set_update_interval_cases I c with h | h
    · rw [h.2]; exact ⟨(isValidInterval_iff I).1 h.1, herr, hdyn⟩
    · rw [h.2]; exact ⟨hint, by simp, hdyn⟩
  | set_callback cb =>
    simp only [applyOp]
    rcases set_callback_cases cb c with h | h
    · rw [h]; exact ⟨hint, herr, hdyn⟩
    · rw [h]; exact ⟨hint, by simp, hdyn⟩
  | StartMonitoring env I =>
    simp only [applyOp]
    rcases startMonitoring_cases env I c with h | h | h
    · rw [h.2]; exact ⟨hint, by simp, hdyn⟩
    · rw [h.2.2]
      exact hstart env I _ ((isValidInterval_iff I).1 h.1) herr hdyn
    · rw [h.2.2]
      exact hstart env I _ ((isValidInterval_iff I).1 h.1) herr hdyn
  | StopMonitoring w => exact hstop w
  | SetUpdateInterval I =>
    simp only [applyOp]
    rcases setUpdateInterval_cpp_cases I c with h | h
    · rw [h.2]; exact ⟨(isValidInterval_iff I).1 h.1, herr, hdyn⟩
    · rw [h.2]; exact ⟨hint, by simp, hdyn⟩
  | SetCallback cb =>
    simp only [applyOp]
    rcases setCallback_cases cb c with h | h
    · rw [h]; exact ⟨hint, herr, hdyn⟩
    · rw [h]; exact ⟨hint, by simp, hdyn⟩
  | workerInit now =>
    simp only [applyOp]
    split_ifs
    · exact ⟨hint, by simp [MonitorContext.InitializeSession, MonitorContext.SetLastError],
        hdyn⟩
    · exact ⟨hint, herr, hdyn⟩
  | workerCycle env =>
    simp only [applyOp]
    cases h : monitoring_thread_cycle env c with
    | none => exact ⟨hint, herr, hdyn⟩
    | some r =>
      obtain ⟨c2, events⟩ := r
      have hfr := monitoring_thread_cycle_frame h
      have hi : c2.updateInterval = c.updateInterval := hfr.2.2.2.1
      refine ⟨?_, ?_, hfr.2.2.2.2.2.2.1⟩
      · show 100 ≤ c2.updateInterval ∧ c2.updateInterval ≤ 3600000
        rw [hi]; exact hint
      show c2.lastError ≠ _ ∧ c2.lastError ≠ _ ∧ c2.lastError ≠ _ ∧ c2.lastError ≠ _
      rcases monitoring_thread_cycle_lastError h with hl | hl | hl | hl | hl
      · rw [hl]; exact herr
      · rw [hl]; simp
      · rw [hl]; simp
      · rw [hl]; simp
      · rw [hl]; simp

theorem runOps_keeps_invariants (ops : List Op) :
    (100 ≤ (runOps ops g_MonitorContext).updateInterval ∧
        (runOps ops g_MonitorContext).updateInterval ≤ 3600000) ∧
      ((runOps ops g_MonitorContext).lastError ≠ MonitoringError.InvalidInterval ∧
        (runOps ops g_MonitorContext).lastError ≠ MonitoringError.NotRunning ∧
        (runOps ops g_MonitorContext).lastError ≠ MonitoringError.EventCreationFailed ∧
        (runOps ops g_MonitorContext).lastError ≠ MonitoringError.CallbackFailed) ∧
      (runOps ops g_MonitorContext).dynamicInfo = {} :=
  runOps_invariant
    (fun c => (100 ≤ c.updateInterval ∧ c.updateInterval ≤ 3600000) ∧
      (c.lastError ≠ MonitoringError.InvalidInterval ∧
        c.lastError ≠ MonitoringError.NotRunning ∧
        c.lastError ≠ MonitoringError.EventCreationFailed ∧
        c.lastError ≠ MonitoringError.CallbackFailed) ∧
      c.dynamicInfo = {})
    (fun op c h => applyOp_keeps_invariants op c h.1 h.2.1 h.2.2) ops g_MonitorContext
    ⟨by decide, by decide, rfl⟩

/-- The outcome of `CollectDynamicInfo` does not depend on what the slot held: the code never,
and on success the snapshot neither. -/
theorem collectDynamicInfo_fresh (env : CycleEnv) (d1 d2 : DynamicInfo) :
    (CollectDynamicInfo env d1).1 = (CollectDynamicInfo env d2).1 ∧
      ((CollectDynamicInfo env d1).1 = MonitoringError.Success →
        (CollectDynamicInfo env d1).2 = (CollectDynamicInfo env d2).2) := by
  unfold CollectDynamicInfo
  cases env.GetMemoryInfo with
  | throws => simp
  | returns mem =>
    cases mem with
    | none => simp
    | some m =>
      cases env.GetStorageList with
      | throws => simp
      | returns storage =>
        cases storage with
        | none => simp
        | some s =>
          cases env.GetNetworkAdapterList with
          | throws => simp
          | returns network =>
            cases network with
            | none => simp
            | some n =>
              cases env.GetBatteryInfo with
              | throws => simp
              | returns battery => simp

theorem staticPhase_ignores_dynamic (env : CycleEnv) (c : MonitorContext) (d : DynamicInfo) :
    (staticPhase env { c with dynamicInfo := d }).1.isFirstRun
        = (staticPhase env c).1.isFirstRun ∧
      (staticPhase env { c with dynamicInfo := d }).1.staticInfo
        = (staticPhase env c).1.staticInfo := by
  simp only [staticPhase]
  split_ifs <;> simp [MonitorContext.SetLastError]

theorem cycleDocument_ignores_dynamic (env : CycleEnv) (c : MonitorContext) (d : DynamicInfo) :
    cycleDocument env { c with dynamicInfo := d } = cycleDocument env c := by
  have hs := staticPhase_ignores_dynamic env c d
  have hd := collectDynamicInfo_fresh env d c.dynamicInfo
  rw [cycleDocument_eq, cycleDocument_eq, hs.1, hs.2]
  show (if (CollectDynamicInfo env d).1 = MonitoringError.Success ∧ _ then
    GenerateJsonSafely env _ (CollectDynamicInfo env d).2 else none) = _
  rw [hd.1]
  by_cases hg : (CollectDynamicInfo env c.dynamicInfo).1 = MonitoringError.Success ∧
      (staticPhase env c).1.isFirstRun = false
  · rw [if_pos hg, if_pos hg, hd.2 (hd.1.trans hg.1)]
  · rw [if_neg hg, if_neg hg]

/-- C21: in every reachable context the stored update interval lies in `[100, 3,600,000]`. It
starts at the default 1000, and no sequence of calls of the C and C++ interface (with valid or
invalid arguments, whatever the system calls return) and of worker steps puts it outside these
bounds. -/
theorem update_interval_always_in_bounds :
    g_MonitorContext.updateInterval = 1000 ∧
      ∀ ops : List Op,
        100 ≤ (runOps ops g_MonitorContext).updateInterval ∧
          (runOps ops g_MonitorContext).updateInterval ≤ 3600000 :=
  ⟨rfl, fun ops => (runOps_keeps_invariants ops).1⟩

/-- C24: at the end of every worker iteration, whatever happened in it, the dynamic snapshot is
empty (memory, storage, network and battery all absent), and so it is in every reachable
context. No iteration serializes dynamic data of an earlier one: a successful
`CollectDynamicInfo` gives the same snapshot whatever the slot held, and the document of an
iteration does not depend on what the slot held when the iteration began. -/
theorem dynamic_snapshot_discarded_each_cycle :
    (∀ (env : CycleEnv) (c c2 : MonitorContext) (events : List Event),
        monitoring_thread_cycle env c = some (c2, events) →
        c2.dynamicInfo.memInfo = none ∧ c2.dynamicInfo.storageList = none ∧
          c2.dynamicInfo.networkList = none ∧ c2.dynamicInfo.batteryInfo = none) ∧
      (∀ ops : List Op, (runOps ops g_MonitorContext).dynamicInfo = {}) ∧
      (∀ (env : CycleEnv) (d1 d2 : DynamicInfo),
        (CollectDynamicInfo env d1).1 = MonitoringError.Success →
        (CollectDynamicInfo env d1).2 = (CollectDynamicInfo env d2).2) ∧
      (∀ (env : CycleEnv) (c : MonitorContext) (d : DynamicInfo),
        cycleDocument env { c with dynamicInfo := d } = cycleDocument env c) := by
  refine ⟨?_, fun ops => (runOps_keeps_invariants ops).2.2,
    fun env d1 d2 => (collectDynamicInfo_fresh env d1 d2).2, cycleDocument_ignores_dynamic⟩
  intro env c c2 events h
  have hd := (monitoring_thread_cycle_frame h).2.2.2.2.2.2.1
  rw [hd]
  exact ⟨rfl, rfl, rfl, rfl⟩

/-- Witness of C24: an iteration in which `GetStorageList` returns null after `GetMemoryInfo`
succeeded (a partially failed dynamic collection) ends with the memory entry absent. -/
theorem dynamic_snapshot_discarded_each_cycle_witness :
    ∃ c2 events,
      monitoring_thread_cycle { healthyCycle with GetStorageList := CallResult.returns none }
        (start_monitoring { CreateEvent := 1, beginthreadex := 2 } 100 g_MonitorContext).2
        = some (c2, events) ∧
      (CollectDynamicInfo { healthyCycle with GetStorageList := CallResult.returns none }
        {}).2.memInfo = some 6 ∧
      c2.dynamicInfo.memInfo = none :=
  match h : monitoring_thread_cycle
      { healthyCycle with GetStorageList := CallResult.returns none }
      (start_monitoring { CreateEvent := 1, beginthreadex := 2 } 100 g_MonitorContext).2 with
  | some (c2, events) =>
    ⟨c2, events, rfl, rfl,
      (dynamic_snapshot_discarded_each_cycle.1 _ _ c2 events h).1⟩
  | none => absurd h (by decide)

/-- C29: in every reachable context the last error is one of `Success`, `InvalidParameter`,
`AlreadyRunning`, `SystemResourceError`, `ThreadCreationFailed`, `ThreadTerminationFailed`,
`DataCollectionFailed`, `JsonGenerationFailed`, `CallbackExecutionFailed` or `UnknownError`: no
call of the interface and no worker step leaves `InvalidInterval`, `NotRunning`,
`EventCreationFailed` or `CallbackFailed`; nor does the wait inside `stop_monitoring` record one
of them. -/
theorem last_error_never_unused_code :
    (∀ ops : List Op,
        (runOps ops g_MonitorContext).GetLastError ∈
            [MonitoringError.Success, MonitoringError.InvalidParameter,
              MonitoringError.AlreadyRunning, MonitoringError.SystemResourceError,
              MonitoringError.ThreadCreationFailed, MonitoringError.ThreadTerminationFailed,
              MonitoringError.DataCollectionFailed, MonitoringError.JsonGenerationFailed,
              MonitoringError.CallbackExecutionFailed, MonitoringError.UnknownError] ∧
          (runOps ops g_MonitorContext).GetLastError ≠ MonitoringError.InvalidInterval ∧
          (runOps ops g_MonitorContext).GetLastError ≠ MonitoringError.NotRunning ∧
          (runOps ops g_MonitorContext).GetLastError ≠ MonitoringError.EventCreationFailed ∧
          (runOps ops g_MonitorContext).GetLastError ≠ MonitoringError.CallbackFailed) ∧
      (∀ (w : DWORD) (c : MonitorContext),
        (waitForWorker w c).lastError = c.lastError ∨
          (waitForWorker w c).lastError = MonitoringError.ThreadTerminationFailed ∨
          (waitForWorker w c).lastError = MonitoringError.SystemResourceError) := by
  refine ⟨fun ops => ?_, fun w c => ?_⟩
  · have h := (runOps_keeps_invariants ops).2.1
    refine ⟨?_, h⟩
    show (runOps ops g_MonitorContext).lastError ∈ _
    cases he : (runOps ops g_MonitorContext).lastError <;> simp_all
  · unfold waitForWorker
    split_ifs <;> simp [MonitorContext.SetLastError]

/-! ## Iterations in which static collection fails, and iterations in which nothing fails -/

theorem dynamicCollections_append (a b : List Event) :
    dynamicCollections (a ++ b) = dynamicCollections a + dynamicCollections b := by
  induction a with
  | nil => simp [dynamicCollections]
  | cons e rest ih =>
    cases e
    case collectDynamic =>
      show dynamicCollections (rest ++ b) + 1 = dynamicCollections rest + 1 + dynamicCollections b
      omega
    all_goals simp [dynamicCollections, ih]

theorem serializations_append (a b : List Event) :
    serializations (a ++ b) = serializations a + serializations b := by
  induction a with
  | nil => simp [serializations]
  | cons e rest ih =>
    cases e
    case generateJson =>
      show serializations (rest ++ b) + 1 = serializations rest + 1 + serializations b
      omega
    all_goals simp [serializations, ih]

theorem monitoring_thread_cycle_events {env : CycleEnv} {c c2 : MonitorContext}
    {events : List Event} (h : monitoring_thread_cycle env c = some (c2, events)) :
    events = (staticPhase env c).2 ++ (dynamicPhase env (staticPhase env c).1).2.2 ++
      (emitPhase env (dynamicPhase env (staticPhase env c).1).1
        (dynamicPhase env (staticPhase env c).1).2.1).2 ++
      (endPhase env (emitPhase env (dynamicPhase env (staticPhase env c).1).1
        (dynamicPhase env (staticPhase env c).1).2.1).1).2 := by
  obtain ⟨hrun, hstop⟩ := monitoring_thread_cycle_some h
  rw [monitoring_thread_cycle_eq env c hrun hstop] at h
  exact (Prod.mk.inj (Option.some.inj h)).2.symm

theorem staticPhase_counts (env : CycleEnv) (c : MonitorContext) :
    dynamicCollections (staticPhase env c).2 = 0 ∧ serializations (staticPhase env c).2 = 0 := by
  simp only [staticPhase]
  split_ifs <;> simp [dynamicCollections, serializations, setLastErrorEvents]

theorem callbackEvents_counts (c : MonitorContext) (doc : String) :
    dynamicCollections (cCallbackEvents c doc) = 0 ∧
      serializations (cCallbackEvents c doc) = 0 ∧
      dynamicCollections (cppCallbackEvents c doc) = 0 ∧
      serializations (cppCallbackEvents c doc) = 0 := by
  unfold cCallbackEvents cppCallbackEvents
  cases c.cCallback <;> cases c.cppCallback <;>
    simp [dynamicCollections, serializations]

theorem emitPhase_counts (env : CycleEnv) (r : MonitoringError) (c : MonitorContext) :
    dynamicCollections (emitPhase env r c).2 = 0 ∧
      serializations (emitPhase env r c).2
        = (if r = MonitoringError.Success ∧ c.isFirstRun = false then 1 else 0) := by
  have hcb := fun doc => callbackEvents_counts c doc
  rcases emitPhase_cases env r c with h | h | h | h | ⟨doc, h⟩
  · rw [h.2, if_neg (fun hg => h.1 hg.1)]
    simp [dynamicCollections, serializations, setLastErrorEvents]
  · rw [h.2.2, if_neg (fun hg => by simp [h.2.1] at hg)]
    simp [dynamicCollections, serializations]
  · rw [h.2.2.2, if_pos (And.intro h.1 h.2.1)]
    simp [dynamicCollections, serializations, setLastErrorEvents]
  · rw [h.2.2.2, if_pos (And.intro h.1 h.2.1)]
    simp [dynamicCollections, serializations, setLastErrorEvents]
  · rw [h.2.2.2.2, if_pos (And.intro h.1 h.2.1)]
    cases callbackFailed env c doc <;>
      simp [dynamicCollections, serializations, setLastErrorEvents, dynamicCollections_append,
        serializations_append, (hcb doc).1, (hcb doc).2.1, (hcb doc).2.2.1, (hcb doc).2.2.2]

/-- Every iteration calls `CollectDynamicInfo` once, and `GenerateJsonSafely` once when the
dynamic collection succeeded with the first-run flag clear, otherwise not. -/
theorem monitoring_thread_cycle_counts {env : CycleEnv} {c c2 : MonitorContext}
    {events : List Event} (h : monitoring_thread_cycle env c = some (c2, events)) :
    dynamicCollections events = 1 ∧
      serializations events
        = (if (CollectDynamicInfo env c.dynamicInfo).1 = MonitoringError.Success ∧
              (staticPhase env c).1.isFirstRun = false then 1 else 0) := by
  have ha := dynamicPhase_after_static env c
  have h1 := staticPhase_counts env c
  have h3 := emitPhase_counts env (dynamicPhase env (staticPhase env c).1).1
    (dynamicPhase env (staticPhase env c).1).2.1
  have h2 : ∀ d : MonitorContext, dynamicCollections (dynamicPhase env d).2.2 = 1 ∧
      serializations (dynamicPhase env d).2.2 = 0 := by
    intro d
    simp [dynamicPhase, dynamicCollections, serializations]
  have h4 : ∀ d : MonitorContext, dynamicCollections (endPhase env d).2 = 0 ∧
      serializations (endPhase env d).2 = 0 := by
    intro d
    simp [endPhase, dynamicCollections, serializations]
  rw [monitoring_thread_cycle_events h]
  refine ⟨?_, ?_⟩
  · rw [dynamicCollections_append, dynamicCollections_append, dynamicCollections_append, h1.1,
      h3.1, (h2 _).1, (h4 _).1]
  · rw [serializations_append, serializations_append, serializations_append, h1.2, h3.2,
      (h2 _).2, (h4 _).2, ha.1, ha.2.1]
    simp

/-- An iteration entered with the first-run flag set whose `CollectStaticInfo` fails: what it
does and what it leaves. -/
theorem monitoring_thread_cycle_static_failure (env : CycleEnv) (c : MonitorContext)
    (hrun : c.isRunning = true) (hstop : env.stopSignalled = false)
    (hfirst : c.isFirstRun = true)
    (hfail : (CollectStaticInfo env c.staticInfo).1 ≠ MonitoringError.Success) :
    ∃ c2 events, monitoring_thread_cycle env c = some (c2, events) ∧
      c2.lastError = MonitoringError.DataCollectionFailed ∧
      callbackCalls events = [] ∧ serializations events = 0 ∧
      dynamicCollections events = 1 ∧ staticCollections events = 1 ∧
      c2.isRunning = true ∧ c2.isFirstRun = true ∧
      c2.cycleCount = (c.cycleCount + 1) % 2 ^ SIZE_BITS ∧ c2.dynamicInfo = {} ∧
      sleeps events = [sleepDuration c.updateInterval] := by
  obtain ⟨c2, events, h, hrun2, _, hsleep, _⟩ := monitoring_thread_cycle_runs env c hrun hstop
  have hfr := monitoring_thread_cycle_frame h
  have hcnt := monitoring_thread_cycle_counts h
  have hsp := (staticPhase_first_run env c hfirst).2 hfail
  have ha := dynamicPhase_after_static env c
  have hflag : c2.isFirstRun = true := hfr.2.2.2.2.2.2.2.1.trans hsp.1
  have hcalls : callbackCalls events = [] := by
    by_contra hne
    obtain ⟨doc, hdoc, _⟩ := monitoring_thread_cycle_calls_only_document h hne
    have hclear := (cycleDocument_some hdoc).2.1
    rw [hsp.1] at hclear
    exact Bool.noConfusion hclear
  refine ⟨c2, events, h, ?_, hcalls, ?_, hcnt.1, ?_, hrun2, hflag, hfr.2.2.2.2.2.1,
    hfr.2.2.2.2.2.2.1, hsleep⟩
  · by_cases hd : (CollectDynamicInfo env c.dynamicInfo).1 = MonitoringError.Success
    · have he := (monitoring_thread_cycle_emit h).1
      rw [ha.1, hd, emitPhase_of_first_run env _ (ha.2.1.trans hsp.1)] at he
      rw [he, ha.2.2.2.2.2.2]
      exact hsp.2
    · exact (monitoring_thread_cycle_of_dynamic_failure h hd).2
  · rw [hcnt.2, if_neg]
    intro hg
    rw [hsp.1] at hg
    exact Bool.noConfusion hg.2
  · rw [hfr.2.2.2.2.2.2.2.2.2, hfirst]
    rfl

/-- C22: when static collection fails in an iteration, `DataCollectionFailed` is the last error
at its end, no document is generated and no callback called in it, the loop keeps running
(still `isRunning`, the cycle counter incremented as a `size_t`), the first-run flag stays set
and the next iteration calls `CollectStaticInfo` again. -/
theorem static_failure_recorded_and_retried (env : CycleEnv) (c : MonitorContext)
    (hrun : c.isRunning = true) (hstop : env.stopSignalled = false)
    (hfirst : c.isFirstRun = true)
    (hfail : (CollectStaticInfo env c.staticInfo).1 ≠ MonitoringError.Success) :
    ∃ c2 events, monitoring_thread_cycle env c = some (c2, events) ∧
      c2.GetLastError = MonitoringError.DataCollectionFailed ∧
      serializations events = 0 ∧ callbackCalls events = [] ∧
      c2.isRunning = true ∧ c2.cycleCount = (c.cycleCount + 1) % 2 ^ SIZE_BITS ∧
      (c.cycleCount + 1 < 2 ^ SIZE_BITS → c2.cycleCount = c.cycleCount + 1) ∧
      c2.isFirstRun = true ∧
      ∀ env2 : CycleEnv, env2.stopSignalled = false →
        ∃ c3 events2, monitoring_thread_cycle env2 c2 = some (c3, events2) ∧
          staticCollections events2 = 1 := by
  obtain ⟨c2, events, h, herr, hcalls, hser, _, _, hrun2, hflag, hcount, _, _⟩ :=
    monitoring_thread_cycle_static_failure env c hrun hstop hfirst hfail
  refine ⟨c2, events, h, herr, hser, hcalls, hrun2, hcount, ?_, hflag, ?_⟩
  · intro hlt
    rw [hcount, Nat.mod_eq_of_lt hlt]
  · intro env2 hstop2
    obtain ⟨c3, events2, h2, _⟩ := monitoring_thread_cycle_runs env2 c2 hrun2 hstop2
    refine ⟨c3, events2, h2, ?_⟩
    rw [(monitoring_thread_cycle_frame h2).2.2.2.2.2.2.2.2.2, hflag]
    rfl

/-- Witness of C22: the first iteration of a session with C callback 7 registered, in which
`GetGPUList` throws. -/
theorem static_failure_recorded_and_retried_witness :
    ∃ c2 events,
      monitoring_thread_cycle { healthyCycle with GetGPUList := CallResult.throws }
        (start_monitoring { CreateEvent := 1, beginthreadex := 2 } 100
          (set_callback (some 7) g_MonitorContext)).2 = some (c2, events) ∧
      c2.GetLastError = MonitoringError.DataCollectionFailed ∧
      callbackCalls events = [] ∧ c2.cycleCount = 1 ∧ c2.isFirstRun = true :=
  match static_failure_recorded_and_retried
    { healthyCycle with GetGPUList := CallResult.throws }
    (start_monitoring { CreateEvent := 1, beginthreadex := 2 } 100
      (set_callback (some 7) g_MonitorContext)).2 rfl rfl rfl (by decide) with
  | ⟨c2, events, h, herr, _, hcalls, _, _, hcount, hflag, _⟩ =>
    ⟨c2, events, h, herr, hcalls, hcount (by decide), hflag⟩

/-- C23, as stated, fails in the first iteration of a session in which `GetCPUList` throws:
static collection fails (the last error is `DataCollectionFailed`, the flag stays set) and
`CollectDynamicInfo` is called in that iteration all the same. -/
theorem dynamic_collection_after_static_failure :
    (CollectStaticInfo { healthyCycle with GetCPUList := CallResult.throws } {}).1
        = MonitoringError.DataCollectionFailed ∧
      staticCollections (monitoring_thread 3
        [{ healthyCycle with GetCPUList := CallResult.throws }]
        (start_monitoring { CreateEvent := 1, beginthreadex := 2 } 100
          g_MonitorContext).2).2.1 = 1 ∧
      ¬ (dynamicCollections (monitoring_thread 3
        [{ healthyCycle with GetCPUList := CallResult.throws }]
        (start_monitoring { CreateEvent := 1, beginthreadex := 2 } 100
          g_MonitorContext).2).2.1 = 0) ∧
      dynamicCollections (monitoring_thread 3
        [{ healthyCycle with GetCPUList := CallResult.throws }]
        (start_monitoring { CreateEvent := 1, beginthreadex := 2 } 100
          g_MonitorContext).2).2.1 = 1 := by
  decide

/-- C23 (amended): when static collection fails in an iteration, `CollectDynamicInfo` is still
called once in that iteration, but neither serialization nor dispatch takes place
(`GenerateJsonSafely` is not called and no callback is called); the iteration then does the
end-of-cycle steps: the dynamic snapshot is discarded, the cycle counted, and the worker sleeps
once for the stored interval. -/
theorem static_failure_skips_serialization (env : CycleEnv) (c : MonitorContext)
    (hrun : c.isRunning = true) (hstop : env.stopSignalled = false)
    (hfirst : c.isFirstRun = true)
    (hfail : (CollectStaticInfo env c.staticInfo).1 ≠ MonitoringError.Success) :
    ∃ c2 events, monitoring_thread_cycle env c = some (c2, events) ∧
      dynamicCollections events = 1 ∧ serializations events = 0 ∧
      callbackCalls events = [] ∧ c2.dynamicInfo = {} ∧
      c2.cycleCount = (c.cycleCount + 1) % 2 ^ SIZE_BITS ∧
      sleeps events = [sleepDuration c.updateInterval] := by
  obtain ⟨c2, events, h, _, hcalls, hser, hdyn, _, _, _, hcount, hdisc, hsleep⟩ :=
    monitoring_thread_cycle_static_failure env c hrun hstop hfirst hfail
  exact ⟨c2, events, h, hdyn, hser, hcalls, hdisc, hcount, hsleep⟩

/-- Witness of C23 (amended): the first iteration of a session in which `GetCPUList` throws. -/
theorem static_failure_skips_serialization_witness :
    ∃ c2 events,
      monitoring_thread_cycle { healthyCycle with GetCPUList := CallResult.throws }
        (start_monitoring { CreateEvent := 1, beginthreadex := 2 } 100
          g_MonitorContext).2 = some (c2, events) ∧
      dynamicCollections events = 1 ∧ serializations events = 0 ∧ sleeps events = [100] :=
  match static_failure_skips_serialization
    { healthyCycle with GetCPUList := CallResult.throws }
    (start_monitoring { CreateEvent := 1, beginthreadex := 2 } 100
      g_MonitorContext).2 rfl rfl rfl (by decide) with
  | ⟨c2, events, h, hdyn, hser, _, _, _, hsleep⟩ =>
    ⟨c2, events, h, hdyn, hser, hsleep.trans (by decide)⟩

theorem staticPhase_lastError_of_clear (env : CycleEnv) (c : MonitorContext)
    (hclear : (staticPhase env c).1.isFirstRun = false) :
    (staticPhase env c).1.lastError = c.lastError := by
  by_cases hfirst : c.isFirstRun = true
  · by_cases hs : (CollectStaticInfo env c.staticInfo).1 = MonitoringError.Success
    · exact ((staticPhase_first_run env c hfirst).1 hs).2.2
    · have hset := ((staticPhase_first_run env c hfirst).2 hs).1
      rw [hclear] at hset
      exact Bool.noConfusion hset
  · rw [staticPhase_of_not_first env c (Bool.not_eq_true _ ▸ hfirst)]

theorem callbackFailed_of_no_throw (env : CycleEnv) (c : MonitorContext) (doc : String)
    (hC : ∀ f, c.cCallback = some f → env.cCallbackThrows f doc = false)
    (hCpp : ∀ g, c.cppCallback = some g → env.cppCallbackThrows g doc = false) :
    callbackFailed env c doc = false := by
  unfold callbackFailed
  cases hc : c.cCallback with
  | none =>
    cases hcpp : c.cppCallback with
    | none => rfl
    | some g => simp [hCpp g hcpp]
  | some f =>
    cases hcpp : c.cppCallback with
    | none => simp [hC f hc]
    | some g => simp [hC f hc, hCpp g hcpp]

/-- An iteration that generates a non-empty document with no callback throwing keeps the last
error, the first-run flag clear and the static snapshot. -/
theorem monitoring_thread_cycle_quiet {env : CycleEnv} {c c2 : MonitorContext}
    {events : List Event} (h : monitoring_thread_cycle env c = some (c2, events))
    {doc : String} (hdoc : cycleDocument env c = some doc) (hne : doc ≠ "")
    (hC : ∀ f, c.cCallback = some f → env.cCallbackThrows f doc = false)
    (hCpp : ∀ g, c.cppCallback = some g → env.cppCallbackThrows g doc = false) :
    c2.lastError = c.lastError := by
  have herr := (monitoring_thread_cycle_of_document h hdoc hne).2
  rw [callbackFailed_of_no_throw env c doc hC hCpp] at herr
  rw [herr]
  exact staticPhase_lastError_of_clear env c (cycleDocument_some hdoc).2.1

theorem monitoring_thread_loop_quiet (envs : List CycleEnv) (c : MonitorContext)
    (hflag : c.isFirstRun = false) (hcomplete : c.staticInfo.IsComplete = true)
    (hgood : ∀ env ∈ envs,
      (∀ d, (CollectDynamicInfo env d).1 = MonitoringError.Success) ∧
      (∀ s d, s.IsComplete = true → d.IsEssentialComplete = true →
        ∃ doc, env.GenerateSystemInfo s d = some doc ∧ doc ≠ "") ∧
      (∀ f doc, env.cCallbackThrows f doc = false) ∧
      (∀ g doc, env.cppCallbackThrows g doc = false)) :
    (monitoring_thread_loop envs c).1.lastError = c.lastError := by
  induction envs generalizing c with
  | nil => rfl
  | cons env rest ih =>
    cases h : monitoring_thread_cycle env c with
    | none => rw [monitoring_thread_loop_none h rest]
    | some r =>
      obtain ⟨c2, events⟩ := r
      obtain ⟨hdyn, hser, hC, hCpp⟩ := hgood env (List.mem_cons_self env rest)
      have hfr := monitoring_thread_cycle_frame h
      have hsp := staticPhase_of_not_first env c hflag
      have hflag2 : c2.isFirstRun = false := by
        rw [hfr.2.2.2.2.2.2.2.1, hsp]; exact hflag
      have hsnap : c2.staticInfo = c.staticInfo := by
        rw [hfr.2.2.2.2.2.2.2.2.1, hsp]
      obtain ⟨doc, hgen, hne⟩ := hser c.staticInfo (CollectDynamicInfo env c.dynamicInfo).2
        hcomplete (collectDynamicInfo_essential env _ (hdyn _))
      have hdoc : cycleDocument env c = some doc := by
        rw [cycleDocument_eq, hsp, if_pos ⟨hdyn _, hflag⟩,
          generateJsonSafely_of_complete env hcomplete
            (collectDynamicInfo_essential env _ (hdyn _))]
        exact hgen
      have hkeep := monitoring_thread_cycle_quiet h hdoc hne (fun f _ => hC f doc)
        (fun g _ => hCpp g doc)
      rw [monitoring_thread_loop_cons h rest]
      exact (ih c2 hflag2 (hsnap ▸ hcomplete)
        (fun e he => hgood e (List.mem_cons_of_mem env he))).trans hkeep

/-- C28: a worker iteration in which static data is available, dynamic collection and
serialization succeed (the iteration generates a non-empty document) and no registered callback
throws leaves the last error as it found it; so over any number of such iterations an error
recorded earlier, by an iteration or a call, persists. -/
theorem successful_cycle_keeps_last_error (env : CycleEnv) (c : MonitorContext)
    (hrun : c.isRunning = true) (hstop : env.stopSignalled = false) :
    (∀ doc : String, cycleDocument env c = some doc → doc ≠ "" →
        (∀ f, c.cCallback = some f → env.cCallbackThrows f doc = false) →
        (∀ g, c.cppCallback = some g → env.cppCallbackThrows g doc = false) →
        ∃ c2 events, monitoring_thread_cycle env c = some (c2, events) ∧
          c2.GetLastError = c.GetLastError) ∧
      (∀ envs : List CycleEnv, c.isFirstRun = false → c.staticInfo.IsComplete = true →
        (∀ e ∈ envs,
          (∀ d, (CollectDynamicInfo e d).1 = MonitoringError.Success) ∧
          (∀ s d, s.IsComplete = true → d.IsEssentialComplete = true →
            ∃ doc, e.GenerateSystemInfo s d = some doc ∧ doc ≠ "") ∧
          (∀ f doc, e.cCallbackThrows f doc = false) ∧
          (∀ g doc, e.cppCallbackThrows g doc = false)) →
        (monitoring_thread_loop envs c).1.GetLastError = c.GetLastError) := by
  refine ⟨?_, fun envs hflag hcomplete hgood =>
    monitoring_thread_loop_quiet envs c hflag hcomplete hgood⟩
  intro doc hdoc hne hC hCpp
  obtain ⟨c2, events, h, _⟩ := monitoring_thread_cycle_runs env c hrun hstop
  exact ⟨c2, events, h, monitoring_thread_cycle_quiet h hdoc hne hC hCpp⟩

/-- Witness of C28: a session whose first iteration failed in dynamic collection holds
`DataCollectionFailed`; its next iteration, in which everything succeeds, leaves
`DataCollectionFailed`. -/
theorem successful_cycle_keeps_last_error_witness :
    ∃ c2 events,
      monitoring_thread_cycle healthyCycle
        (monitoring_thread 3 [{ healthyCycle with GetMemoryInfo := CallResult.throws }]
          (start_monitoring { CreateEvent := 1, beginthreadex := 2 } 100
            (set_callback (some 7) g_MonitorContext)).2).1 = some (c2, events) ∧
      c2.GetLastError = MonitoringError.DataCollectionFailed :=
  match (successful_cycle_keeps_last_error healthyCycle
    (monitoring_thread 3 [{ healthyCycle with GetMemoryInfo := CallResult.throws }]
      (start_monitoring { CreateEvent := 1, beginthreadex := 2 } 100
        (set_callback (some 7) g_MonitorContext)).2).1 rfl rfl).1 "doc" rfl (by decide)
    (fun _ _ => rfl) (fun _ _ => rfl) with
  | ⟨c2, events, h, herr⟩ => ⟨c2, events, h, herr.trans rfl⟩

/-! ## Locks held by the worker -/

theorem heldAfter_append (held : List Mutex) (a b : List Event) :
    heldAfter held (a ++ b) = heldAfter (heldAfter held a) b := by
  induction a generalizing held with
  | nil => rfl
  | cons e rest ih => cases e <;> simp [heldAfter, ih]

theorem underLocks_append (held : List Mutex) (a b : List Event) :
    underLocks held (a ++ b) = underLocks held a ++ underLocks (heldAfter held a) b := by
  induction a generalizing held with
  | nil => rfl
  | cons e rest ih => cases e <;> simp [underLocks, heldAfter, ih]

theorem staticPhase_locks (env : CycleEnv) (c : MonitorContext) :
    heldAfter [] (staticPhase env c).2 = [] ∧
      (underLocks [] (staticPhase env c).2 = [] ∨
        underLocks [] (staticPhase env c).2 = [(Event.collectStatic, [Mutex.dataMutex])]) := by
  simp only [staticPhase]
  split_ifs
  · exact ⟨rfl, Or.inr rfl⟩
  · exact ⟨rfl, Or.inr rfl⟩
  · exact ⟨rfl, Or.inl rfl⟩

theorem dynamicPhase_locks (env : CycleEnv) (c : MonitorContext) :
    heldAfter [] (dynamicPhase env c).2.2 = [] ∧
      underLocks [] (dynamicPhase env c).2.2 = [(Event.collectDynamic, [Mutex.dataMutex])] :=
  ⟨rfl, rfl⟩

theorem endPhase_locks (env : CycleEnv) (c : MonitorContext) :
    heldAfter [] (endPhase env c).2 = [] ∧
      underLocks [] (endPhase env c).2
        = [(Event.sleep (sleepDuration c.updateInterval), [])] :=
  ⟨rfl, rfl⟩

theorem emitPhase_locks (env : CycleEnv) (r : MonitoringError) (c : MonitorContext) :
    heldAfter [] (emitPhase env r c).2 = [] ∧
      (underLocks [] (emitPhase env r c).2 = [] ∨
        underLocks [] (emitPhase env r c).2 = [(Event.generateJson, [Mutex.dataMutex])] ∨
        ∃ doc, underLocks [] (emitPhase env r c).2
          = (Event.generateJson, [Mutex.dataMutex]) ::
            (cCallbackEvents c doc ++ cppCallbackEvents c doc).map
              (fun e => (e, [Mutex.callbackMutex]))) := by
  rcases emitPhase_cases env r c with h | h | h | h | ⟨doc, h⟩
  · rw [h.2]; exact ⟨rfl, Or.inl rfl⟩
  · rw [h.2.2]; exact ⟨rfl, Or.inl rfl⟩
  · rw [h.2.2.2]; exact ⟨rfl, Or.inr (Or.inl rfl)⟩
  · rw [h.2.2.2]; exact ⟨rfl, Or.inr (Or.inl rfl)⟩
  · rw [h.2.2.2.2]
    refine ⟨?_, Or.inr (Or.inr ⟨doc, ?_⟩)⟩
    · unfold cCallbackEvents cppCallbackEvents
      cases c.cCallback <;> cases c.cppCallback <;> cases callbackFailed env c doc <;> rfl
    · unfold cCallbackEvents cppCallbackEvents
      cases c.cCallback <;> cases c.cppCallback <;> cases callbackFailed env c doc <;> rfl

/-- C26, as stated, fails in every iteration; in the first iteration of a session with C
callback 7 registered and everything succeeding, `CollectStaticInfo`, `CollectDynamicInfo` and
`GenerateJsonSafely` each run with the data mutex held. -/
theorem collectors_run_under_data_lock :
    underLocks [] (monitoring_thread 3 [healthyCycle]
        (start_monitoring { CreateEvent := 1, beginthreadex := 2 } 100
          (set_callback (some 7) g_MonitorContext)).2).2.1
      = [(Event.collectStatic, [Mutex.dataMutex]), (Event.collectDynamic, [Mutex.dataMutex]),
         (Event.generateJson, [Mutex.dataMutex]), (Event.callC 7 "doc", [Mutex.callbackMutex]),
         (Event.sleep 100, [])] := by
  decide

/-- C26 (amended): in the worker loop the data mutex, and no other, is held while a collector
(`CollectStaticInfo`, `CollectDynamicInfo`) or the serializer (`GenerateJsonSafely`) is
executing: the collectors write into the shared snapshots under the lock. The callbacks are
called with the callback mutex alone held, the worker sleeps with no mutex held, and every
mutex taken in an iteration is released by its end. -/
theorem worker_lock_discipline (env : CycleEnv) (c c2 : MonitorContext)
    (events : List Event) (h : monitoring_thread_cycle env c = some (c2, events)) :
    heldAfter [] events = [] ∧
      (Event.collectDynamic, [Mutex.dataMutex]) ∈ underLocks [] events ∧
      ∃ S E,
        underLocks [] events
          = S ++ [(Event.collectDynamic, [Mutex.dataMutex])] ++ E ++
            [(Event.sleep (sleepDuration c.updateInterval), [])] ∧
        (S = [] ∨ S = [(Event.collectStatic, [Mutex.dataMutex])]) ∧
        (E = [] ∨ E = [(Event.generateJson, [Mutex.dataMutex])] ∨
          ∃ doc, E = (Event.generateJson, [Mutex.dataMutex]) ::
            (cCallbackEvents c doc ++ cppCallbackEvents c doc).map
              (fun e => (e, [Mutex.callbackMutex]))) := by
  have ha := dynamicPhase_after_static env c
  have h1 := staticPhase_locks env c
  have h2 := dynamicPhase_locks env (staticPhase env c).1
  have h3 := emitPhase_locks env (dynamicPhase env (staticPhase env c).1).1
    (dynamicPhase env (staticPhase env c).1).2.1
  have h4 := endPhase_locks env (emitPhase env (dynamicPhase env (staticPhase env c).1).1
    (dynamicPhase env (staticPhase env c).1).2.1).1
  have hi : (emitPhase env (dynamicPhase env (staticPhase env c).1).1
      (dynamicPhase env (staticPhase env c).1).2.1).1.updateInterval = c.updateInterval := by
    rw [(emitPhase_frame env _ _).2.1, (dynamicPhase_frame env _).2.1,
      (staticPhase_frame env c).2.1]
  rw [hi] at h4
  have hcC : ∀ doc, cCallbackEvents (dynamicPhase env (staticPhase env c).1).2.1 doc
      = cCallbackEvents c doc := fun doc => cCallbackEvents_congr ha.2.2.2.2.1 doc
  have hcCpp : ∀ doc, cppCallbackEvents (dynamicPhase env (staticPhase env c).1).2.1 doc
      = cppCallbackEvents c doc := fun doc => cppCallbackEvents_congr ha.2.2.2.2.2.1 doc
  simp only [hcC, hcCpp] at h3
  have hshape : underLocks [] events
      = underLocks [] (staticPhase env c).2 ++ [(Event.collectDynamic, [Mutex.dataMutex])] ++
        underLocks [] (emitPhase env (dynamicPhase env (staticPhase env c).1).1
          (dynamicPhase env (staticPhase env c).1).2.1).2 ++
        [(Event.sleep (sleepDuration c.updateInterval), [])] := by
    rw [monitoring_thread_cycle_events h]
    simp only [underLocks_append, heldAfter_append, h1.1, h2.1, h3.1, h2.2, h4.2]
  refine ⟨?_, ?_, _, _, hshape, h1.2, h3.2⟩
  · rw [monitoring_thread_cycle_events h]
    simp only [heldAfter_append, h1.1, h2.1, h3.1, h4.1]
  · rw [hshape]
    simp

/-- Witness of C26 (amended): the first iteration of a session in which everything succeeds
ends with no mutex held, and `CollectDynamicInfo` ran with the data mutex held. -/
theorem worker_lock_discipline_witness :
    ∃ c2 events,
      monitoring_thread_cycle healthyCycle
        (start_monitoring { CreateEvent := 1, beginthreadex := 2 } 100
          (set_callback (some 7) g_MonitorContext)).2 = some (c2, events) ∧
      heldAfter [] events = [] ∧
      (Event.collectDynamic, [Mutex.dataMutex]) ∈ underLocks [] events :=
  match h : monitoring_thread_cycle healthyCycle
      (start_monitoring { CreateEvent := 1, beginthreadex := 2 } 100
        (set_callback (some 7) g_MonitorContext)).2 with
  | some (c2, events) =>
    have w := worker_lock_discipline healthyCycle _ c2 events h
    ⟨c2, events, rfl, w.1, w.2.1⟩
  | none => absurd h (by decide)
